import Mathlib

/-!
# Delivery game: mission controller (`Examen-01/src/game.js`)

A shallow embedding of the `Game` class and of the few helpers it calls
(`GameUtils.distance`, `CityBuilder.createPackage`, `Player.resetPosition`,
`Player.update`), followed by theorems about pickup, delivery, scoring,
the one-second timer, pause, reset and start, the generation of orders and
the callbacks a delivery schedules.

Modelling conventions.

* A JavaScript object is a structure; a method that mutates `this` is a
  function returning the new object (and the return value, if any).
* `null`/`undefined` is `none`.
* The counters `score`, `deliveries`, `level`, `time` start at `0`/`1` and are
  only ever incremented, so they are natural numbers; `timeRemaining` is the
  result of a subtraction clamped by `Math.max` and is an integer.
* A finite JavaScript number is a rational (every finite double is one), so
  comparing a distance with `15` or `25` is exact.
* `BABYLON.Vector3.Distance` belongs to the 3D engine, not to this repository:
  every function that measures a distance takes it as the argument `Distance`.
* `Math.random()` is a value in `[0, 1)`, given by the caller (`Draw`).
* `GameUtils.showNotification` and `setTimeout` are recorded in two logs kept
  next to the object's fields (`notifications`, `timeouts`).
* A dereference of `null` is the error `JSError.typeError`.
* Console output, mesh flashes, animation groups and the DOM refresh done by
  `updateUI` read the game but never write it; they are left out.
-/

namespace Delivery

/-! ## Values -/

/-- A `BABYLON.Vector3`. -/
structure Vector3 where
  x : ℚ
  y : ℚ
  z : ℚ
deriving DecidableEq

/-- The JavaScript numbers a distance computation can produce. -/
inductive JSNumber where
  | finite (q : ℚ)
  | infinity
  | nan
deriving DecidableEq

/-- The comparison `d < bound` of JavaScript, for a finite bound: false for
`Infinity` and for `NaN`. -/
def JSNumber.lt : JSNumber → ℚ → Bool
  | .finite q, bound => decide (q < bound)
  | .infinity, _ => false
  | .nan, _ => false

/-- Errors raised by the JavaScript runtime. -/
inductive JSError where
  | typeError
deriving DecidableEq

/-- One result of `Math.random()`: the rational `num / den`, in `[0, 1)`. -/
structure Draw where
  num : Nat
  den : Nat
  lt_one : num < den

/-- `Math.floor(Math.random() * n)` for the draw `d`. -/
def Draw.index (d : Draw) (n : Nat) : Nat :=
  d.num * n / d.den

/-! ## Collaborators -/

/-- A restaurant or a house as built by `CityBuilder.createBuilding`:
`id` stands for the identity of the object (what `===` compares). The `name`
of a building only appears in notification texts and is left out, and with it
the default name `getRandomHouse` gives to a house that has none. -/
structure Building where
  id : Nat
  position : Option Vector3
deriving DecidableEq

/-- The package node returned by `CityBuilder.createPackage`. `parent` tells
whether the node is attached to the player's mesh. -/
structure Package where
  parent : Bool
  position : Vector3
  scaling : Vector3
  disposed : Bool
deriving DecidableEq

/-- The mesh of the player's car. -/
structure Mesh where
  position : Option Vector3
deriving DecidableEq

/-- The `Player` object; `mesh` is `null` until a model is loaded. -/
structure Player where
  mesh : Option Mesh
deriving DecidableEq

/-- Severity passed to `GameUtils.showNotification`. -/
inductive Severity where
  | info
  | success
  | warning
deriving DecidableEq

/-- The messages `game.js` sends to `GameUtils.showNotification`, one
constructor per call site, with the numbers interpolated in the text. -/
inductive Notice where
  | newOrder
  | destination
  | pickedUp
  | closerToRestaurant
  | closerToHouse
  | levelReached (level : Nat)
  | delivered (deliveries goal points bonus : Nat)
  | won (deliveries time score : Nat)
  | timeUp (deliveries goal : Nat)
  | oneMinute
  | thirtySeconds
  | tenSeconds
deriving DecidableEq

/-- One call of `GameUtils.showNotification`. -/
structure Notification where
  notice : Notice
  severity : Severity
deriving DecidableEq

/-- The callbacks `game.js` hands to `setTimeout`. -/
inductive Callback where
  | disposePackage
  | createNewOrder
  | showDestination
deriving DecidableEq

/-- One pending `setTimeout(callback, delay)`. -/
structure Timeout where
  callback : Callback
  delay : Nat
deriving DecidableEq

/-- The object `this.scene`, as far as `game.js` calls it: `getAnimationGroups`
tells whether the object has a method of that name. -/
structure Scene where
  getAnimationGroups : Bool
deriving DecidableEq

/-- The fields of a `Game` object, with the notification log and the pending
timeouts. `timerInterval` holds the handle returned by `setInterval`, a
positive integer. -/
structure Game where
  player : Option Player
  score : Nat
  deliveries : Nat
  level : Nat
  time : Nat
  timerInterval : Option ℕ+
  isPaused : Bool
  isGameOver : Bool
  timeLimit : Nat
  deliveryGoal : Nat
  timeRemaining : Int
  gameWon : Bool
  currentPackage : Option Package
  currentRestaurant : Option Building
  currentHouse : Option Building
  hasPackage : Bool
  restaurants : List Building
  houses : List Building
  notifications : List Notification
  timeouts : List Timeout
  scene : Scene
deriving DecidableEq

/-- The scene `main.js` builds with `new BABYLON.Scene(engine)` and hands to
the game: a `BABYLON.Scene` keeps its animation groups in the property
`animationGroups` and has no method `getAnimationGroups`. -/
def Main.scene : Scene := { getAnimationGroups := false }

/-- The object built by `constructor(scene)` for the scene of `main.js`. -/
def Game.new : Game where
  player := none
  score := 0
  deliveries := 0
  level := 1
  time := 0
  timerInterval := none
  isPaused := false
  isGameOver := false
  timeLimit := 180
  deliveryGoal := 5
  timeRemaining := 180
  gameWon := false
  currentPackage := none
  currentRestaurant := none
  currentHouse := none
  hasPackage := false
  restaurants := []
  houses := []
  notifications := []
  timeouts := []
  scene := Main.scene

/-! ## Helpers of `utils.js`, `city.js`, `player.js` -/

/-- `GameUtils.distance(vec1, vec2)`. -/
def GameUtils.distance (Distance : Vector3 → Vector3 → JSNumber)
    (vec1 vec2 : Option Vector3) : JSNumber :=
  match vec1, vec2 with
  | some v1, some v2 => Distance v1 v2
  | _, _ => JSNumber.infinity

/-- `GameUtils.showNotification(message, type)`, as seen from the game. -/
def GameUtils.showNotification (g : Game) (notice : Notice) (type : Severity) : Game :=
  { g with notifications := g.notifications ++ [⟨notice, type⟩] }

/-- `setTimeout(callback, delay)`. -/
def setTimeout (g : Game) (callback : Callback) (delay : Nat) : Game :=
  { g with timeouts := g.timeouts ++ [⟨callback, delay⟩] }

/-- `CityBuilder.createPackage(position)`. -/
def CityBuilder.createPackage (position : Option Vector3) : Option Package :=
  match position with
  | none => none
  | some p =>
    some { parent := false, position := { p with y := 1 }, scaling := ⟨1, 1, 1⟩,
           disposed := false }

/-- `Package.dispose()`. -/
def Package.dispose (p : Package) : Package :=
  { p with disposed := true }

/-- `Player.resetPosition()`. -/
def Player.resetPosition (p : Player) : Player :=
  match p.mesh with
  | none => p
  | some _ => { p with mesh := some { position := some ⟨0, 2 / 5, 0⟩ } }

/-- `Player.update()`: the physics step either leaves the car where it is
(`moved = none`, speed below the threshold) or puts it at a new position. -/
def Player.update (p : Player) (moved : Option Vector3) : Player :=
  match p.mesh with
  | none => p
  | some m =>
    match moved with
    | none => p
    | some newPos => { p with mesh := some { m with position := some newPos } }

/-- The operator `===` on two references that may be `null`. -/
def sameObject : Option Building → Option Building → Bool
  | none, none => true
  | some a, some b => a.id == b.id
  | _, _ => false

/-- `Number.prototype.toString()` for a natural number: its decimal digits. -/
def JS.toString (n : Nat) : String :=
  String.mk (Nat.toDigits 10 n)

/-- `String.prototype.padStart(targetLength, padString)` for a pad string of
one character. -/
def JS.padStart (s : String) (targetLength : Nat) (pad : Char) : String :=
  if targetLength ≤ s.length then s
  else String.mk (List.replicate (targetLength - s.length) pad) ++ s

/-- `GameUtils.formatTime(seconds)` for a natural number of seconds. -/
def GameUtils.formatTime (seconds : Nat) : String :=
  let mins := seconds / 60
  let secs := seconds % 60
  JS.padStart (JS.toString mins) 2 '0' ++ ":" ++ JS.padStart (JS.toString secs) 2 '0'

/-- The value of a decimal digit character. -/
def digitValue (c : Char) : Nat :=
  c.toNat - '0'.toNat

/-- Reading a string `MM:SS` back as `60 * MM + SS`: the characters at
positions 0, 1 are the minutes, those at positions 3, 4 the seconds. -/
def readClock (s : String) : Nat :=
  match s.data with
  | [m1, m0, _, s1, s0] =>
    60 * (10 * digitValue m1 + digitValue m0) + (10 * digitValue s1 + digitValue s0)
  | _ => 0

/-- The restaurants `CityBuilder.createBuildings()` makes of its
`restaurantPositions`: one building, at ground level. -/
def CityBuilder.restaurants : List Building :=
  [{ id := 0, position := some ⟨0, 0, -60⟩ }]

/-- The houses `CityBuilder.createBuildings()` makes of its `housePositions`. -/
def CityBuilder.houses : List Building :=
  [{ id := 1, position := some ⟨-70, 0, 30⟩ }, { id := 2, position := some ⟨70, 0, 30⟩ },
    { id := 3, position := some ⟨-50, 0, 70⟩ }, { id := 4, position := some ⟨50, 0, 70⟩ },
    { id := 5, position := some ⟨0, 0, 70⟩ }]

/-! ## `Game` methods -/

/-- `Game.getRandomRestaurant()`. -/
def Game.getRandomRestaurant (g : Game) : Option Building :=
  if g.restaurants.length = 0 then none else g.restaurants[0]?

/-- `Game.getRandomHouse()`, with the value of `Math.random()` it reads. -/
def Game.getRandomHouse (g : Game) (d : Draw) : Option Building :=
  if g.houses.length = 0 then none else g.houses[d.index g.houses.length]?

/-- The first `do ... while` of `createNewOrder`; `fuel` bounds the number of
passes, `none` means the loop is still running when the fuel is spent. -/
def Game.restaurantLoop (g : Game) : Nat → Option (Option Building)
  | 0 => none
  | fuel + 1 =>
    let newRestaurant := g.getRandomRestaurant
    if decide (g.restaurants.length > 1) && sameObject newRestaurant g.currentRestaurant then
      g.restaurantLoop fuel
    else some newRestaurant

/-- The second `do ... while` of `createNewOrder`; pass number `i` reads
`rand i`. -/
def Game.houseLoop (g : Game) (rand : Nat → Draw) (i : Nat) : Nat → Option (Option Building)
  | 0 => none
  | fuel + 1 =>
    let newHouse := g.getRandomHouse (rand i)
    if decide (g.houses.length > 1) && sameObject newHouse g.currentHouse then
      g.houseLoop rand (i + 1) fuel
    else some newHouse

/-- `Game.createPackage()`. -/
def Game.createPackage (g : Game) : Game :=
  let g1 : Game :=
    match g.currentPackage with
    | some p => { g with currentPackage := some p.dispose }
    | none => g
  match g1.currentRestaurant with
  | some r =>
    match r.position with
    | some pos =>
      { g1 with currentPackage := CityBuilder.createPackage (some pos), hasPackage := false }
    | none => g1
  | none => g1

/-- `Game.createNewOrder()`; `none` when one of its loops does not finish
within `fuel` passes. -/
def Game.createNewOrder (rand : Nat → Draw) (fuel : Nat) (g : Game) : Option Game :=
  match g.restaurantLoop fuel with
  | none => none
  | some newRestaurant =>
    match g.houseLoop rand 0 fuel with
    | none => none
    | some newHouse =>
      let g1 : Game := { g with currentRestaurant := newRestaurant, currentHouse := newHouse }
      let g2 := g1.createPackage
      let g3 := GameUtils.showNotification g2 Notice.newOrder Severity.info
      some (setTimeout g3 Callback.showDestination 1500)

/-- The body of the branch `if (distance < 15)` of `pickupPackage`, entered
with the package `pkg`; it returns `true`. -/
def Game.takePackage (g : Game) (pkg : Package) : Game :=
  let pkg1 : Package :=
    { pkg with parent := true, position := ⟨0, 3 / 2, -5 / 2⟩,
               scaling := ⟨4 / 5, 4 / 5, 4 / 5⟩ }
  let g1 : Game := { g with currentPackage := some pkg1, hasPackage := true }
  GameUtils.showNotification g1 Notice.pickedUp Severity.success

/-- `Game.pickupPackage()`. -/
def Game.pickupPackage (Distance : Vector3 → Vector3 → JSNumber) (g : Game) :
    Except JSError (Game × Bool) :=
  match g.hasPackage, g.currentPackage, g.currentRestaurant with
  | false, some pkg, some restaurant =>
    match g.player with
    | none => .error JSError.typeError
    | some player =>
      match player.mesh with
      | none => .error JSError.typeError
      | some mesh =>
        let distance := GameUtils.distance Distance mesh.position restaurant.position
        if distance.lt 15 then .ok (g.takePackage pkg, true)
        else if distance.lt 25 then
          .ok (GameUtils.showNotification g Notice.closerToRestaurant Severity.warning, false)
        else .ok (g, false)
  | _, _, _ => .ok (g, false)

/-- The statement `if (this.timerInterval) { clearInterval(this.timerInterval);
this.timerInterval = null; }` shared by `gameOver`, `start` and `reset`. -/
def Game.clearTimer (g : Game) : Game :=
  match g.timerInterval with
  | some _ => { g with timerInterval := none }
  | none => g

/-- `Game.gameOver(won)`. -/
def Game.gameOver (g : Game) (won : Bool) : Game :=
  let g1 : Game := { g with isGameOver := true, gameWon := won }
  let g2 : Game := g1.clearTimer
  if won then
    GameUtils.showNotification g2 (Notice.won g2.deliveries g2.time g2.score) Severity.success
  else
    GameUtils.showNotification g2 (Notice.timeUp g2.deliveries g2.deliveryGoal) Severity.warning

/-- The time bonus of a delivery:
`Math.max(0, 50 - Math.floor(this.time / 10)) * this.level`. -/
def Game.timeBonus (g : Game) : Nat :=
  (max (0 : Int) (50 - ((g.time / 10 : Nat) : Int))).toNat * g.level

/-- The body of the branch `if (distance < 15)` of `deliverPackage`, entered
with the package `pkg` and the house position `housePos`; both of its exits
return `true`. -/
def Game.completeDelivery (g : Game) (pkg : Package) (housePos : Vector3) : Game :=
  let pkg1 : Package :=
    { pkg with parent := false, position := { housePos with y := 3 / 2 },
               scaling := ⟨1, 1, 1⟩ }
  let g1 : Game := { g with currentPackage := some pkg1, hasPackage := false }
  let g2 : Game := { g1 with deliveries := g1.deliveries + 1 }
  let points := 100 * g2.level
  let g3 : Game := { g2 with score := g2.score + points }
  let timeBonus := g3.timeBonus
  let g4 : Game :=
    if timeBonus > 0 then { g3 with score := g3.score + timeBonus } else g3
  let g5 : Game :=
    if g4.deliveries % 3 = 0 then
      let g4a : Game := { g4 with level := g4.level + 1 }
      GameUtils.showNotification g4a (Notice.levelReached g4a.level) Severity.success
    else g4
  let g6 := setTimeout g5 Callback.disposePackage 1500
  let g7 := GameUtils.showNotification g6
    (Notice.delivered g6.deliveries g6.deliveryGoal points timeBonus) Severity.success
  if g7.deliveries ≥ g7.deliveryGoal then
    g7.gameOver true
  else
    setTimeout g7 Callback.createNewOrder 2000

/-- `Game.deliverPackage()`. -/
def Game.deliverPackage (Distance : Vector3 → Vector3 → JSNumber) (g : Game) :
    Except JSError (Game × Bool) :=
  match g.hasPackage, g.currentPackage, g.currentHouse with
  | true, some pkg, some house =>
    match g.player with
    | none => .error JSError.typeError
    | some player =>
      match player.mesh with
      | none => .error JSError.typeError
      | some mesh =>
        let distance := GameUtils.distance Distance mesh.position house.position
        if distance.lt 15 then
          match house.position with
          | none => .error JSError.typeError
          | some housePos => .ok (g.completeDelivery pkg housePos, true)
        else if distance.lt 25 then
          .ok (GameUtils.showNotification g Notice.closerToHouse Severity.warning, false)
        else .ok (g, false)
  | _, _, _ => .ok (g, false)

/-- `Game.startTimer()`: a previous interval, if any, is cleared (its handle
is overwritten); `handle` is the value `setInterval` returns. The callback it
installs is `Game.tick`. -/
def Game.startTimer (g : Game) (handle : ℕ+) : Game :=
  { g with timerInterval := some handle }

/-- The callback given to `setInterval` in `startTimer`: one timer tick. -/
def Game.tick (g : Game) : Game :=
  if !g.isPaused && !g.isGameOver && !g.gameWon then
    let g1 : Game := { g with time := g.time + 1 }
    let g2 : Game :=
      { g1 with timeRemaining := max (0 : Int) ((g1.timeLimit : Int) - (g1.time : Int)) }
    let g3 : Game := if g2.timeRemaining ≤ 0 then g2.gameOver false else g2
    if g3.timeRemaining = 60 then
      GameUtils.showNotification g3 Notice.oneMinute Severity.warning
    else if g3.timeRemaining = 30 then
      GameUtils.showNotification g3 Notice.thirtySeconds Severity.warning
    else if g3.timeRemaining = 10 then
      GameUtils.showNotification g3 Notice.tenSeconds Severity.warning
    else g3
  else g

/-- `Game.update()`, called once per rendered frame; `moved` is the outcome of
`Player.update`, `handle` the value `setInterval` would return. -/
def Game.update (g : Game) (moved : Option Vector3) (handle : ℕ+) : Game :=
  if g.isPaused || g.isGameOver then g
  else
    let g1 : Game :=
      match g.player with
      | some p => { g with player := some (p.update moved) }
      | none => g
    match g1.timerInterval with
    | none => g1.startTimer handle
    | some _ => g1

/-- `Game.handleSpacePress()`. -/
def Game.handleSpacePress (Distance : Vector3 → Vector3 → JSNumber) (g : Game) :
    Except JSError Game :=
  if g.isPaused || g.isGameOver || g.player.isNone then .ok g
  else if g.hasPackage then
    (g.deliverPackage Distance).map Prod.fst
  else
    (g.pickupPackage Distance).map Prod.fst

/-- `Game.handleKeyPress(key)`. -/
def Game.handleKeyPress (Distance : Vector3 → Vector3 → JSNumber) (g : Game) (key : String) :
    Except JSError Game :=
  if key = " " then
    if g.hasPackage then
      (g.deliverPackage Distance).map Prod.fst
    else
      (g.pickupPackage Distance).map Prod.fst
  else if key = "r" ∨ key = "R" then
    match g.player with
    | some p => .ok { g with player := some p.resetPosition }
    | none => .ok g
  else .ok g

/-- `Game.start()`. -/
def Game.start (rand : Nat → Draw) (fuel : Nat) (g : Game) : Option Game :=
  let g1 : Game :=
    { g with isPaused := false, isGameOver := false, time := 0, score := 0, deliveries := 0,
             level := 1 }
  let g2 : Game := g1.clearTimer
  match g2.createNewOrder rand fuel with
  | none => none
  | some g3 =>
    match g3.player with
    | some p => some { g3 with player := some p.resetPosition }
    | none => some g3

/-- `Game.togglePause()`: the game after the call, and what the call does.
`isPaused` is assigned first; then `this.scene.getAnimationGroups()` throws a
TypeError when the scene has no such method, and the call returns `isPaused`
when it has one (the animation groups themselves are not fields of the
game). -/
def Game.togglePause (g : Game) : Game × Except JSError Bool :=
  let g1 : Game := { g with isPaused := !g.isPaused }
  (g1, if g1.scene.getAnimationGroups then .ok g1.isPaused else .error JSError.typeError)

/-- `Game.reset()`. -/
def Game.reset (rand : Nat → Draw) (fuel : Nat) (g : Game) : Option Game :=
  let g1 : Game :=
    { g with score := 0, deliveries := 0, level := 1, time := 0,
             timeRemaining := (g.timeLimit : Int), isPaused := false, isGameOver := false,
             gameWon := false, hasPackage := false }
  let g2 : Game :=
    match g1.currentPackage with
    | some _ => { g1 with currentPackage := none }
    | none => g1
  let g3 : Game := g2.clearTimer
  let g4 : Game :=
    match g3.player with
    | some p => { g3 with player := some p.resetPosition }
    | none => g3
  g4.createNewOrder rand fuel

/-- `Game.init()`: `restaurants` and `houses` are the lists in the object
`CityBuilder.build()` returns, `player` is the `Player` once its `init()` has
resolved. `setupCollisions` and `updateUI` touch no field of the game. No
statement of `init` throws; `none` means that `createNewOrder` does not
return. -/
def Game.init (restaurants houses : List Building) (player : Player) (rand : Nat → Draw)
    (fuel : Nat) (g : Game) : Option Game :=
  let g1 : Game := { g with restaurants := restaurants, houses := houses }
  let g2 : Game := { g1 with player := some player }
  g2.createNewOrder rand fuel

/-! ## Listeners of `main.js` -/

/-- An exception that ends a listener of `main.js`: the error, and the game as
the listener leaves it. -/
structure Thrown where
  error : JSError
  game : Game

/-- The `window` keydown listener of `Main.setupGlobalControls`. An exception
of `handleKeyPress` leaves the game as it was; an exception of `togglePause`
comes after the assignment of `isPaused`. -/
def Main.windowKeydown (Distance : Vector3 → Vector3 → JSNumber) (g : Game) (key : String) :
    Except Thrown Game :=
  match (if !g.isPaused then g.handleKeyPress Distance key else .ok g) with
  | .error e => .error ⟨e, g⟩
  | .ok g1 =>
    if key = "Escape" then
      match g1.togglePause with
      | (g2, .ok _) => .ok g2
      | (g2, .error e) => .error ⟨e, g2⟩
    else .ok g1

/-- The `document` keydown listener of `Main.setupScreenControls`, for a key
event that is the space bar. -/
def Main.documentKeydownSpace (Distance : Vector3 → Vector3 → JSNumber) (g : Game) :
    Except JSError Game :=
  g.handleSpacePress Distance

/-- One press of the space bar: the keydown event reaches the `document`
listener first and the `window` listener next. An exception thrown in a
listener is reported and leaves the game as it was. The result is the game
after the first listener and the game after the second. -/
def Main.spaceKeydown (Distance : Vector3 → Vector3 → JSNumber) (g : Game) : Game × Game :=
  let g1 : Game :=
    match Main.documentKeydownSpace Distance g with
    | .ok g1 => g1
    | .error _ => g
  let g2 : Game :=
    match Main.windowKeydown Distance g1 " " with
    | .ok g2 => g2
    | .error _ => g1
  (g1, g2)

/-! ## Runs -/

/-- The state after `n` successive calls of the timer callback. -/
def Game.ticks (g : Game) : Nat → Game
  | 0 => g
  | n + 1 => (g.ticks n).tick

/-- The callback of the `setTimeout` at lines 261-266 of `deliverPackage`. -/
def Game.disposePackageCallback (g : Game) : Game :=
  match g.currentPackage with
  | some _ => { g with currentPackage := none }
  | none => g

/-- The callback of the `setTimeout` at lines 109-114 of `createNewOrder`. -/
def Game.showDestinationCallback (g : Game) : Game :=
  GameUtils.showNotification g Notice.destination Severity.info

/-- Running a callback handed to `setTimeout`; `rand` and `fuel` serve the
`createNewOrder` of lines 287-289. -/
def Game.runCallback (rand : Nat → Draw) (fuel : Nat) (g : Game) : Callback → Option Game
  | Callback.disposePackage => some g.disposePackageCallback
  | Callback.createNewOrder => g.createNewOrder rand fuel
  | Callback.showDestination => some g.showDestinationCallback

/-- The pending timeout number `i` fires: it leaves the list of pending
timeouts and its callback runs. Nothing happens when there is no such
timeout. -/
def Game.fireTimeout (rand : Nat → Draw) (fuel : Nat) (i : Nat) (g : Game) : Option Game :=
  match g.timeouts[i]? with
  | none => some g
  | some t => Game.runCallback rand fuel { g with timeouts := g.timeouts.eraseIdx i } t.callback

/-- The interval installed by `startTimer` fires, if there is one. -/
def Game.timerFires (g : Game) : Game :=
  match g.timerInterval with
  | some _ => g.tick
  | none => g

/-- What happens to a game between two calls of `reset` or `start`. -/
inductive Event where
  | update (moved : Option Vector3) (handle : ℕ+)
  | tick
  | pickup
  | deliver
  | togglePause
  | keyR
  | timeout (i : Nat) (rand : Nat → Draw) (fuel : Nat)

/-- Whether the event is a firing of the one-second timer. -/
def Event.isTick : Event → Bool
  | Event.tick => true
  | _ => false

/-- Whether the event is one of `update`, the timer and `togglePause`. -/
def Event.isClock : Event → Bool
  | Event.update _ _ => true
  | Event.tick => true
  | Event.togglePause => true
  | _ => false

/-- One event. An exception thrown by `pickupPackage`, `deliverPackage` or
`handleKeyPress` leaves the game as it was (their `TypeError` is raised before
the first assignment); `togglePause` assigns `isPaused` before it returns or
throws, so the event gives the game after that assignment in both cases;
`none` means that `createNewOrder` does not return. -/
def Game.step (Distance : Vector3 → Vector3 → JSNumber) (g : Game) : Event → Option Game
  | Event.update moved handle => some (g.update moved handle)
  | Event.tick => some g.timerFires
  | Event.pickup =>
    match g.pickupPackage Distance with
    | .ok (g1, _) => some g1
    | .error _ => some g
  | Event.deliver =>
    match g.deliverPackage Distance with
    | .ok (g1, _) => some g1
    | .error _ => some g
  | Event.togglePause => some g.togglePause.1
  | Event.keyR =>
    match g.handleKeyPress Distance "r" with
    | .ok g1 => some g1
    | .error _ => some g
  | Event.timeout i rand fuel => g.fireTimeout rand fuel i

/-- A sequence of events, first event first. -/
def Game.run (Distance : Vector3 → Vector3 → JSNumber) : Game → List Event → Option Game
  | g, [] => some g
  | g, e :: es =>
    match g.step Distance e with
    | none => none
    | some g1 => g1.run Distance es

/-- Whether the event, in the state `g`, is a call of `deliverPackage` that
returns `true`. -/
def Game.delivers (Distance : Vector3 → Vector3 → JSNumber) (g : Game) : Event → Bool
  | Event.deliver =>
    match g.deliverPackage Distance with
    | .ok (_, b) => b
    | .error _ => false
  | _ => false

/-- The number of successful `deliverPackage` calls along a run. -/
def Game.deliveriesMade (Distance : Vector3 → Vector3 → JSNumber) : Game → List Event → Nat
  | _, [] => 0
  | g, e :: es =>
    match g.step Distance e with
    | none => 0
    | some g1 => (if g.delivers Distance e then 1 else 0) + g1.deliveriesMade Distance es

/-- The fields the win and loss conditions depend on are the same in `g1`
as in `g`. -/
def Game.SameProgress (g g1 : Game) : Prop :=
  g1.deliveryGoal = g.deliveryGoal ∧ g1.timeLimit = g.timeLimit ∧ g1.time = g.time ∧
    g1.deliveries = g.deliveries ∧ g1.isGameOver = g.isGameOver ∧ g1.gameWon = g.gameWon

/-- While the delivery goal is not reached the game is not won, and it is over
only if the time has run out. -/
def Game.Unfinished (g : Game) : Prop :=
  g.deliveries < g.deliveryGoal →
    g.gameWon = false ∧ (g.isGameOver = true → g.timeLimit ≤ g.time)

/-- The game `g` is reached from `g0` by `d` successful calls of
`deliverPackage`, each made with 500 or more seconds elapsed; between two
deliveries anything may happen that leaves `score`, `deliveries` and `level`
as they are. -/
inductive Game.AfterDeliveries (Distance : Vector3 → Vector3 → JSNumber) (g0 : Game) :
    Nat → Game → Prop
  | start : Game.AfterDeliveries Distance g0 0 g0
  | between (d : Nat) (g g1 : Game) : Game.AfterDeliveries Distance g0 d g →
      g1.score = g.score → g1.deliveries = g.deliveries → g1.level = g.level →
      Game.AfterDeliveries Distance g0 d g1
  | deliver (d : Nat) (g g1 : Game) : Game.AfterDeliveries Distance g0 d g →
      500 ≤ g.time → g.deliverPackage Distance = .ok (g1, true) →
      Game.AfterDeliveries Distance g0 (d + 1) g1

/-- Whether the car is within 15 units of the restaurant of the order. -/
def Game.nearRestaurant (Distance : Vector3 → Vector3 → JSNumber) (g : Game) : Bool :=
  match g.player, g.currentRestaurant with
  | some player, some restaurant =>
    match player.mesh with
    | some mesh => (GameUtils.distance Distance mesh.position restaurant.position).lt 15
    | none => false
  | _, _ => false

/-- Whether the car is within 15 units of the house of the order. -/
def Game.nearHouse (Distance : Vector3 → Vector3 → JSNumber) (g : Game) : Bool :=
  match g.player, g.currentHouse with
  | some player, some house =>
    match player.mesh with
    | some mesh => (GameUtils.distance Distance mesh.position house.position).lt 15
    | none => false
  | _, _ => false

/-- What one call of `pickupPackage` or `deliverPackage` can make of `g`: the
player, the order and the pause status stay; either `hasPackage` and
`deliveries` stay too, or the package is picked up within reach of the
restaurant, or it is delivered within reach of the house. -/
def Game.OneCall (Distance : Vector3 → Vector3 → JSNumber) (g g' : Game) : Prop :=
  g'.player = g.player ∧ g'.currentRestaurant = g.currentRestaurant ∧
    g'.currentHouse = g.currentHouse ∧ g'.isPaused = g.isPaused ∧
    ((g'.hasPackage = g.hasPackage ∧ g'.deliveries = g.deliveries) ∨
      (g.hasPackage = false ∧ g'.hasPackage = true ∧ g'.deliveries = g.deliveries ∧
        g.nearRestaurant Distance = true) ∨
      (g.hasPackage = true ∧ g'.hasPackage = false ∧ g'.deliveries = g.deliveries + 1 ∧
        g.nearHouse Distance = true))

/-- What happens to a game played with the space bar: the car is somewhere
else (`move`, whatever the status of the game), a frame is rendered, the space
bar reaches `handleSpacePress`, the timer callback runs, the pause is toggled,
a pending timeout fires. -/
inductive Input where
  | move (pos : Vector3)
  | frame (moved : Option Vector3) (handle : ℕ+)
  | spacePress
  | tick
  | togglePause
  | timeout (i : Nat) (rand : Nat → Draw) (fuel : Nat)

/-- The car is put at `pos`. -/
def Game.moveTo (g : Game) (pos : Vector3) : Game :=
  match g.player with
  | some p => { g with player := some (p.update (some pos)) }
  | none => g

/-- One input. An exception thrown by `handleSpacePress` leaves the game as
it was; `none` means that `createNewOrder` does not return. -/
def Game.input (Distance : Vector3 → Vector3 → JSNumber) (g : Game) : Input → Option Game
  | Input.move pos => some (g.moveTo pos)
  | Input.frame moved handle => some (g.update moved handle)
  | Input.spacePress =>
    match g.handleSpacePress Distance with
    | .ok g1 => some g1
    | .error _ => some g
  | Input.tick => some g.tick
  | Input.togglePause => some g.togglePause.1
  | Input.timeout i rand fuel => g.fireTimeout rand fuel i

/-- A sequence of inputs, first input first. -/
def Game.play (Distance : Vector3 → Vector3 → JSNumber) : Game → List Input → Option Game
  | g, [] => some g
  | g, i :: is =>
    match g.input Distance i with
    | none => none
    | some g1 => g1.play Distance is

/-- The highest score `d` deliveries can give: 150 points times the level of
each delivery. -/
def Game.scoreBound : Nat → Nat
  | 0 => 0
  | d + 1 => Game.scoreBound d + 150 * (1 + d / 3)

/-- The invariant of a game with a goal of five deliveries. -/
def Game.Bounded (g : Game) : Prop :=
  g.deliveryGoal = 5 ∧ g.deliveries ≤ 5 ∧ g.level = 1 + g.deliveries / 3 ∧
    g.score ≤ Game.scoreBound g.deliveries ∧ (5 ≤ g.deliveries → g.isGameOver = true)

/-- Whether the car is within 15 units of one of `buildings`. -/
def Game.withinReach (Distance : Vector3 → Vector3 → JSNumber) (g : Game)
    (buildings : List Building) : Bool :=
  match g.player with
  | some player =>
    match player.mesh with
    | some mesh =>
      buildings.any fun b => (GameUtils.distance Distance mesh.position b.position).lt 15
    | none => false
  | none => false

/-- The buildings of the game and of its order are buildings of `city.js`. -/
def Game.InCity (g : Game) : Prop :=
  (∀ r, g.currentRestaurant = some r → r ∈ CityBuilder.restaurants) ∧
    (∀ b, g.currentHouse = some b → b ∈ CityBuilder.houses) ∧
    (∀ r ∈ g.restaurants, r ∈ CityBuilder.restaurants) ∧
    (∀ b ∈ g.houses, b ∈ CityBuilder.houses)

/-- The lists of buildings are the same in `g1` as in `g`, and the order of
`g1` is that of `g` or one `createNewOrder` can make in `g`. -/
def Game.SameCity (g g1 : Game) : Prop :=
  g1.restaurants = g.restaurants ∧ g1.houses = g.houses ∧
    (g1.currentRestaurant = g.currentRestaurant ∨
      g1.currentRestaurant = g.restaurants.head?) ∧
    (g1.currentHouse = g.currentHouse ∨ ∃ d, g1.currentHouse = g.getRandomHouse d)

/-- A finished game in the city of `city.js` in which no delivery can succeed
any more: the car, which a finished game does not move except back to its
starting position, is out of reach of every house, or it carries nothing and
is out of reach of the restaurant. -/
def Game.Stuck (Distance : Vector3 → Vector3 → JSNumber) (g : Game) : Prop :=
  g.isGameOver = true ∧ g.InCity ∧
    (g.withinReach Distance CityBuilder.houses = false ∨
      (g.hasPackage = false ∧ g.withinReach Distance CityBuilder.restaurants = false))

/-! ## Sample data -/

/-- A distance function for the examples: the sum of the distances along the
three axes, which is the Euclidean distance for two points that differ along
one axis only. -/
def axisDistance (a b : Vector3) : JSNumber :=
  JSNumber.finite (|a.x - b.x| + |a.y - b.y| + |a.z - b.z|)

/-- The single restaurant of `city.js`. -/
def sampleRestaurant : Building := { id := 0, position := some ⟨0, 0, -60⟩ }

/-- The first house of `city.js`. -/
def sampleHouse : Building := { id := 1, position := some ⟨-70, 0, 30⟩ }

/-- The second house of `city.js`. -/
def sampleHouse2 : Building := { id := 2, position := some ⟨70, 0, 30⟩ }

/-- A player whose car is at `pos`. -/
def playerAt (pos : Vector3) : Player := { mesh := some { position := some pos } }

/-- A running game with an open order, the car at `pos`. -/
def sampleGame (pos : Vector3) : Game :=
  { Game.new with
    player := some (playerAt pos)
    restaurants := [sampleRestaurant]
    houses := [sampleHouse, sampleHouse2]
    currentRestaurant := some sampleRestaurant
    currentHouse := some sampleHouse
    currentPackage := CityBuilder.createPackage sampleRestaurant.position }

/-- The game of `sampleGame` once the package has been picked up. -/
def carryingGame (pos : Vector3) : Game :=
  { sampleGame pos with hasPackage := true }

/-- A paused game with an open order, the car 10 units from the restaurant. -/
def pausedNearRestaurant : Game :=
  { sampleGame ⟨10, 0, -60⟩ with isPaused := true }

/-- A paused game carrying the package, the car 10 units from the house. -/
def pausedNearHouse : Game :=
  { carryingGame ⟨-60, 0, 30⟩ with isPaused := true }

/-- The draws of the examples: the first value of `Math.random()` is `0`,
every later one is `1 / 2`. -/
def sampleRand (i : Nat) : Draw :=
  if i = 0 then ⟨0, 1, by decide⟩ else ⟨1, 2, by decide⟩

/-- The game `sampleGame` turns into when `reset` is called with the draws
`sampleRand`: the first draw picks the house of the previous order and is
rejected, the second picks the other house. -/
def sampleResetGame : Game :=
  { Game.new with
    player := some (playerAt ⟨0, 2 / 5, 0⟩)
    restaurants := [sampleRestaurant]
    houses := [sampleHouse, sampleHouse2]
    currentRestaurant := some sampleRestaurant
    currentHouse := some sampleHouse2
    currentPackage := CityBuilder.createPackage sampleRestaurant.position
    notifications := [⟨Notice.newOrder, Severity.info⟩]
    timeouts := [⟨Callback.showDestination, 1500⟩] }

/-- A first mission played from `sampleResetGame`: drive to the restaurant,
pick the package up, drive to the house of the order, deliver. -/
def sampleMission : List Event :=
  [Event.update (some ⟨0, 0, -60⟩) 1, Event.pickup, Event.update (some ⟨70, 0, 30⟩) 1,
    Event.deliver]

/-- The game after `sampleMission`. -/
def sampleMissionGame : Game :=
  { sampleResetGame with
    player := some (playerAt ⟨70, 0, 30⟩)
    timerInterval := some 1
    score := 150
    deliveries := 1
    currentPackage := some { parent := false, position := ⟨70, 3 / 2, 30⟩,
                             scaling := ⟨1, 1, 1⟩, disposed := false }
    notifications := [⟨Notice.newOrder, Severity.info⟩, ⟨Notice.pickedUp, Severity.success⟩,
      ⟨Notice.delivered 1 5 100 50, Severity.success⟩]
    timeouts := [⟨Callback.showDestination, 1500⟩, ⟨Callback.disposePackage, 1500⟩,
      ⟨Callback.createNewOrder, 2000⟩] }

/-- A second restaurant, which `city.js` does not build. -/
def sampleRestaurant2 : Building := { id := 3, position := some ⟨40, 0, -60⟩ }

/-- The game of `sampleGame` in a city with two restaurants. -/
def twoRestaurantGame : Game :=
  { sampleGame ⟨0, 2 / 5, 0⟩ with restaurants := [sampleRestaurant, sampleRestaurant2] }

/-- The game of `sampleGame` in a city with a single house. -/
def oneHouseGame : Game :=
  { sampleGame ⟨0, 2 / 5, 0⟩ with houses := [sampleHouse] }

/-- Draws that pick the first house three times in a row: `Math.random()` is
`0` three times, then `1 / 2`. -/
def lateRand (i : Nat) : Draw :=
  if i < 3 then ⟨0, 1, by decide⟩ else ⟨1, 2, by decide⟩

/-- The game `createNewOrder` makes of `sampleGame ⟨30, 0, 30⟩` with the draws
`sampleRand`. -/
def sampleNewOrderGame : Game :=
  { sampleResetGame with player := some (playerAt ⟨30, 0, 30⟩) }

/-- A game won after 120 seconds: five deliveries, the delivered package
already removed. -/
def wonGame : Game :=
  { sampleGame ⟨-70, 0, 30⟩ with
    score := 1050
    deliveries := 5
    level := 2
    time := 120
    timeRemaining := 60
    isGameOver := true
    gameWon := true
    currentPackage := none }

/-- The game as it is when the start button is clicked 20 seconds after
`init`: the render loop has been calling `update` behind the start screen, so
the timer has been running. -/
def waitingGame : Game :=
  { sampleGame ⟨0, 2 / 5, 0⟩ with time := 20, timeRemaining := 160, timerInterval := some 1 }

/-- A game lost on time with four deliveries made, while the car was carrying
the fifth package 10 units from the house. -/
def lostNearHouse : Game :=
  { carryingGame ⟨-60, 0, 30⟩ with
    score := 600
    deliveries := 4
    level := 2
    time := 180
    timeRemaining := 0
    isGameOver := true }

/-- A game in its last second: carrying the package 10 units from the house,
179 seconds elapsed, the timer running. -/
def lateCarryingGame : Game :=
  { carryingGame ⟨-60, 0, 30⟩ with time := 179, timeRemaining := 1, timerInterval := some 1 }

/-- The game of `lateCarryingGame` after the delivery, the 180th tick, which
ends it as lost, and the removal of the delivered package: the `createNewOrder`
scheduled by the delivery is still pending. -/
def lostAfterDelivery : Game :=
  { sampleGame ⟨-60, 0, 30⟩ with
    score := 133
    deliveries := 1
    time := 180
    timeRemaining := 0
    isGameOver := true
    currentPackage := none
    notifications := [⟨Notice.delivered 1 5 100 33, Severity.success⟩,
      ⟨Notice.timeUp 1 5, Severity.warning⟩]
    timeouts := [⟨Callback.createNewOrder, 2000⟩] }

/-- The game of `lostAfterDelivery` once the pending `createNewOrder` has run
with the draws `sampleRand`. -/
def orderAfterLoss : Game :=
  { lostAfterDelivery with
    currentHouse := some sampleHouse2
    currentPackage := CityBuilder.createPackage sampleRestaurant.position
    notifications := [⟨Notice.delivered 1 5 100 33, Severity.success⟩,
      ⟨Notice.timeUp 1 5, Severity.warning⟩, ⟨Notice.newOrder, Severity.info⟩]
    timeouts := [⟨Callback.showDestination, 1500⟩] }

/-- After `sampleMission`: back to the restaurant, a second pickup of the
package just delivered, and then the removal callback of that delivery. -/
def secondPickup : List Event :=
  [Event.update (some ⟨0, 0, -60⟩) 1, Event.pickup, Event.timeout 1 sampleRand 2]

/-- The game after `sampleMission` and `secondPickup`. -/
def carryingNothingGame : Game :=
  { sampleMissionGame with
    player := some (playerAt ⟨0, 0, -60⟩)
    hasPackage := true
    currentPackage := none
    notifications := [⟨Notice.newOrder, Severity.info⟩, ⟨Notice.pickedUp, Severity.success⟩,
      ⟨Notice.delivered 1 5 100 50, Severity.success⟩, ⟨Notice.pickedUp, Severity.success⟩]
    timeouts := [⟨Callback.showDestination, 1500⟩, ⟨Callback.createNewOrder, 2000⟩] }

/-- The game `reset` makes of `sampleMissionGame` with the draws `sampleRand`:
the timeouts of the delivery are still pending. -/
def staleResetGame : Game :=
  { sampleResetGame with
    currentHouse := some sampleHouse
    notifications := [⟨Notice.newOrder, Severity.info⟩, ⟨Notice.pickedUp, Severity.success⟩,
      ⟨Notice.delivered 1 5 100 50, Severity.success⟩, ⟨Notice.newOrder, Severity.info⟩]
    timeouts := [⟨Callback.showDestination, 1500⟩, ⟨Callback.disposePackage, 1500⟩,
      ⟨Callback.createNewOrder, 2000⟩, ⟨Callback.showDestination, 1500⟩] }

/-- The game of `staleResetGame` once the `createNewOrder` scheduled before the
reset has run with the draws `sampleRand`. -/
def staleOrderGame : Game :=
  { staleResetGame with
    currentHouse := some sampleHouse2
    notifications := [⟨Notice.newOrder, Severity.info⟩, ⟨Notice.pickedUp, Severity.success⟩,
      ⟨Notice.delivered 1 5 100 50, Severity.success⟩, ⟨Notice.newOrder, Severity.info⟩,
      ⟨Notice.newOrder, Severity.info⟩]
    timeouts := [⟨Callback.showDestination, 1500⟩, ⟨Callback.disposePackage, 1500⟩,
      ⟨Callback.showDestination, 1500⟩, ⟨Callback.showDestination, 1500⟩] }

/-- A game carrying the first package 10 units from the house, 500 seconds
elapsed. -/
def lateFirstDelivery : Game :=
  { carryingGame ⟨-60, 0, 30⟩ with time := 500 }

/-- A game about to be won: four deliveries made, the fifth package carried
10 units from the house, 100 seconds elapsed. -/
def lastCarryingGame : Game :=
  { carryingGame ⟨-60, 0, 30⟩ with
    score := 600
    deliveries := 4
    level := 2
    time := 100
    timeRemaining := 80
    timerInterval := some 1 }

/-- The game of `lastCarryingGame` right after the fifth delivery: won, the
removal of the delivered package pending. -/
def justWonGame : Game :=
  { sampleGame ⟨-60, 0, 30⟩ with
    score := 880
    deliveries := 5
    level := 2
    time := 100
    timeRemaining := 80
    isGameOver := true
    gameWon := true
    currentPackage := some { parent := false, position := ⟨-70, 3 / 2, 30⟩,
                             scaling := ⟨1, 1, 1⟩, disposed := false }
    notifications := [⟨Notice.delivered 5 5 200 80, Severity.success⟩,
      ⟨Notice.won 5 100 880, Severity.success⟩]
    timeouts := [⟨Callback.disposePackage, 1500⟩] }

/-- The game `reset` makes of `justWonGame` with the draws `sampleRand`: a new
order with a fresh package at the restaurant, the removal callback of the
fifth delivery still pending. -/
def playAgainGame : Game :=
  { sampleResetGame with
    notifications := [⟨Notice.delivered 5 5 200 80, Severity.success⟩,
      ⟨Notice.won 5 100 880, Severity.success⟩, ⟨Notice.newOrder, Severity.info⟩]
    timeouts := [⟨Callback.disposePackage, 1500⟩, ⟨Callback.showDestination, 1500⟩] }

/-- The game of `playAgainGame` once the pending removal callback has run. -/
def noPackageGame : Game :=
  { playAgainGame with
    currentPackage := none
    timeouts := [⟨Callback.showDestination, 1500⟩] }

/-- The game `init` makes of a new `Game` in a city without restaurants and
without houses. -/
def emptyCityGame : Game :=
  { Game.new with
    player := some (playerAt ⟨0, 2 / 5, 0⟩)
    notifications := [⟨Notice.newOrder, Severity.info⟩]
    timeouts := [⟨Callback.showDestination, 1500⟩] }

/-- The first mission played with the space bar from `sampleResetGame`. -/
def sampleInputs : List Input :=
  [Input.move ⟨0, 0, -60⟩, Input.spacePress, Input.move ⟨70, 0, 30⟩, Input.spacePress]

/-- The game after `sampleInputs`: no frame was rendered, so the timer has
not been started. -/
def samplePlayedGame : Game :=
  { sampleMissionGame with timerInterval := none }

/-- The game `start` makes of `wonGame` with the draws `sampleRand`: `gameWon`
and `timeRemaining` are those of the finished game. -/
def restartedWonGame : Game :=
  { sampleResetGame with timeRemaining := 60, gameWon := true }

/-- The game of `restartedWonGame` after a frame, which installs the timer, and
a pause. -/
def pausedWonGame : Game :=
  { restartedWonGame with timerInterval := some 1, isPaused := true }

/-- The game of `pausedWonGame` once it is unpaused. -/
def resumedWonGame : Game :=
  { restartedWonGame with timerInterval := some 1 }

/-- The game of `sampleResetGame` after the first three events of
`sampleMission`: the package is carried and the car is at the house. -/
def sampleCarryingGame : Game :=
  { sampleResetGame with
    player := some (playerAt ⟨70, 0, 30⟩)
    timerInterval := some 1
    hasPackage := true
    currentPackage := some { parent := true, position := ⟨0, 3 / 2, -5 / 2⟩,
                             scaling := ⟨4 / 5, 4 / 5, 4 / 5⟩, disposed := false }
    notifications := [⟨Notice.newOrder, Severity.info⟩, ⟨Notice.pickedUp, Severity.success⟩] }

/-- A further mission: the three pending timeouts fire (the destination
notice, the removal of the delivered package, the new order), then the car
drives to the restaurant, picks the package up, drives to `house` and
delivers. -/
def nextMission (house : Vector3) : List Event :=
  [Event.timeout 0 sampleRand 2, Event.timeout 0 sampleRand 2, Event.timeout 0 sampleRand 2,
    Event.update (some ⟨0, 0, -60⟩) 1, Event.pickup, Event.update (some house) 1,
    Event.deliver]

/-- The game after `sampleMission` and a second mission. -/
def secondMissionGame : Game :=
  { sampleMissionGame with
    player := some (playerAt ⟨-70, 0, 30⟩)
    score := 300
    deliveries := 2
    currentHouse := some sampleHouse
    currentPackage := some { parent := false, position := ⟨-70, 3 / 2, 30⟩,
                             scaling := ⟨1, 1, 1⟩, disposed := false }
    notifications := sampleMissionGame.notifications ++
      [⟨Notice.destination, Severity.info⟩, ⟨Notice.newOrder, Severity.info⟩,
        ⟨Notice.pickedUp, Severity.success⟩, ⟨Notice.delivered 2 5 100 50, Severity.success⟩] }

/-- The game after a third mission: the level goes up. -/
def thirdMissionGame : Game :=
  { secondMissionGame with
    player := some (playerAt ⟨70, 0, 30⟩)
    score := 450
    deliveries := 3
    level := 2
    currentHouse := some sampleHouse2
    currentPackage := some { parent := false, position := ⟨70, 3 / 2, 30⟩,
                             scaling := ⟨1, 1, 1⟩, disposed := false }
    notifications := secondMissionGame.notifications ++
      [⟨Notice.destination, Severity.info⟩, ⟨Notice.newOrder, Severity.info⟩,
        ⟨Notice.pickedUp, Severity.success⟩, ⟨Notice.levelReached 2, Severity.success⟩,
        ⟨Notice.delivered 3 5 100 50, Severity.success⟩] }

/-- The game after a fourth mission. -/
def fourthMissionGame : Game :=
  { thirdMissionGame with
    player := some (playerAt ⟨-70, 0, 30⟩)
    score := 750
    deliveries := 4
    currentHouse := some sampleHouse
    currentPackage := some { parent := false, position := ⟨-70, 3 / 2, 30⟩,
                             scaling := ⟨1, 1, 1⟩, disposed := false }
    notifications := thirdMissionGame.notifications ++
      [⟨Notice.destination, Severity.info⟩, ⟨Notice.newOrder, Severity.info⟩,
        ⟨Notice.pickedUp, Severity.success⟩, ⟨Notice.delivered 4 5 200 100, Severity.success⟩] }

/-- The game after the fifth mission: won. -/
def fifthMissionGame : Game :=
  { fourthMissionGame with
    player := some (playerAt ⟨70, 0, 30⟩)
    score := 1050
    deliveries := 5
    isGameOver := true
    gameWon := true
    timerInterval := none
    currentHouse := some sampleHouse2
    currentPackage := some { parent := false, position := ⟨70, 3 / 2, 30⟩,
                             scaling := ⟨1, 1, 1⟩, disposed := false }
    notifications := fourthMissionGame.notifications ++
      [⟨Notice.destination, Severity.info⟩, ⟨Notice.newOrder, Severity.info⟩,
        ⟨Notice.pickedUp, Severity.success⟩, ⟨Notice.delivered 5 5 200 100, Severity.success⟩,
        ⟨Notice.won 5 0 1050, Severity.success⟩]
    timeouts := [⟨Callback.showDestination, 1500⟩, ⟨Callback.disposePackage, 1500⟩] }

/-! ## Basic facts -/

theorem Game.clearTimer_eq (g : Game) : g.clearTimer = { g with timerInterval := none } := by
  unfold Game.clearTimer
  cases h : g.timerInterval with
  | none => cases g; simp_all
  | some v => rfl

/-- The success branch of a delivery adds the time bonus in both cases of
`if (timeBonus > 0)`. -/
theorem Game.completeDelivery_score (g : Game) (pkg : Package) (housePos : Vector3) :
    (g.completeDelivery pkg housePos).score = g.score + 100 * g.level + g.timeBonus := by
  rcases Nat.eq_zero_or_pos g.timeBonus with h0 | h0 <;>
    simp only [Game.completeDelivery, Game.gameOver, Game.clearTimer_eq,
      GameUtils.showNotification, setTimeout, Game.timeBonus] <;>
    simp only [Game.timeBonus] at h0 <;>
    split_ifs <;> simp_all

theorem Game.completeDelivery_deliveries (g : Game) (pkg : Package) (housePos : Vector3) :
    (g.completeDelivery pkg housePos).deliveries = g.deliveries + 1 := by
  simp only [Game.completeDelivery, Game.gameOver, Game.clearTimer_eq,
    GameUtils.showNotification, setTimeout]
  split_ifs <;> simp

theorem Game.completeDelivery_hasPackage (g : Game) (pkg : Package) (housePos : Vector3) :
    (g.completeDelivery pkg housePos).hasPackage = false := by
  simp only [Game.completeDelivery, Game.gameOver, Game.clearTimer_eq,
    GameUtils.showNotification, setTimeout]
  split_ifs <;> simp

theorem Game.completeDelivery_level (g : Game) (pkg : Package) (housePos : Vector3) :
    (g.completeDelivery pkg housePos).level =
      if (g.deliveries + 1) % 3 = 0 then g.level + 1 else g.level := by
  simp only [Game.completeDelivery, Game.gameOver, Game.clearTimer_eq,
    GameUtils.showNotification, setTimeout]
  split_ifs <;> simp

/-- A near house has a position: `GameUtils.distance` is `Infinity` otherwise. -/
theorem near_position (Distance : Vector3 → Vector3 → JSNumber) (a b : Option Vector3)
    (bound : ℚ) (h : (GameUtils.distance Distance a b).lt bound = true) :
    ∃ va vb, a = some va ∧ b = some vb := by
  cases a <;> cases b <;> simp_all [GameUtils.distance, JSNumber.lt]

theorem Game.deliverPackage_near (Distance : Vector3 → Vector3 → JSNumber) (g : Game)
    (pkg : Package) (house : Building) (player : Player) (mesh : Mesh) (housePos : Vector3)
    (hHas : g.hasPackage = true) (hPkg : g.currentPackage = some pkg)
    (hHouse : g.currentHouse = some house) (hPlayer : g.player = some player)
    (hMesh : player.mesh = some mesh) (hPos : house.position = some housePos)
    (hNear : (GameUtils.distance Distance mesh.position house.position).lt 15 = true) :
    g.deliverPackage Distance = .ok (g.completeDelivery pkg housePos, true) := by
  unfold Game.deliverPackage
  simp only [hHas, hPkg, hHouse, hPlayer, hMesh, hNear, if_true]
  simp only [hPos]

/-! ### Outcomes of `pickupPackage` and `deliverPackage` -/

/-- Every normal return of `deliverPackage`: the success branch, the hint, or
no change at all. -/
theorem Game.deliverPackage_cases (Distance : Vector3 → Vector3 → JSNumber) (g g' : Game)
    (b : Bool) (h : g.deliverPackage Distance = .ok (g', b)) :
    (b = true ∧ g.hasPackage = true ∧ ∃ pkg housePos, g' = g.completeDelivery pkg housePos) ∨
    (b = false ∧ g' = GameUtils.showNotification g Notice.closerToHouse Severity.warning) ∨
    (b = false ∧ g' = g) := by
  unfold Game.deliverPackage at h
  split at h
  · rename_i hHas _ _
    split at h
    · cases h
    · split at h
      · cases h
      · dsimp only at h
        split_ifs at h
        · split at h
          · cases h
          · cases h
            exact Or.inl ⟨rfl, hHas, _, _, rfl⟩
        · cases h
          exact Or.inr (Or.inl ⟨rfl, rfl⟩)
        · cases h
          exact Or.inr (Or.inr ⟨rfl, rfl⟩)
  · cases h
    exact Or.inr (Or.inr ⟨rfl, rfl⟩)

/-- Every normal return of `pickupPackage`: the success branch, the hint, or
no change at all. -/
theorem Game.pickupPackage_cases (Distance : Vector3 → Vector3 → JSNumber) (g g' : Game)
    (b : Bool) (h : g.pickupPackage Distance = .ok (g', b)) :
    (b = true ∧ g.hasPackage = false ∧ ∃ pkg, g.currentPackage = some pkg ∧
      g' = g.takePackage pkg) ∨
    (b = false ∧ g' = GameUtils.showNotification g Notice.closerToRestaurant Severity.warning) ∨
    (b = false ∧ g' = g) := by
  unfold Game.pickupPackage at h
  split at h
  · rename_i hHas hPkg _
    split at h
    · cases h
    · split at h
      · cases h
      · dsimp only at h
        split_ifs at h
        · cases h
          exact Or.inl ⟨rfl, hHas, _, hPkg, rfl⟩
        · cases h
          exact Or.inr (Or.inl ⟨rfl, rfl⟩)
        · cases h
          exact Or.inr (Or.inr ⟨rfl, rfl⟩)
  · cases h
    exact Or.inr (Or.inr ⟨rfl, rfl⟩)

/-- The outcome of `pickupPackage` once its guard is passed. -/
theorem pickupPackage_iff_near_aux (Distance : Vector3 → Vector3 → JSNumber) (g : Game)
    (pkg : Package) (restaurant : Building) (player : Player) (mesh : Mesh)
    (hHas : g.hasPackage = false) (hPkg : g.currentPackage = some pkg)
    (hRest : g.currentRestaurant = some restaurant) (hPlayer : g.player = some player)
    (hMesh : player.mesh = some mesh) :
    ∃ g' b, g.pickupPackage Distance = .ok (g', b) ∧ g'.hasPackage = b ∧
      (b = true ↔ (GameUtils.distance Distance mesh.position restaurant.position).lt 15 = true) ∧
      (∀ q, GameUtils.distance Distance mesh.position restaurant.position = JSNumber.finite q →
        (b = true ↔ q < 15)) := by
  unfold Game.pickupPackage
  simp only [hHas, hPkg, hRest, hPlayer, hMesh]
  by_cases hd : (GameUtils.distance Distance mesh.position restaurant.position).lt 15 = true
  · refine ⟨g.takePackage pkg, true, by simp only [hd, if_true], ?_, by simp [hd], ?_⟩
    · simp [Game.takePackage, GameUtils.showNotification]
    · intro q hq
      rw [hq] at hd
      simpa [JSNumber.lt] using hd
  · by_cases hh : (GameUtils.distance Distance mesh.position restaurant.position).lt 25 = true
    · refine ⟨GameUtils.showNotification g Notice.closerToRestaurant Severity.warning, false,
        by simp only [hd, hh, if_true]; rfl, ?_, by simp [hd], ?_⟩
      · simp [GameUtils.showNotification, hHas]
      · intro q hq
        rw [hq] at hd
        simpa [JSNumber.lt] using hd
    · refine ⟨g, false, by simp only [hd, hh]; rfl, hHas, by simp [hd], ?_⟩
      intro q hq
      rw [hq] at hd
      simpa [JSNumber.lt] using hd

theorem Game.pickupPackage_near (Distance : Vector3 → Vector3 → JSNumber) (g : Game)
    (pkg : Package) (restaurant : Building) (player : Player) (mesh : Mesh)
    (hHas : g.hasPackage = false) (hPkg : g.currentPackage = some pkg)
    (hRest : g.currentRestaurant = some restaurant) (hPlayer : g.player = some player)
    (hMesh : player.mesh = some mesh)
    (hNear : (GameUtils.distance Distance mesh.position restaurant.position).lt 15 = true) :
    g.pickupPackage Distance = .ok (g.takePackage pkg, true) := by
  unfold Game.pickupPackage
  simp only [hHas, hPkg, hRest, hPlayer, hMesh, hNear, if_true]

theorem Game.pickupPackage_hint (Distance : Vector3 → Vector3 → JSNumber) (g : Game)
    (pkg : Package) (restaurant : Building) (player : Player) (mesh : Mesh)
    (hHas : g.hasPackage = false) (hPkg : g.currentPackage = some pkg)
    (hRest : g.currentRestaurant = some restaurant) (hPlayer : g.player = some player)
    (hMesh : player.mesh = some mesh)
    (hFar : (GameUtils.distance Distance mesh.position restaurant.position).lt 15 = false)
    (hHint : (GameUtils.distance Distance mesh.position restaurant.position).lt 25 = true) :
    g.pickupPackage Distance =
      .ok (GameUtils.showNotification g Notice.closerToRestaurant Severity.warning, false) := by
  unfold Game.pickupPackage
  simp only [hHas, hPkg, hRest, hPlayer, hMesh, hFar, hHint, if_true]
  rfl

/-- The boundary of the pickup radius: at distance 14.9 the package is taken,
at distance 15 the call fails with the hint. -/
theorem pickupPackage_boundary :
    (sampleGame ⟨149 / 10, 0, -60⟩).pickupPackage axisDistance =
        .ok ((sampleGame ⟨149 / 10, 0, -60⟩).takePackage
          { parent := false, position := ⟨0, 1, -60⟩, scaling := ⟨1, 1, 1⟩,
            disposed := false }, true) ∧
      (sampleGame ⟨15, 0, -60⟩).pickupPackage axisDistance =
        .ok (GameUtils.showNotification (sampleGame ⟨15, 0, -60⟩) Notice.closerToRestaurant
          Severity.warning, false) :=
  ⟨Game.pickupPackage_near axisDistance _ _ sampleRestaurant (playerAt ⟨149 / 10, 0, -60⟩)
      { position := some ⟨149 / 10, 0, -60⟩ } rfl rfl rfl rfl rfl
      (by simp [GameUtils.distance, axisDistance, sampleRestaurant, JSNumber.lt, abs_lt]; norm_num),
    Game.pickupPackage_hint axisDistance _ _ sampleRestaurant (playerAt ⟨15, 0, -60⟩)
      { position := some ⟨15, 0, -60⟩ } rfl rfl rfl rfl rfl
      (by simp [GameUtils.distance, axisDistance, sampleRestaurant, JSNumber.lt, abs_lt])
      (by simp [GameUtils.distance, axisDistance, sampleRestaurant, JSNumber.lt, abs_lt]; norm_num)⟩

/-! ### New orders -/

theorem Draw.index_lt (d : Draw) (n : Nat) (hn : 0 < n) : d.index n < n := by
  unfold Draw.index
  have hden : 0 < d.den := Nat.lt_of_le_of_lt (Nat.zero_le _) d.lt_one
  rw [Nat.div_lt_iff_lt_mul hden]
  calc d.num * n < d.den * n := Nat.mul_lt_mul_of_pos_right d.lt_one hn
    _ = n * d.den := Nat.mul_comm _ _

theorem Game.getRandomHouse_mem (g : Game) (d : Draw) (h : g.houses ≠ []) :
    ∃ b ∈ g.houses, g.getRandomHouse d = some b := by
  have hlen : 0 < g.houses.length := List.length_pos.mpr h
  have hidx := d.index_lt g.houses.length hlen
  refine ⟨g.houses[d.index g.houses.length], List.getElem_mem _, ?_⟩
  unfold Game.getRandomHouse
  rw [if_neg (Nat.pos_iff_ne_zero.mp hlen)]
  exact List.getElem?_eq_getElem hidx

theorem Game.restaurantLoop_some (g : Game) (fuel : Nat) (r : Option Building)
    (h : g.restaurantLoop fuel = some r) : r = g.getRandomRestaurant := by
  induction fuel with
  | zero => cases h
  | succ n ih =>
    unfold Game.restaurantLoop at h
    dsimp only at h
    split_ifs at h
    · exact ih h
    · cases h
      rfl

theorem Game.houseLoop_some (g : Game) (rand : Nat → Draw) (fuel i : Nat)
    (b : Option Building) (h : g.houseLoop rand i fuel = some b) :
    ∃ j, b = g.getRandomHouse (rand j) := by
  induction fuel generalizing i with
  | zero => cases h
  | succ n ih =>
    unfold Game.houseLoop at h
    dsimp only at h
    split_ifs at h
    · exact ih (i + 1) h
    · cases h
      exact ⟨i, rfl⟩

/-- The game `createNewOrder` returns, in terms of the restaurant and the
house its two loops end with. -/
theorem Game.createNewOrder_some (rand : Nat → Draw) (fuel : Nat) (g g' : Game)
    (h : g.createNewOrder rand fuel = some g') :
    ∃ j, g' = setTimeout (GameUtils.showNotification
      (Game.createPackage { g with currentRestaurant := g.getRandomRestaurant,
                                    currentHouse := g.getRandomHouse (rand j) })
      Notice.newOrder Severity.info) Callback.showDestination 1500 := by
  unfold Game.createNewOrder at h
  split at h
  · cases h
  · rename_i r hr
    split at h
    · cases h
    · rename_i b hb
      cases h
      obtain ⟨j, hj⟩ := Game.houseLoop_some g rand fuel 0 b hb
      rw [Game.restaurantLoop_some g fuel r hr, hj]
      exact ⟨j, rfl⟩

/-- `createPackage` writes `currentPackage` and `hasPackage` only. -/
theorem Game.createPackage_frame (g : Game) :
    g.createPackage = { g with currentPackage := g.createPackage.currentPackage,
                               hasPackage := g.createPackage.hasPackage } := by
  cases g with
  | mk player score deliveries level time timerInterval isPaused isGameOver timeLimit
      deliveryGoal timeRemaining gameWon currentPackage currentRestaurant currentHouse
      hasPackage restaurants houses notifications timeouts =>
    rcases currentPackage with _ | pkg <;> rcases currentRestaurant with _ | ⟨id, _ | pos⟩ <;> rfl

theorem Game.createPackage_hasPackage (g : Game) (h : g.hasPackage = false) :
    g.createPackage.hasPackage = false := by
  cases g with
  | mk player score deliveries level time timerInterval isPaused isGameOver timeLimit
      deliveryGoal timeRemaining gameWon currentPackage currentRestaurant currentHouse
      hasPackage restaurants houses notifications timeouts =>
    rcases currentPackage with _ | pkg <;> rcases currentRestaurant with _ | ⟨id, _ | pos⟩ <;>
      first | exact h | rfl

theorem Game.createPackage_fresh (g : Game) (r : Building) (pos : Vector3)
    (hr : g.currentRestaurant = some r) (hpos : r.position = some pos) :
    g.createPackage.currentPackage = CityBuilder.createPackage (some pos) := by
  unfold Game.createPackage
  cases g.currentPackage <;> simp only [hr, hpos]

theorem Game.getRandomRestaurant_eq_head (g : Game) :
    g.getRandomRestaurant = g.restaurants.head? := by
  unfold Game.getRandomRestaurant
  cases g.restaurants <;> simp

/-- `reset` is `createNewOrder` run on the zeroed game. -/
theorem Game.reset_eq (rand : Nat → Draw) (fuel : Nat) (g : Game) :
    g.reset rand fuel = Game.createNewOrder rand fuel
      { g with score := 0, deliveries := 0, level := 1, time := 0,
               timeRemaining := (g.timeLimit : Int), isPaused := false, isGameOver := false,
               gameWon := false, hasPackage := false, currentPackage := none,
               timerInterval := none, player := g.player.map Player.resetPosition } := by
  cases g with
  | mk player score deliveries level time timerInterval isPaused isGameOver timeLimit
      deliveryGoal timeRemaining gameWon currentPackage currentRestaurant currentHouse
      hasPackage restaurants houses notifications timeouts =>
    cases player <;> cases currentPackage <;> cases timerInterval <;> rfl

/-! ### The two loops of `createNewOrder` -/

/-- With at most one restaurant the first loop makes a single pass. -/
theorem Game.restaurantLoop_single (g : Game) (fuel : Nat) (h : g.restaurants.length ≤ 1) :
    g.restaurantLoop (fuel + 1) = some g.getRandomRestaurant := by
  unfold Game.restaurantLoop
  have hlen : decide (g.restaurants.length > 1) = false := decide_eq_false (by omega)
  simp only [hlen, Bool.false_and, Bool.false_eq_true, if_false]

/-- With several restaurants, once the current restaurant is the first one
the first loop never exits: `getRandomRestaurant` always returns the first. -/
theorem Game.restaurantLoop_diverges (g : Game) (fuel : Nat) (h : g.restaurants.length > 1)
    (hsame : sameObject g.getRandomRestaurant g.currentRestaurant = true) :
    g.restaurantLoop fuel = none := by
  induction fuel with
  | zero => rfl
  | succ n ih =>
    unfold Game.restaurantLoop
    have hlen : decide (g.restaurants.length > 1) = true := decide_eq_true h
    simp only [hlen, hsame, Bool.and_self, if_true]
    exact ih

/-- The second loop exits at the first pass whose draw is accepted. -/
theorem Game.houseLoop_accept (g : Game) (rand : Nat → Draw) (k i : Nat)
    (hacc : (decide (g.houses.length > 1) &&
      sameObject (g.getRandomHouse (rand (i + k))) g.currentHouse) = false) :
    ∃ j, i ≤ j ∧ j ≤ i + k ∧ g.houseLoop rand i (k + 1) = some (g.getRandomHouse (rand j)) := by
  induction k generalizing i with
  | zero =>
    refine ⟨i, Nat.le_refl _, Nat.le_refl _, ?_⟩
    unfold Game.houseLoop
    simp only [Nat.add_zero] at hacc
    simp only [hacc, Bool.false_eq_true, if_false]
  | succ n ih =>
    by_cases hi : (decide (g.houses.length > 1) &&
        sameObject (g.getRandomHouse (rand i)) g.currentHouse) = true
    · have hacc' : (decide (g.houses.length > 1) &&
          sameObject (g.getRandomHouse (rand (i + 1 + n))) g.currentHouse) = false := by
        rw [show i + 1 + n = i + (n + 1) by omega]
        exact hacc
      obtain ⟨j, h1, h2, h3⟩ := ih (i + 1) hacc'
      refine ⟨j, by omega, by omega, ?_⟩
      rw [← h3]
      conv_lhs => unfold Game.houseLoop
      simp only [hi, if_true]
    · refine ⟨i, Nat.le_refl _, Nat.le_add_right _ _, ?_⟩
      unfold Game.houseLoop
      simp only [hi, Bool.false_eq_true, if_false]

/-- The second loop keeps running as long as every draw is rejected. -/
theorem Game.houseLoop_reject (g : Game) (rand : Nat → Draw) (n i : Nat)
    (hrej : ∀ j, j < n → (decide (g.houses.length > 1) &&
      sameObject (g.getRandomHouse (rand (i + j))) g.currentHouse) = true) :
    g.houseLoop rand i n = none := by
  induction n generalizing i with
  | zero => rfl
  | succ m ih =>
    unfold Game.houseLoop
    have h0 := hrej 0 (Nat.succ_pos _)
    simp only [Nat.add_zero] at h0
    simp only [h0, if_true]
    apply ih
    intro j hj
    have := hrej (j + 1) (by omega)
    rw [show i + (j + 1) = i + 1 + j by omega] at this
    exact this

/-- What the second loop returns was accepted: with two or more houses it is
not the house of the previous order. -/
theorem Game.houseLoop_some_accept (g : Game) (rand : Nat → Draw) (fuel i : Nat)
    (b : Option Building) (h : g.houseLoop rand i fuel = some b) :
    ∃ j, b = g.getRandomHouse (rand j) ∧
      (decide (g.houses.length > 1) && sameObject b g.currentHouse) = false := by
  induction fuel generalizing i with
  | zero => cases h
  | succ n ih =>
    unfold Game.houseLoop at h
    dsimp only at h
    split_ifs at h with hc
    · exact ih (i + 1) h
    · cases h
      exact ⟨i, rfl, by simpa using hc⟩

/-- The order `createNewOrder` leaves behind when it returns. -/
theorem Game.createNewOrder_order (rand : Nat → Draw) (fuel : Nat) (g g' : Game)
    (h : g.createNewOrder rand fuel = some g') :
    g'.currentRestaurant = g.getRandomRestaurant ∧
      g'.restaurants = g.restaurants ∧ g'.houses = g.houses ∧
      ∃ j, g'.currentHouse = g.getRandomHouse (rand j) ∧
        (decide (g.houses.length > 1) && sameObject g'.currentHouse g.currentHouse) = false := by
  unfold Game.createNewOrder at h
  split at h
  · cases h
  · rename_i r hr
    split at h
    · cases h
    · rename_i b hb
      cases h
      obtain ⟨j, hj, hacc⟩ := Game.houseLoop_some_accept g rand fuel 0 b hb
      rw [Game.createPackage_frame]
      exact ⟨Game.restaurantLoop_some g fuel r hr, rfl, rfl, j, hj, hacc⟩

/-- `createNewOrder` returns as soon as both loops do. -/
theorem Game.createNewOrder_isSome (rand : Nat → Draw) (fuel : Nat) (g : Game)
    (r b : Option Building) (hr : g.restaurantLoop fuel = some r)
    (hb : g.houseLoop rand 0 fuel = some b) :
    ∃ g', g.createNewOrder rand fuel = some g' := by
  unfold Game.createNewOrder
  rw [hr, hb]
  exact ⟨_, rfl⟩

theorem sameObject_self (b : Option Building) : sameObject b b = true := by
  cases b <;> simp [sameObject]

theorem Draw.index_one (d : Draw) : d.index 1 = 0 :=
  Nat.lt_one_iff.mp (d.index_lt 1 Nat.one_pos)

theorem Game.getRandomHouse_single (g : Game) (d : Draw) (h : Building)
    (hH : g.houses = [h]) : g.getRandomHouse d = some h := by
  unfold Game.getRandomHouse
  rw [hH]
  simp [Draw.index_one]

/-- The evaluation of `createNewOrder` on `sampleGame` with the draws
`sampleRand`. -/
theorem sampleGame_createNewOrder :
    (sampleGame ⟨30, 0, 30⟩).createNewOrder sampleRand 2 = some sampleNewOrderGame := by
  simp [Game.createNewOrder, Game.restaurantLoop, Game.houseLoop, Game.getRandomRestaurant,
    Game.getRandomHouse, Game.createPackage, sampleGame, sampleNewOrderGame, sampleResetGame,
    sampleRand, Draw.index, sameObject, sampleHouse, sampleHouse2, sampleRestaurant, playerAt,
    CityBuilder.createPackage, Package.dispose, GameUtils.showNotification, setTimeout,
    Game.new]

/-! ### `start` -/

/-- The first loop reads `restaurants` and `currentRestaurant` only. -/
theorem Game.restaurantLoop_congr (g g2 : Game) (fuel : Nat)
    (h1 : g2.restaurants = g.restaurants) (h2 : g2.currentRestaurant = g.currentRestaurant) :
    g2.restaurantLoop fuel = g.restaurantLoop fuel := by
  induction fuel with
  | zero => rfl
  | succ n ih =>
    unfold Game.restaurantLoop Game.getRandomRestaurant
    rw [h1, h2, ih]

/-- The second loop reads `houses` and `currentHouse` only. -/
theorem Game.houseLoop_congr (g g2 : Game) (rand : Nat → Draw) (fuel i : Nat)
    (h1 : g2.houses = g.houses) (h2 : g2.currentHouse = g.currentHouse) :
    g2.houseLoop rand i fuel = g.houseLoop rand i fuel := by
  induction fuel generalizing i with
  | zero => rfl
  | succ n ih =>
    unfold Game.houseLoop Game.getRandomHouse
    rw [h1, h2, ih]

/-- `start` is `createNewOrder` run on the partly zeroed game, followed by
`resetPosition`. -/
theorem Game.start_eq (rand : Nat → Draw) (fuel : Nat) (g : Game) :
    g.start rand fuel =
      (Game.createNewOrder rand fuel
        { g with isPaused := false, isGameOver := false, time := 0, score := 0,
                 deliveries := 0, level := 1, timerInterval := none }).map
        (fun g3 => { g3 with player := g3.player.map Player.resetPosition }) := by
  simp only [Game.start, Game.clearTimer_eq]
  generalize Game.createNewOrder rand fuel
      { g with isPaused := false, isGameOver := false, time := 0, score := 0,
               deliveries := 0, level := 1, timerInterval := none } = o
  cases o with
  | none => rfl
  | some g3 =>
    cases g3 with
    | mk player score deliveries level time timerInterval isPaused isGameOver timeLimit
        deliveryGoal timeRemaining gameWon currentPackage currentRestaurant currentHouse
        hasPackage restaurants houses notifications timeouts =>
      cases player <;> rfl

/-- What `start` leaves behind when it returns: the fields it assigns, and the
fields of `reset` it does not assign. -/
theorem Game.start_facts (rand : Nat → Draw) (fuel : Nat) (g g' : Game)
    (h : g.start rand fuel = some g') :
    g'.score = 0 ∧ g'.deliveries = 0 ∧ g'.level = 1 ∧ g'.time = 0 ∧ g'.isPaused = false ∧
      g'.isGameOver = false ∧ g'.timerInterval = none ∧ g'.timeLimit = g.timeLimit ∧
      g'.gameWon = g.gameWon ∧ g'.timeRemaining = g.timeRemaining := by
  rw [Game.start_eq] at h
  cases hc : Game.createNewOrder rand fuel
      { g with isPaused := false, isGameOver := false, time := 0, score := 0,
               deliveries := 0, level := 1, timerInterval := none } with
  | none =>
    rw [hc] at h
    cases h
  | some g3 =>
    rw [hc] at h
    cases h
    obtain ⟨j, rfl⟩ := Game.createNewOrder_some rand fuel _ g3 hc
    rw [Game.createPackage_frame]
    exact ⟨rfl, rfl, rfl, rfl, rfl, rfl, rfl, rfl, rfl, rfl⟩

/-- `start` returns whenever the two loops of `createNewOrder` exit. -/
theorem Game.start_isSome (rand : Nat → Draw) (fuel : Nat) (g : Game)
    (r b : Option Building) (hr : g.restaurantLoop fuel = some r)
    (hb : g.houseLoop rand 0 fuel = some b) :
    ∃ g', g.start rand fuel = some g' := by
  have hr2 := (Game.restaurantLoop_congr g
    { g with isPaused := false, isGameOver := false, time := 0, score := 0,
             deliveries := 0, level := 1, timerInterval := none } fuel rfl rfl).trans hr
  have hb2 := (Game.houseLoop_congr g
    { g with isPaused := false, isGameOver := false, time := 0, score := 0,
             deliveries := 0, level := 1, timerInterval := none } rand fuel 0 rfl rfl).trans hb
  obtain ⟨g3, hg3⟩ := Game.createNewOrder_isSome rand fuel _ r b hr2 hb2
  rw [Game.start_eq, hg3]
  exact ⟨_, rfl⟩

/-! ### Terminal states -/

theorem Game.gameOver_facts (g : Game) (won : Bool) :
    (g.gameOver won).isGameOver = true ∧ (g.gameOver won).gameWon = won ∧
      (g.gameOver won).timerInterval = none ∧ (g.gameOver won).time = g.time ∧
      (g.gameOver won).timeRemaining = g.timeRemaining := by
  cases won <;> simp [Game.gameOver, Game.clearTimer_eq, GameUtils.showNotification]

theorem Game.update_of_over (g : Game) (moved : Option Vector3) (handle : ℕ+)
    (h : g.isGameOver = true) : g.update moved handle = g := by
  simp [Game.update, h]

/-- Frames, timer firings and pause toggles leave a finished game finished,
its timer handle cleared and its clock where it was. -/
theorem Game.run_terminal (Distance : Vector3 → Vector3 → JSNumber) (es : List Event)
    (s0 : Game) (hO : s0.isGameOver = true) (hT : s0.timerInterval = none)
    (hes : ∀ e ∈ es, e.isClock = true) :
    ∃ s, s0.run Distance es = some s ∧ s.isGameOver = true ∧ s.timerInterval = none ∧
      s.time = s0.time ∧ s.timeRemaining = s0.timeRemaining := by
  induction es generalizing s0 with
  | nil => exact ⟨s0, rfl, hO, hT, rfl, rfl⟩
  | cons e es ih =>
    have he := hes e (List.mem_cons_self _ _)
    have hrest : ∀ e' ∈ es, e'.isClock = true := fun e' h' => hes e' (List.mem_cons_of_mem _ h')
    have key : ∀ s1 : Game, s0.step Distance e = some s1 → s1.isGameOver = true →
        s1.timerInterval = none → s1.time = s0.time → s1.timeRemaining = s0.timeRemaining →
        ∃ s, s0.run Distance (e :: es) = some s ∧ s.isGameOver = true ∧
          s.timerInterval = none ∧ s.time = s0.time ∧ s.timeRemaining = s0.timeRemaining := by
      intro s1 hstep h1 h2 h3 h4
      obtain ⟨s, hs, i1, i2, i3, i4⟩ := ih s1 h1 h2 hrest
      refine ⟨s, ?_, i1, i2, i3.trans h3, i4.trans h4⟩
      unfold Game.run
      rw [hstep]
      exact hs
    cases e with
    | update moved handle =>
      refine key s0 ?_ hO hT rfl rfl
      simp only [Game.step, Game.update_of_over s0 moved handle hO]
    | tick =>
      refine key s0 ?_ hO hT rfl rfl
      simp only [Game.step, Game.timerFires, hT]
    | togglePause => exact key s0.togglePause.1 rfl hO hT rfl rfl
    | pickup => cases he
    | deliver => cases he
    | keyR => cases he
    | timeout i rand fuel => cases he

/-! ### The timer callback -/

theorem Game.tick_of_paused (g : Game) (h : g.isPaused = true) : g.tick = g := by
  simp [Game.tick, h]

theorem Game.tick_of_over (g : Game) (h : g.isGameOver = true) : g.tick = g := by
  simp [Game.tick, h]

theorem Game.tick_of_won (g : Game) (h : g.gameWon = true) : g.tick = g := by
  simp [Game.tick, h]

/-- The three threshold warnings of the timer callback change the
notification log only. -/
theorem Game.warn_frame (g : Game) (P : Game → Prop)
    (hP : ∀ n s, P (GameUtils.showNotification g n s)) (h0 : P g) :
    P (if g.timeRemaining = 60 then
        GameUtils.showNotification g Notice.oneMinute Severity.warning
      else if g.timeRemaining = 30 then
        GameUtils.showNotification g Notice.thirtySeconds Severity.warning
      else if g.timeRemaining = 10 then
        GameUtils.showNotification g Notice.tenSeconds Severity.warning
      else g) := by
  split_ifs
  · exact hP _ _
  · exact hP _ _
  · exact hP _ _
  · exact h0

/-- A tick of a running game, as a property of the state it produces: `P`
holds of the result as soon as it holds of the advanced state, with or
without the time-out and with or without a warning. -/
theorem Game.tick_running_elim (g : Game) (hP : g.isPaused = false)
    (hO : g.isGameOver = false) (hW : g.gameWon = false) (P : Game → Prop)
    (hExpire : ∀ g2 : Game,
      g2 = { g with time := g.time + 1,
                    timeRemaining := max (0 : Int) ((g.timeLimit : Int) - ((g.time + 1 : Nat) : Int)) } →
      g2.timeRemaining ≤ 0 → ∀ g3, (g3 = g2.gameOver false ∨
        ∃ n s, g3 = GameUtils.showNotification (g2.gameOver false) n s) → P g3)
    (hLive : ∀ g2 : Game,
      g2 = { g with time := g.time + 1,
                    timeRemaining := max (0 : Int) ((g.timeLimit : Int) - ((g.time + 1 : Nat) : Int)) } →
      ¬ g2.timeRemaining ≤ 0 → ∀ g3, (g3 = g2 ∨
        ∃ n s, g3 = GameUtils.showNotification g2 n s) → P g3) :
    P g.tick := by
  unfold Game.tick
  have hc : (!g.isPaused && !g.isGameOver && !g.gameWon) = true := by simp [hP, hO, hW]
  rw [if_pos hc]
  dsimp only
  by_cases hexp : max (0 : Int) ((g.timeLimit : Int) - ((g.time + 1 : Nat) : Int)) ≤ 0
  · rw [if_pos hexp]
    apply Game.warn_frame
    · intro n s
      exact hExpire _ rfl hexp _ (Or.inr ⟨n, s, rfl⟩)
    · exact hExpire _ rfl hexp _ (Or.inl rfl)
  · rw [if_neg hexp]
    apply Game.warn_frame
    · intro n s
      exact hLive _ rfl hexp _ (Or.inr ⟨n, s, rfl⟩)
    · exact hLive _ rfl hexp _ (Or.inl rfl)

theorem Game.tick_time (g : Game) (hP : g.isPaused = false) (hO : g.isGameOver = false)
    (hW : g.gameWon = false) : g.tick.time = g.time + 1 := by
  apply Game.tick_running_elim g hP hO hW (fun r => r.time = g.time + 1)
  · rintro g2 rfl _ g3 (rfl | ⟨n, s, rfl⟩) <;>
      simp [Game.gameOver, Game.clearTimer_eq, GameUtils.showNotification]
  · rintro g2 rfl _ g3 (rfl | ⟨n, s, rfl⟩) <;> simp [GameUtils.showNotification]

theorem Game.tick_timeRemaining (g : Game) (hP : g.isPaused = false)
    (hO : g.isGameOver = false) (hW : g.gameWon = false) :
    g.tick.timeRemaining = max (0 : Int) ((g.timeLimit : Int) - ((g.time + 1 : Nat) : Int)) := by
  apply Game.tick_running_elim g hP hO hW
    (fun r => r.timeRemaining = max (0 : Int) ((g.timeLimit : Int) - ((g.time + 1 : Nat) : Int)))
  · rintro g2 rfl _ g3 (rfl | ⟨n, s, rfl⟩) <;>
      simp [Game.gameOver, Game.clearTimer_eq, GameUtils.showNotification]
  · rintro g2 rfl _ g3 (rfl | ⟨n, s, rfl⟩) <;> simp [GameUtils.showNotification]

theorem Game.tick_isGameOver (g : Game) (hP : g.isPaused = false) (hO : g.isGameOver = false)
    (hW : g.gameWon = false) :
    g.tick.isGameOver = decide (g.tick.timeRemaining = 0) := by
  rw [Game.tick_timeRemaining g hP hO hW]
  apply Game.tick_running_elim g hP hO hW (fun r => r.isGameOver =
    decide (max (0 : Int) ((g.timeLimit : Int) - ((g.time + 1 : Nat) : Int)) = 0))
  · rintro g2 rfl hexp g3 (rfl | ⟨n, s, rfl⟩) <;>
      simp only [Game.gameOver, Game.clearTimer_eq, GameUtils.showNotification] <;>
      simp only [Bool.false_eq_true, if_false] <;>
      exact (decide_eq_true (le_antisymm hexp (le_max_left _ _))).symm
  · rintro g2 rfl hexp g3 (rfl | ⟨n, s, rfl⟩) <;>
      simp only [GameUtils.showNotification, hO] <;>
      exact (decide_eq_false (fun h0 => hexp (le_of_eq h0))).symm

theorem Game.tick_gameWon (g : Game) (hW : g.gameWon = false) : g.tick.gameWon = false := by
  by_cases hP : g.isPaused = true
  · rw [Game.tick_of_paused g hP, hW]
  by_cases hO : g.isGameOver = true
  · rw [Game.tick_of_over g hO, hW]
  simp only [Bool.not_eq_true] at hP hO
  apply Game.tick_running_elim g hP hO hW (fun r => r.gameWon = false)
  · rintro g2 rfl _ g3 (rfl | ⟨n, s, rfl⟩) <;>
      simp [Game.gameOver, Game.clearTimer_eq, GameUtils.showNotification]
  · rintro g2 rfl _ g3 (rfl | ⟨n, s, rfl⟩) <;> simp [GameUtils.showNotification, hW]

theorem Game.tick_frame (g : Game) :
    g.tick.level = g.level ∧ g.tick.score = g.score ∧ g.tick.deliveries = g.deliveries ∧
      g.tick.hasPackage = g.hasPackage ∧ g.tick.isPaused = g.isPaused ∧
      g.tick.timeLimit = g.timeLimit ∧ g.tick.deliveryGoal = g.deliveryGoal := by
  by_cases hP : g.isPaused = true
  · rw [Game.tick_of_paused g hP]
    simp
  by_cases hO : g.isGameOver = true
  · rw [Game.tick_of_over g hO]
    simp
  by_cases hW : g.gameWon = true
  · rw [Game.tick_of_won g hW]
    simp
  simp only [Bool.not_eq_true] at hP hO hW
  apply Game.tick_running_elim g hP hO hW (fun r => r.level = g.level ∧ r.score = g.score ∧
    r.deliveries = g.deliveries ∧ r.hasPackage = g.hasPackage ∧ r.isPaused = g.isPaused ∧
    r.timeLimit = g.timeLimit ∧ r.deliveryGoal = g.deliveryGoal)
  · rintro g2 rfl _ g3 (rfl | ⟨n, s, rfl⟩) <;>
      simp [Game.gameOver, Game.clearTimer_eq, GameUtils.showNotification]
  · rintro g2 rfl _ g3 (rfl | ⟨n, s, rfl⟩) <;> simp [GameUtils.showNotification]

/-- What `reset` leaves behind when it returns. -/
theorem reset_facts (rand : Nat → Draw) (fuel : Nat) (g g' : Game)
    (h : g.reset rand fuel = some g') :
    g'.score = 0 ∧ g'.deliveries = 0 ∧ g'.level = 1 ∧ g'.time = 0 ∧
      g'.timeRemaining = (g.timeLimit : Int) ∧ g'.timeLimit = g.timeLimit ∧
      g'.deliveryGoal = g.deliveryGoal ∧
      g'.isPaused = false ∧ g'.isGameOver = false ∧ g'.gameWon = false ∧
      g'.hasPackage = false ∧ g'.timerInterval = none ∧
      g'.currentRestaurant = g.restaurants.head? ∧
      (g.houses ≠ [] → ∃ b ∈ g.houses, g'.currentHouse = some b) ∧
      (∀ r pos, g.restaurants.head? = some r → r.position = some pos →
        g'.currentPackage = some { parent := false, position := { pos with y := 1 },
                                   scaling := ⟨1, 1, 1⟩, disposed := false }) ∧
      g'.notifications = g.notifications ++ [⟨Notice.newOrder, Severity.info⟩] ∧
      g'.timeouts = g.timeouts ++ [⟨Callback.showDestination, 1500⟩] := by
  rw [Game.reset_eq] at h
  obtain ⟨j, rfl⟩ := Game.createNewOrder_some rand fuel _ g' h
  have hHas := Game.createPackage_hasPackage
    { g with score := 0, deliveries := 0, level := 1, time := 0,
             timeRemaining := (g.timeLimit : Int), isPaused := false, isGameOver := false,
             gameWon := false, hasPackage := false, currentPackage := none,
             timerInterval := none, player := g.player.map Player.resetPosition,
             currentRestaurant := g.getRandomRestaurant,
             currentHouse := g.getRandomHouse (rand j) } rfl
  have hFresh := Game.createPackage_fresh
    { g with score := 0, deliveries := 0, level := 1, time := 0,
             timeRemaining := (g.timeLimit : Int), isPaused := false, isGameOver := false,
             gameWon := false, hasPackage := false, currentPackage := none,
             timerInterval := none, player := g.player.map Player.resetPosition,
             currentRestaurant := g.getRandomRestaurant,
             currentHouse := g.getRandomHouse (rand j) }
  rw [Game.createPackage_frame]
  refine ⟨rfl, rfl, rfl, rfl, rfl, rfl, rfl, rfl, rfl, rfl, hHas, rfl,
    Game.getRandomRestaurant_eq_head g, ?_, ?_, rfl, rfl⟩
  · intro hne
    obtain ⟨b, hb, hget⟩ := Game.getRandomHouse_mem g (rand j) hne
    exact ⟨b, hb, hget⟩
  · intro r pos hr hpos
    exact hFresh r pos ((Game.getRandomRestaurant_eq_head g).trans hr) hpos

/-- The evaluation of `reset` on `sampleGame` with the draws `sampleRand`. -/
theorem sampleGame_reset :
    (sampleGame ⟨30, 0, 30⟩).reset sampleRand 2 = some sampleResetGame := by
  simp [Game.reset, Game.clearTimer, Game.createNewOrder, Game.restaurantLoop,
    Game.houseLoop, Game.getRandomRestaurant, Game.getRandomHouse, Game.createPackage,
    sampleGame, sampleResetGame, sampleRand, Draw.index, sameObject, sampleHouse,
    sampleHouse2, sampleRestaurant, playerAt, Player.resetPosition,
    CityBuilder.createPackage, GameUtils.showNotification, setTimeout, Game.new]

/-! ### Successive ticks -/

/-- Before the time limit, `n` ticks of a running game started at time 0 give
`time = n` and `timeRemaining = timeLimit - n`, the game still running. -/
theorem Game.ticks_before_limit (g : Game) (hP : g.isPaused = false)
    (hO : g.isGameOver = false) (hW : g.gameWon = false) (hT : g.time = 0)
    (hR : g.timeRemaining = (g.timeLimit : Int)) (n : Nat) (hn : n < g.timeLimit) :
    (g.ticks n).time = n ∧ (g.ticks n).timeLimit = g.timeLimit ∧
      (g.ticks n).isPaused = false ∧ (g.ticks n).isGameOver = false ∧
      (g.ticks n).gameWon = false ∧
      (g.ticks n).timeRemaining = (g.timeLimit : Int) - (n : Int) := by
  induction n with
  | zero => exact ⟨hT, rfl, hP, hO, hW, by simp [Game.ticks, hR]⟩
  | succ k ih =>
    obtain ⟨h1, h2, h3, h4, h5, _⟩ := ih (Nat.lt_of_succ_lt hn)
    have hrem : (g.ticks k).tick.timeRemaining = (g.timeLimit : Int) - ((k + 1 : Nat) : Int) := by
      rw [Game.tick_timeRemaining _ h3 h4 h5, h1, h2]
      exact max_eq_right (by omega)
    have hover : (g.ticks k).tick.isGameOver = false := by
      rw [Game.tick_isGameOver _ h3 h4 h5, hrem]
      exact decide_eq_false (by omega)
    have hfr := Game.tick_frame (g.ticks k)
    refine ⟨?_, ?_, ?_, hover, Game.tick_gameWon _ h5, hrem⟩
    · show (g.ticks k).tick.time = k + 1
      rw [Game.tick_time _ h3 h4 h5, h1]
    · show (g.ticks k).tick.timeLimit = g.timeLimit
      rw [hfr.2.2.2.2.2.1, h2]
    · show (g.ticks k).tick.isPaused = false
      rw [hfr.2.2.2.2.1, h3]

/-- The tick that reaches the time limit ends the game as lost. -/
theorem Game.ticks_at_limit (g : Game) (hP : g.isPaused = false)
    (hO : g.isGameOver = false) (hW : g.gameWon = false) (hT : g.time = 0)
    (hR : g.timeRemaining = (g.timeLimit : Int)) (hL : 0 < g.timeLimit) :
    (g.ticks g.timeLimit).timeRemaining = 0 ∧ (g.ticks g.timeLimit).isGameOver = true ∧
      (g.ticks g.timeLimit).gameWon = false := by
  obtain ⟨k, hk⟩ : ∃ k, g.timeLimit = k + 1 := ⟨g.timeLimit - 1, by omega⟩
  obtain ⟨h1, h2, h3, h4, h5, _⟩ :=
    Game.ticks_before_limit g hP hO hW hT hR k (by omega)
  have hrem : (g.ticks k).tick.timeRemaining = 0 := by
    rw [Game.tick_timeRemaining _ h3 h4 h5, h1, h2, hk]
    exact max_eq_left (by omega)
  rw [hk]
  refine ⟨hrem, ?_, Game.tick_gameWon _ h5⟩
  show (g.ticks k).tick.isGameOver = true
  rw [Game.tick_isGameOver _ h3 h4 h5, hrem]
  rfl

/-- Once the game is over, further ticks change nothing. -/
theorem Game.ticks_after_over (g : Game) (hO : g.isGameOver = true) (n : Nat) :
    g.ticks n = g := by
  induction n with
  | zero => rfl
  | succ k ih =>
    show (g.ticks k).tick = g
    rw [ih, Game.tick_of_over g hO]

theorem Game.ticks_add (g : Game) (m n : Nat) : g.ticks (m + n) = (g.ticks m).ticks n := by
  induction n with
  | zero => rfl
  | succ k ih =>
    show (g.ticks (m + k)).tick = ((g.ticks m).ticks k).tick
    rw [ih]

/-! ### One event -/

theorem Game.completeDelivery_frame (g : Game) (pkg : Package) (housePos : Vector3) :
    (g.completeDelivery pkg housePos).deliveryGoal = g.deliveryGoal ∧
      (g.completeDelivery pkg housePos).timeLimit = g.timeLimit ∧
      (g.completeDelivery pkg housePos).time = g.time := by
  simp only [Game.completeDelivery, Game.gameOver, Game.clearTimer_eq,
    GameUtils.showNotification, setTimeout]
  split_ifs <;> simp

/-- The delivery that reaches the goal ends the game as won, stops the timer
and schedules the removal of the package only. -/
theorem Game.completeDelivery_win (g : Game) (pkg : Package) (housePos : Vector3)
    (h : g.deliveryGoal ≤ g.deliveries + 1) :
    (g.completeDelivery pkg housePos).isGameOver = true ∧
      (g.completeDelivery pkg housePos).gameWon = true ∧
      (g.completeDelivery pkg housePos).timerInterval = none ∧
      (g.completeDelivery pkg housePos).timeouts =
        g.timeouts ++ [⟨Callback.disposePackage, 1500⟩] := by
  simp only [Game.completeDelivery, Game.gameOver, Game.clearTimer_eq,
    GameUtils.showNotification, setTimeout]
  split_ifs <;> simp_all

/-- A delivery below the goal leaves the status alone and schedules the
removal of the package and the next order. -/
theorem Game.completeDelivery_continue (g : Game) (pkg : Package) (housePos : Vector3)
    (h : g.deliveries + 1 < g.deliveryGoal) :
    (g.completeDelivery pkg housePos).isGameOver = g.isGameOver ∧
      (g.completeDelivery pkg housePos).gameWon = g.gameWon ∧
      (g.completeDelivery pkg housePos).timerInterval = g.timerInterval ∧
      (g.completeDelivery pkg housePos).timeouts =
        g.timeouts ++ [⟨Callback.disposePackage, 1500⟩, ⟨Callback.createNewOrder, 2000⟩] := by
  simp only [Game.completeDelivery, Game.gameOver, Game.clearTimer_eq,
    GameUtils.showNotification, setTimeout]
  split_ifs <;> simp_all <;> omega

theorem Game.SameProgress.rfl (g : Game) : g.SameProgress g :=
  ⟨Eq.refl _, Eq.refl _, Eq.refl _, Eq.refl _, Eq.refl _, Eq.refl _⟩

theorem Game.update_sameProgress (g : Game) (moved : Option Vector3) (handle : ℕ+) :
    g.SameProgress (g.update moved handle) := by
  cases g with
  | mk player score deliveries level time timerInterval isPaused isGameOver timeLimit
      deliveryGoal timeRemaining gameWon currentPackage currentRestaurant currentHouse
      hasPackage restaurants houses notifications timeouts =>
    unfold Game.update Game.startTimer
    dsimp only
    split_ifs
    · exact Game.SameProgress.rfl _
    · rcases player with _ | p <;> rcases timerInterval with _ | t <;>
        exact ⟨Eq.refl _, Eq.refl _, Eq.refl _, Eq.refl _, Eq.refl _, Eq.refl _⟩

theorem Game.pickupPackage_sameProgress (Distance : Vector3 → Vector3 → JSNumber)
    (g g1 : Game) (b : Bool) (h : g.pickupPackage Distance = .ok (g1, b)) :
    g.SameProgress g1 := by
  rcases Game.pickupPackage_cases Distance g g1 b h with
    ⟨_, _, pkg, _, rfl⟩ | ⟨_, rfl⟩ | ⟨_, rfl⟩ <;>
    exact ⟨Eq.refl _, Eq.refl _, Eq.refl _, Eq.refl _, Eq.refl _, Eq.refl _⟩

theorem Game.handleKeyPress_r_sameProgress (Distance : Vector3 → Vector3 → JSNumber)
    (g g1 : Game) (h : g.handleKeyPress Distance "r" = .ok g1) : g.SameProgress g1 := by
  unfold Game.handleKeyPress at h
  rw [if_neg (by decide), if_pos (by decide)] at h
  split at h <;> cases h <;>
    exact ⟨Eq.refl _, Eq.refl _, Eq.refl _, Eq.refl _, Eq.refl _, Eq.refl _⟩

theorem Game.createNewOrder_sameProgress (rand : Nat → Draw) (fuel : Nat) (g g1 : Game)
    (h : g.createNewOrder rand fuel = some g1) : g.SameProgress g1 := by
  obtain ⟨j, rfl⟩ := Game.createNewOrder_some rand fuel g g1 h
  rw [Game.createPackage_frame]
  exact ⟨Eq.refl _, Eq.refl _, Eq.refl _, Eq.refl _, Eq.refl _, Eq.refl _⟩

theorem Game.SameProgress.trans (g g1 g2 : Game) (h1 : g.SameProgress g1)
    (h2 : g1.SameProgress g2) : g.SameProgress g2 :=
  ⟨h2.1.trans h1.1, h2.2.1.trans h1.2.1, h2.2.2.1.trans h1.2.2.1,
    h2.2.2.2.1.trans h1.2.2.2.1, h2.2.2.2.2.1.trans h1.2.2.2.2.1,
    h2.2.2.2.2.2.trans h1.2.2.2.2.2⟩

theorem Game.runCallback_sameProgress (rand : Nat → Draw) (fuel : Nat) (g g1 : Game)
    (c : Callback) (h : g.runCallback rand fuel c = some g1) : g.SameProgress g1 := by
  cases c
  · cases h
    unfold Game.disposePackageCallback
    split <;> exact ⟨Eq.refl _, Eq.refl _, Eq.refl _, Eq.refl _, Eq.refl _, Eq.refl _⟩
  · exact Game.createNewOrder_sameProgress rand fuel g g1 h
  · cases h
    exact ⟨Eq.refl _, Eq.refl _, Eq.refl _, Eq.refl _, Eq.refl _, Eq.refl _⟩

theorem Game.fireTimeout_sameProgress (rand : Nat → Draw) (fuel i : Nat) (g g1 : Game)
    (h : g.fireTimeout rand fuel i = some g1) : g.SameProgress g1 := by
  unfold Game.fireTimeout at h
  split at h
  · cases h
    exact Game.SameProgress.rfl g
  · exact Game.SameProgress.trans g { g with timeouts := g.timeouts.eraseIdx i } g1
      ⟨Eq.refl _, Eq.refl _, Eq.refl _, Eq.refl _, Eq.refl _, Eq.refl _⟩
      (Game.runCallback_sameProgress rand fuel _ g1 _ h)

theorem Game.Unfinished.of_sameProgress (g g1 : Game) (h : g.SameProgress g1)
    (hu : g.Unfinished) : g1.Unfinished := by
  obtain ⟨h1, h2, h3, h4, h5, h6⟩ := h
  unfold Game.Unfinished
  rw [h1, h2, h3, h4, h5, h6]
  exact hu

/-- A tick adds at most 1 to `time` and ends an unfinished game only when the
time has run out. -/
theorem Game.tick_unfinished (g : Game) (hu : g.Unfinished) :
    g.tick.Unfinished ∧ g.tick.deliveryGoal = g.deliveryGoal ∧
      g.tick.timeLimit = g.timeLimit ∧ g.tick.deliveries = g.deliveries ∧
      g.tick.time ≤ g.time + 1 := by
  obtain ⟨_, _, hd, _, _, hTL, hG⟩ := Game.tick_frame g
  by_cases hP : g.isPaused = true
  · rw [Game.tick_of_paused g hP]
    exact ⟨hu, rfl, rfl, rfl, Nat.le_succ _⟩
  by_cases hO : g.isGameOver = true
  · rw [Game.tick_of_over g hO]
    exact ⟨hu, rfl, rfl, rfl, Nat.le_succ _⟩
  by_cases hW : g.gameWon = true
  · rw [Game.tick_of_won g hW]
    exact ⟨hu, rfl, rfl, rfl, Nat.le_succ _⟩
  simp only [Bool.not_eq_true] at hP hO hW
  have hrem := Game.tick_timeRemaining g hP hO hW
  have hover := Game.tick_isGameOver g hP hO hW
  have htime := Game.tick_time g hP hO hW
  refine ⟨fun _ => ⟨Game.tick_gameWon g hW, ?_⟩, hG, hTL, hd, le_of_eq htime⟩
  intro hov
  rw [hover, hrem, decide_eq_true_eq] at hov
  rw [htime, hTL]
  have hle : (g.timeLimit : Int) - ((g.time + 1 : Nat) : Int) ≤ 0 := by
    rw [← hov]
    exact le_max_right _ _
  push_cast at hle
  omega

/-- One event: an unfinished game stays unfinished, `deliveries` grows by 1
exactly when the event is a successful delivery, and `time` grows by at most
1, on a tick only. -/
theorem Game.step_progress (Distance : Vector3 → Vector3 → JSNumber) (g g1 : Game)
    (e : Event) (hstep : g.step Distance e = some g1) (hu : g.Unfinished) :
    g1.Unfinished ∧ g1.deliveryGoal = g.deliveryGoal ∧ g1.timeLimit = g.timeLimit ∧
      g1.deliveries = g.deliveries + (if g.delivers Distance e then 1 else 0) ∧
      g1.time ≤ g.time + (if e.isTick then 1 else 0) := by
  have same : ∀ (g2 : Game) (k : Nat), g.SameProgress g2 →
      g2.Unfinished ∧ g2.deliveryGoal = g.deliveryGoal ∧ g2.timeLimit = g.timeLimit ∧
        g2.deliveries = g.deliveries + 0 ∧ g2.time ≤ g.time + k :=
    fun g2 k h => ⟨Game.Unfinished.of_sameProgress g g2 h hu, h.1, h.2.1, h.2.2.2.1,
      by rw [h.2.2.1]; exact Nat.le_add_right _ _⟩
  cases e with
  | update moved handle =>
    cases hstep
    exact same _ 0 (Game.update_sameProgress g moved handle)
  | tick =>
    cases hstep
    unfold Game.timerFires
    split
    · exact Game.tick_unfinished g hu
    · exact same g 1 (Game.SameProgress.rfl g)
  | pickup =>
    simp only [Game.step] at hstep
    split at hstep
    · rename_i g2 b hp
      cases hstep
      exact same _ 0 (Game.pickupPackage_sameProgress Distance g _ b hp)
    · cases hstep
      exact same _ 0 (Game.SameProgress.rfl _)
  | deliver =>
    simp only [Game.step] at hstep
    split at hstep
    · rename_i g2 b hp
      cases hstep
      have hdel : g.delivers Distance Event.deliver = b := by
        unfold Game.delivers
        rw [hp]
      rw [hdel]
      rcases Game.deliverPackage_cases Distance g _ b hp with
        ⟨rfl, _, pkg, housePos, rfl⟩ | ⟨rfl, rfl⟩ | ⟨rfl, rfl⟩
      · obtain ⟨hG, hTL, hT⟩ := Game.completeDelivery_frame g pkg housePos
        have hD := Game.completeDelivery_deliveries g pkg housePos
        refine ⟨?_, hG, hTL, by simpa using hD, le_of_eq hT⟩
        intro hlt
        rw [hD, hG] at hlt
        obtain ⟨hO, hW, _, _⟩ := Game.completeDelivery_continue g pkg housePos hlt
        rw [hO, hW, hT, hTL]
        exact hu (by omega)
      · exact same _ 0 ⟨Eq.refl _, Eq.refl _, Eq.refl _, Eq.refl _, Eq.refl _, Eq.refl _⟩
      · exact same _ 0 (Game.SameProgress.rfl _)
    · rename_i err hp
      have hdel : g.delivers Distance Event.deliver = false := by
        unfold Game.delivers
        rw [hp]
      rw [hdel]
      cases hstep
      exact same _ 0 (Game.SameProgress.rfl _)
  | togglePause =>
    cases hstep
    exact same _ 0 ⟨Eq.refl _, Eq.refl _, Eq.refl _, Eq.refl _, Eq.refl _, Eq.refl _⟩
  | keyR =>
    simp only [Game.step] at hstep
    split at hstep
    · rename_i g2 hp
      cases hstep
      exact same _ 0 (Game.handleKeyPress_r_sameProgress Distance g _ hp)
    · cases hstep
      exact same _ 0 (Game.SameProgress.rfl _)
  | timeout i rand fuel =>
    exact same _ 0 (Game.fireTimeout_sameProgress rand fuel i g g1 hstep)

/-- A run: an unfinished game stays unfinished, `deliveries` counts the
successful deliveries of the run and `time` is bounded by its ticks. -/
theorem Game.run_progress (Distance : Vector3 → Vector3 → JSNumber) (es : List Event)
    (g s : Game) (hrun : g.run Distance es = some s) (hu : g.Unfinished) :
    s.Unfinished ∧ s.deliveryGoal = g.deliveryGoal ∧ s.timeLimit = g.timeLimit ∧
      s.deliveries = g.deliveries + g.deliveriesMade Distance es ∧
      s.time ≤ g.time + es.countP Event.isTick := by
  induction es generalizing g with
  | nil =>
    cases hrun
    exact ⟨hu, rfl, rfl, rfl, Nat.le_refl _⟩
  | cons e es ih =>
    unfold Game.run at hrun
    unfold Game.deliveriesMade
    split at hrun
    · cases hrun
    · rename_i g1 hstep
      rw [List.countP_cons]
      obtain ⟨h1, h2, h3, h4, h5⟩ := Game.step_progress Distance g g1 e hstep hu
      obtain ⟨i1, i2, i3, i4, i5⟩ := ih g1 hrun h1
      refine ⟨i1, i2.trans h2, i3.trans h3, ?_, ?_⟩
      · rw [i4, h4]
        omega
      · omega

/-- The evaluation of `sampleMission` from `sampleResetGame`. -/
theorem sampleMission_run :
    sampleResetGame.run axisDistance sampleMission = some sampleMissionGame := by
  simp [sampleMission, sampleMissionGame, sampleResetGame, Game.run, Game.step, Game.update,
    Game.startTimer, Player.update, playerAt, Game.pickupPackage, Game.takePackage,
    Game.deliverPackage, Game.completeDelivery, Game.timeBonus, Game.gameOver,
    GameUtils.distance, axisDistance, JSNumber.lt, sampleRestaurant, sampleHouse,
    sampleHouse2, CityBuilder.createPackage, GameUtils.showNotification, setTimeout, Game.new]

/-! ### The delayed `createNewOrder` -/

/-- `createNewOrder` leaves the score, the clock and the status alone and
appends to the two logs. -/
theorem Game.createNewOrder_facts (rand : Nat → Draw) (fuel : Nat) (g g' : Game)
    (h : g.createNewOrder rand fuel = some g') :
    g'.score = g.score ∧ g'.deliveries = g.deliveries ∧ g'.level = g.level ∧
      g'.time = g.time ∧ g'.timeRemaining = g.timeRemaining ∧ g'.timeLimit = g.timeLimit ∧
      g'.isPaused = g.isPaused ∧ g'.isGameOver = g.isGameOver ∧ g'.gameWon = g.gameWon ∧
      g'.notifications = g.notifications ++ [⟨Notice.newOrder, Severity.info⟩] ∧
      g'.timeouts = g.timeouts ++ [⟨Callback.showDestination, 1500⟩] := by
  obtain ⟨j, rfl⟩ := Game.createNewOrder_some rand fuel g g' h
  rw [Game.createPackage_frame]
  exact ⟨rfl, rfl, rfl, rfl, rfl, rfl, rfl, rfl, rfl, rfl, rfl⟩

/-- When the restaurant of the new order has a position, `createNewOrder` ends
with a fresh package lying there and `hasPackage` false. -/
theorem Game.createNewOrder_package (rand : Nat → Draw) (fuel : Nat) (g g' : Game)
    (r : Building) (pos : Vector3) (h : g.createNewOrder rand fuel = some g')
    (hr : g.getRandomRestaurant = some r) (hpos : r.position = some pos) :
    g'.hasPackage = false ∧ g'.currentPackage = CityBuilder.createPackage (some pos) := by
  obtain ⟨j, rfl⟩ := Game.createNewOrder_some rand fuel g g' h
  constructor
  · show (Game.createPackage _).hasPackage = false
    unfold Game.createPackage
    cases g.currentPackage <;> simp only [hr, hpos]
  · exact Game.createPackage_fresh _ r pos hr hpos

/-- Firing a pending timeout whose callback is `createNewOrder`. -/
theorem Game.fireTimeout_createNewOrder (rand : Nat → Draw) (fuel i d : Nat) (g : Game)
    (hpending : g.timeouts[i]? = some ⟨Callback.createNewOrder, d⟩) :
    g.fireTimeout rand fuel i =
      Game.createNewOrder rand fuel { g with timeouts := g.timeouts.eraseIdx i } := by
  unfold Game.fireTimeout
  rw [hpending]
  rfl

/-- The order `reset` leaves behind, next to the facts of `reset_facts`. -/
theorem Game.reset_order (rand : Nat → Draw) (fuel : Nat) (g g' : Game)
    (h : g.reset rand fuel = some g') :
    g'.restaurants = g.restaurants ∧ g'.houses = g.houses ∧
      g'.currentRestaurant = g.restaurants.head? := by
  rw [Game.reset_eq] at h
  obtain ⟨h1, h2, h3, _⟩ := Game.createNewOrder_order rand fuel _ g' h
  exact ⟨h2, h3, h1.trans (Game.getRandomRestaurant_eq_head _)⟩

/-! ### Evaluations -/

theorem lateCarryingGame_run :
    lateCarryingGame.run axisDistance
      [Event.deliver, Event.tick, Event.timeout 0 sampleRand 2] = some lostAfterDelivery := by
  have h1 : |(-60 : ℚ) + 70| < 15 := by norm_num [abs_lt]
  simp [h1, lateCarryingGame, lostAfterDelivery, carryingGame, sampleGame, Game.run, Game.step,
    Game.timerFires, Game.tick, Game.fireTimeout, Game.runCallback, Game.disposePackageCallback,
    Game.deliverPackage, Game.completeDelivery, Game.timeBonus, Game.gameOver, Game.clearTimer,
    playerAt, GameUtils.distance, axisDistance, JSNumber.lt, sampleRestaurant, sampleHouse,
    sampleHouse2, CityBuilder.createPackage, GameUtils.showNotification, setTimeout, Game.new]

theorem lostAfterDelivery_step :
    lostAfterDelivery.step axisDistance (Event.timeout 0 sampleRand 2) = some orderAfterLoss := by
  simp [lostAfterDelivery, orderAfterLoss, sampleGame, Game.step, Game.fireTimeout,
    Game.runCallback, Game.createNewOrder, Game.restaurantLoop, Game.houseLoop,
    Game.getRandomRestaurant, Game.getRandomHouse, Game.createPackage, sampleRand, Draw.index,
    sameObject, playerAt, sampleRestaurant, sampleHouse, sampleHouse2,
    CityBuilder.createPackage, GameUtils.showNotification, setTimeout, Game.new]

theorem sampleMissionGame_run :
    sampleMissionGame.run axisDistance secondPickup = some carryingNothingGame := by
  simp [secondPickup, sampleMissionGame, carryingNothingGame, sampleResetGame, Game.run,
    Game.step, Game.update, Player.update, Game.pickupPackage, Game.takePackage,
    Game.fireTimeout, Game.runCallback, Game.disposePackageCallback, playerAt,
    GameUtils.distance, axisDistance, JSNumber.lt, sampleRestaurant, sampleHouse,
    sampleHouse2, CityBuilder.createPackage, GameUtils.showNotification, setTimeout, Game.new]

theorem sampleMissionGame_reset :
    sampleMissionGame.reset sampleRand 2 = some staleResetGame := by
  simp [Game.reset, Game.clearTimer, Game.createNewOrder, Game.restaurantLoop,
    Game.houseLoop, Game.getRandomRestaurant, Game.getRandomHouse, Game.createPackage,
    sampleMissionGame, staleResetGame, sampleResetGame, sampleRand, Draw.index, sameObject,
    sampleHouse, sampleHouse2, sampleRestaurant, playerAt, Player.resetPosition,
    CityBuilder.createPackage, GameUtils.showNotification, setTimeout, Game.new]

theorem staleResetGame_fireTimeout :
    staleResetGame.fireTimeout sampleRand 2 2 = some staleOrderGame := by
  simp [staleResetGame, staleOrderGame, sampleResetGame, Game.fireTimeout, Game.runCallback,
    Game.createNewOrder, Game.restaurantLoop, Game.houseLoop, Game.getRandomRestaurant,
    Game.getRandomHouse, Game.createPackage, sampleRand, Draw.index, sameObject, playerAt,
    sampleRestaurant, sampleHouse, sampleHouse2, CityBuilder.createPackage, Package.dispose,
    GameUtils.showNotification, setTimeout, Game.new]

/-- Runs compose. -/
theorem Game.run_append (Distance : Vector3 → Vector3 → JSNumber) (es1 es2 : List Event)
    (g g1 : Game) (h : g.run Distance es1 = some g1) :
    g.run Distance (es1 ++ es2) = g1.run Distance es2 := by
  induction es1 generalizing g with
  | nil =>
    cases h
    rfl
  | cons e es ih =>
    unfold Game.run at h
    rw [List.cons_append]
    conv_lhs => unfold Game.run
    split at h
    · cases h
    · rename_i g2 hstep
      exact ih g2 h

/-! ### The hint band and the time bonus -/

theorem Game.deliverPackage_hint (Distance : Vector3 → Vector3 → JSNumber) (g : Game)
    (pkg : Package) (house : Building) (player : Player) (mesh : Mesh)
    (hHas : g.hasPackage = true) (hPkg : g.currentPackage = some pkg)
    (hHouse : g.currentHouse = some house) (hPlayer : g.player = some player)
    (hMesh : player.mesh = some mesh)
    (hFar : (GameUtils.distance Distance mesh.position house.position).lt 15 = false)
    (hHint : (GameUtils.distance Distance mesh.position house.position).lt 25 = true) :
    g.deliverPackage Distance =
      .ok (GameUtils.showNotification g Notice.closerToHouse Severity.warning, false) := by
  unfold Game.deliverPackage
  simp only [hHas, hPkg, hHouse, hPlayer, hMesh, hFar, hHint]
  rfl

theorem Game.pickupPackage_far (Distance : Vector3 → Vector3 → JSNumber) (g : Game)
    (pkg : Package) (restaurant : Building) (player : Player) (mesh : Mesh)
    (hHas : g.hasPackage = false) (hPkg : g.currentPackage = some pkg)
    (hRest : g.currentRestaurant = some restaurant) (hPlayer : g.player = some player)
    (hMesh : player.mesh = some mesh)
    (hFar : (GameUtils.distance Distance mesh.position restaurant.position).lt 25 = false)
    (hFar15 : (GameUtils.distance Distance mesh.position restaurant.position).lt 15 = false) :
    g.pickupPackage Distance = .ok (g, false) := by
  unfold Game.pickupPackage
  simp only [hHas, hPkg, hRest, hPlayer, hMesh, hFar, hFar15]
  rfl

theorem Game.deliverPackage_far (Distance : Vector3 → Vector3 → JSNumber) (g : Game)
    (pkg : Package) (house : Building) (player : Player) (mesh : Mesh)
    (hHas : g.hasPackage = true) (hPkg : g.currentPackage = some pkg)
    (hHouse : g.currentHouse = some house) (hPlayer : g.player = some player)
    (hMesh : player.mesh = some mesh)
    (hFar : (GameUtils.distance Distance mesh.position house.position).lt 25 = false)
    (hFar15 : (GameUtils.distance Distance mesh.position house.position).lt 15 = false) :
    g.deliverPackage Distance = .ok (g, false) := by
  unfold Game.deliverPackage
  simp only [hHas, hPkg, hHouse, hPlayer, hMesh, hFar, hFar15]
  rfl

theorem JSNumber.lt_finite (q bound : ℚ) :
    (JSNumber.finite q).lt bound = decide (q < bound) := rfl

theorem Game.timeBonus_of_late (g : Game) (h : 500 ≤ g.time) : g.timeBonus = 0 := by
  unfold Game.timeBonus
  have h1 : (50 : Int) - ((g.time / 10 : Nat) : Int) ≤ 0 := by omega
  rw [max_eq_left h1]
  simp

theorem Game.timeBonus_le (g : Game) : g.timeBonus ≤ 50 * g.level := by
  unfold Game.timeBonus
  apply Nat.mul_le_mul_right
  omega

/-! ### `formatTime` -/

theorem JS.padStart_toString (n : Nat) (h : n < 100) :
    (JS.padStart (JS.toString n) 2 '0').data = [Nat.digitChar (n / 10), Nat.digitChar (n % 10)] := by
  interval_cases n <;> rfl

theorem digitValue_digitChar (k : Nat) (h : k < 10) : digitValue (Nat.digitChar k) = k := by
  interval_cases k <;> rfl

theorem GameUtils.formatTime_data (s : Nat) (h : s ≤ 5999) :
    (GameUtils.formatTime s).data =
      [Nat.digitChar (s / 60 / 10), Nat.digitChar (s / 60 % 10), ':',
        Nat.digitChar (s % 60 / 10), Nat.digitChar (s % 60 % 10)] := by
  have hm : s / 60 < 100 := by omega
  have hs : s % 60 < 100 := by omega
  unfold GameUtils.formatTime
  simp only [String.data_append, JS.padStart_toString _ hm, JS.padStart_toString _ hs]
  rfl

theorem readClock_formatTime (s : Nat) (h : s ≤ 5999) : readClock (GameUtils.formatTime s) = s := by
  unfold readClock
  rw [GameUtils.formatTime_data s h]
  simp only
  rw [digitValue_digitChar _ (by omega), digitValue_digitChar _ (Nat.mod_lt _ (by decide)),
    digitValue_digitChar _ (by omega), digitValue_digitChar _ (Nat.mod_lt _ (by decide))]
  omega

/-! ### A reset right after the winning delivery -/

theorem lastCarryingGame_deliver :
    lastCarryingGame.deliverPackage axisDistance = .ok (justWonGame, true) := by
  have h1 : |(-60 : ℚ) + 70| < 15 := by norm_num [abs_lt]
  simp [h1, lastCarryingGame, justWonGame, carryingGame, sampleGame,
    Game.deliverPackage, Game.completeDelivery, Game.timeBonus, Game.gameOver, Game.clearTimer,
    playerAt, GameUtils.distance, axisDistance, JSNumber.lt, sampleRestaurant, sampleHouse,
    sampleHouse2, CityBuilder.createPackage, GameUtils.showNotification, setTimeout, Game.new]

theorem justWonGame_reset : justWonGame.reset sampleRand 2 = some playAgainGame := by
  simp [Game.reset, Game.clearTimer, Game.createNewOrder, Game.restaurantLoop,
    Game.houseLoop, Game.getRandomRestaurant, Game.getRandomHouse, Game.createPackage,
    justWonGame, playAgainGame, sampleGame, sampleResetGame, sampleRand, Draw.index, sameObject,
    sampleHouse, sampleHouse2, sampleRestaurant, playerAt, Player.resetPosition,
    CityBuilder.createPackage, GameUtils.showNotification, setTimeout, Game.new]

theorem playAgainGame_fireTimeout :
    playAgainGame.fireTimeout sampleRand 2 0 = some noPackageGame := by
  simp [playAgainGame, noPackageGame, sampleResetGame, Game.fireTimeout, Game.runCallback,
    Game.disposePackageCallback, playerAt, sampleRestaurant, sampleHouse, sampleHouse2,
    CityBuilder.createPackage, Game.new]

/-! ### Missing order data and the key R -/

theorem Game.pickupPackage_of_no_package (Distance : Vector3 → Vector3 → JSNumber) (g : Game)
    (h : g.currentPackage = none) : g.pickupPackage Distance = .ok (g, false) := by
  unfold Game.pickupPackage
  rw [h]
  cases g.hasPackage <;> rfl

theorem Game.pickupPackage_of_no_restaurant (Distance : Vector3 → Vector3 → JSNumber)
    (g : Game) (h : g.currentRestaurant = none) : g.pickupPackage Distance = .ok (g, false) := by
  unfold Game.pickupPackage
  rw [h]
  cases g.hasPackage <;> cases g.currentPackage <;> rfl

theorem Game.deliverPackage_of_no_house (Distance : Vector3 → Vector3 → JSNumber)
    (g : Game) (h : g.currentHouse = none) : g.deliverPackage Distance = .ok (g, false) := by
  unfold Game.deliverPackage
  rw [h]
  cases g.hasPackage <;> cases g.currentPackage <;> rfl

theorem Game.handleKeyPress_r (Distance : Vector3 → Vector3 → JSNumber) (g : Game)
    (key : String) (hkey : key = "r" ∨ key = "R") :
    g.handleKeyPress Distance key =
      .ok { g with player := g.player.map Player.resetPosition } := by
  have hne : key ≠ " " := by
    rcases hkey with h | h <;> rw [h] <;> decide
  unfold Game.handleKeyPress
  rw [if_neg hne, if_pos hkey]
  cases g with
  | mk player =>
    cases player <;> rfl

/-! ### `init` -/

theorem Game.restaurantLoop_first (g : Game) (fuel : Nat) (h : g.currentRestaurant = none) :
    g.restaurantLoop (fuel + 1) = some g.getRandomRestaurant := by
  unfold Game.restaurantLoop
  have hs : sameObject g.getRandomRestaurant g.currentRestaurant = false ∨
      decide (g.restaurants.length > 1) = false := by
    by_cases hlen : g.restaurants.length > 1
    · left
      rw [h, Game.getRandomRestaurant_eq_head]
      cases hr : g.restaurants with
      | nil =>
        rw [hr] at hlen
        cases hlen
      | cons r rs => rfl
    · right
      exact decide_eq_false hlen
  rcases hs with hs | hs
  · simp [hs]
  · simp [hs]

theorem Game.houseLoop_first (g : Game) (rand : Nat → Draw) (i fuel : Nat)
    (h : g.currentHouse = none) :
    g.houseLoop rand i (fuel + 1) = some (g.getRandomHouse (rand i)) := by
  unfold Game.houseLoop
  have hs : sameObject (g.getRandomHouse (rand i)) g.currentHouse = false ∨
      decide (g.houses.length > 1) = false := by
    by_cases hlen : g.houses.length > 1
    · left
      have hne : g.houses ≠ [] := by
        intro h0
        rw [h0] at hlen
        cases hlen
      obtain ⟨b, _, hb⟩ := Game.getRandomHouse_mem g (rand i) hne
      rw [h, hb]
      rfl
    · right
      exact decide_eq_false hlen
  rcases hs with hs | hs
  · simp [hs]
  · simp [hs]

theorem Game.createPackage_of_no_restaurant (g : Game) (h1 : g.currentPackage = none)
    (h2 : g.currentRestaurant = none) : g.createPackage = g := by
  unfold Game.createPackage
  simp only [h1, h2]

theorem Game.init_new (restaurants houses : List Building) (player : Player)
    (rand : Nat → Draw) (fuel : Nat) :
    Game.init restaurants houses player rand (fuel + 1) Game.new =
      some (setTimeout (GameUtils.showNotification
        (Game.createPackage { Game.new with
          restaurants := restaurants
          houses := houses
          player := some player
          currentRestaurant := restaurants.head?
          currentHouse := Game.getRandomHouse
            { Game.new with restaurants := restaurants, houses := houses,
                            player := some player } (rand 0) })
        Notice.newOrder Severity.info) Callback.showDestination 1500) := by
  unfold Game.init Game.createNewOrder
  dsimp only
  rw [Game.restaurantLoop_first _ fuel rfl, Game.houseLoop_first _ rand 0 fuel rfl]
  dsimp only
  rw [Game.getRandomRestaurant_eq_head]

/-! ### One press of the space bar -/

theorem Game.completeDelivery_order (g : Game) (pkg : Package) (housePos : Vector3) :
    (g.completeDelivery pkg housePos).player = g.player ∧
      (g.completeDelivery pkg housePos).currentRestaurant = g.currentRestaurant ∧
      (g.completeDelivery pkg housePos).currentHouse = g.currentHouse ∧
      (g.completeDelivery pkg housePos).isPaused = g.isPaused := by
  simp only [Game.completeDelivery, Game.gameOver, Game.clearTimer_eq,
    GameUtils.showNotification, setTimeout]
  split_ifs <;> simp

theorem Game.oneCall_refl (Distance : Vector3 → Vector3 → JSNumber) (g : Game) :
    g.OneCall Distance g :=
  ⟨Eq.refl _, Eq.refl _, Eq.refl _, Eq.refl _, Or.inl ⟨Eq.refl _, Eq.refl _⟩⟩

theorem Game.pickupPackage_oneCall (Distance : Vector3 → Vector3 → JSNumber) (g g' : Game)
    (b : Bool) (h : g.pickupPackage Distance = .ok (g', b)) : g.OneCall Distance g' := by
  unfold Game.pickupPackage at h
  split at h
  · rename_i hHas hPkg hRest
    split at h
    · cases h
    · rename_i player hPlayer
      split at h
      · cases h
      · rename_i mesh hMesh
        dsimp only at h
        split_ifs at h with hnear hhint
        · cases h
          refine ⟨rfl, rfl, rfl, rfl, Or.inr (Or.inl ⟨hHas, rfl, rfl, ?_⟩)⟩
          unfold Game.nearRestaurant
          simp only [hPlayer, hRest, hMesh]
          exact hnear
        · cases h
          exact ⟨rfl, rfl, rfl, rfl, Or.inl ⟨rfl, rfl⟩⟩
        · cases h
          exact Game.oneCall_refl Distance _
  · cases h
    exact Game.oneCall_refl Distance _

theorem Game.deliverPackage_oneCall (Distance : Vector3 → Vector3 → JSNumber) (g g' : Game)
    (b : Bool) (h : g.deliverPackage Distance = .ok (g', b)) : g.OneCall Distance g' := by
  unfold Game.deliverPackage at h
  split at h
  · rename_i hHas hPkg hHouse
    split at h
    · cases h
    · rename_i player hPlayer
      split at h
      · cases h
      · rename_i mesh hMesh
        dsimp only at h
        split_ifs at h with hnear hhint
        · split at h
          · cases h
          · cases h
            obtain ⟨o1, o2, o3, o4⟩ := Game.completeDelivery_order g _ _
            refine ⟨o1, o2, o3, o4, Or.inr (Or.inr ⟨hHas, Game.completeDelivery_hasPackage _ _ _,
              Game.completeDelivery_deliveries _ _ _, ?_⟩)⟩
            unfold Game.nearHouse
            simp only [hPlayer, hHouse, hMesh]
            exact hnear
        · cases h
          exact ⟨rfl, rfl, rfl, rfl, Or.inl ⟨rfl, rfl⟩⟩
        · cases h
          exact Game.oneCall_refl Distance _
  · cases h
    exact Game.oneCall_refl Distance _

theorem Game.handleKeyPress_space_oneCall (Distance : Vector3 → Vector3 → JSNumber)
    (g g' : Game) (h : g.handleKeyPress Distance " " = .ok g') : g.OneCall Distance g' := by
  unfold Game.handleKeyPress at h
  rw [if_pos rfl] at h
  split_ifs at h
  · cases hd : g.deliverPackage Distance with
    | error e =>
      rw [hd] at h
      cases h
    | ok r =>
      rw [hd] at h
      cases h
      exact Game.deliverPackage_oneCall Distance g r.1 r.2 hd
  · cases hd : g.pickupPackage Distance with
    | error e =>
      rw [hd] at h
      cases h
    | ok r =>
      rw [hd] at h
      cases h
      exact Game.pickupPackage_oneCall Distance g r.1 r.2 hd

theorem Game.handleSpacePress_oneCall (Distance : Vector3 → Vector3 → JSNumber)
    (g g' : Game) (h : g.handleSpacePress Distance = .ok g') : g.OneCall Distance g' := by
  unfold Game.handleSpacePress at h
  split_ifs at h
  · cases h
    exact Game.oneCall_refl Distance _
  · cases hd : g.deliverPackage Distance with
    | error e =>
      rw [hd] at h
      cases h
    | ok r =>
      rw [hd] at h
      cases h
      exact Game.deliverPackage_oneCall Distance g r.1 r.2 hd
  · cases hd : g.pickupPackage Distance with
    | error e =>
      rw [hd] at h
      cases h
    | ok r =>
      rw [hd] at h
      cases h
      exact Game.pickupPackage_oneCall Distance g r.1 r.2 hd

theorem Main.spaceKeydown_oneCall (Distance : Vector3 → Vector3 → JSNumber) (g : Game) :
    g.OneCall Distance (Main.spaceKeydown Distance g).1 ∧
      (Main.spaceKeydown Distance g).1.OneCall Distance (Main.spaceKeydown Distance g).2 := by
  have h1 : g.OneCall Distance (Main.spaceKeydown Distance g).1 := by
    unfold Main.spaceKeydown Main.documentKeydownSpace
    dsimp only
    cases hd : g.handleSpacePress Distance with
    | error e => exact Game.oneCall_refl Distance _
    | ok g1 => exact Game.handleSpacePress_oneCall Distance g g1 hd
  refine ⟨h1, ?_⟩
  generalize hg1 : (Main.spaceKeydown Distance g).1 = g1
  have hg2 : (Main.spaceKeydown Distance g).2 =
      match Main.windowKeydown Distance g1 " " with
      | .ok g2 => g2
      | .error _ => g1 := by
    rw [← hg1]
    rfl
  rw [hg2]
  unfold Main.windowKeydown
  have hne : ¬ (" " = "Escape") := by decide
  cases hp : g1.isPaused with
  | true =>
    simp only [Bool.not_true, Bool.false_eq_true, if_false, if_neg hne]
    exact Game.oneCall_refl Distance _
  | false =>
    simp only [Bool.not_false, if_true]
    cases hk : g1.handleKeyPress Distance " " with
    | error e => exact Game.oneCall_refl Distance _
    | ok g2 =>
      simp only [if_neg hne]
      exact Game.handleKeyPress_space_oneCall Distance g1 g2 hk

theorem Game.nearRestaurant_congr (Distance : Vector3 → Vector3 → JSNumber) (g g1 : Game)
    (h1 : g1.player = g.player) (h2 : g1.currentRestaurant = g.currentRestaurant) :
    g1.nearRestaurant Distance = g.nearRestaurant Distance := by
  unfold Game.nearRestaurant
  rw [h1, h2]

theorem Game.nearHouse_congr (Distance : Vector3 → Vector3 → JSNumber) (g g1 : Game)
    (h1 : g1.player = g.player) (h2 : g1.currentHouse = g.currentHouse) :
    g1.nearHouse Distance = g.nearHouse Distance := by
  unfold Game.nearHouse
  rw [h1, h2]

theorem Game.nearRestaurant_true (Distance : Vector3 → Vector3 → JSNumber) (g : Game)
    (h : g.nearRestaurant Distance = true) :
    ∃ player mesh r, g.player = some player ∧ player.mesh = some mesh ∧
      g.currentRestaurant = some r ∧
      (GameUtils.distance Distance mesh.position r.position).lt 15 = true := by
  unfold Game.nearRestaurant at h
  split at h
  · rename_i player r hp hr
    split at h
    · rename_i mesh hm
      exact ⟨player, mesh, r, hp, hm, hr, h⟩
    · cases h
  · cases h

theorem Game.nearHouse_true (Distance : Vector3 → Vector3 → JSNumber) (g : Game)
    (h : g.nearHouse Distance = true) :
    ∃ player mesh b, g.player = some player ∧ player.mesh = some mesh ∧
      g.currentHouse = some b ∧
      (GameUtils.distance Distance mesh.position b.position).lt 15 = true := by
  unfold Game.nearHouse at h
  split at h
  · rename_i player b hp hb
    split at h
    · rename_i mesh hm
      exact ⟨player, mesh, b, hp, hm, hb, h⟩
    · cases h
  · cases h

/-- In the city of `city.js` no position is within 15 units of both the
restaurant and a house: they are 90 units or more apart along the z axis. -/
theorem Game.not_near_both (Distance : Vector3 → Vector3 → JSNumber) (g : Game)
    (hDistance : ∀ a b, (Distance a b).lt 15 = true → |a.z - b.z| < 15)
    (hRestaurant : ∀ r, g.currentRestaurant = some r → r ∈ CityBuilder.restaurants)
    (hHouse : ∀ b, g.currentHouse = some b → b ∈ CityBuilder.houses) :
    ¬ (g.nearRestaurant Distance = true ∧ g.nearHouse Distance = true) := by
  rintro ⟨h1, h2⟩
  obtain ⟨player, mesh, r, hp, hm, hr, hnr⟩ := Game.nearRestaurant_true Distance g h1
  obtain ⟨player2, mesh2, b, hp2, hm2, hb, hnb⟩ := Game.nearHouse_true Distance g h2
  rw [hp] at hp2
  cases hp2
  rw [hm] at hm2
  cases hm2
  obtain ⟨v, rp, hv, hrp⟩ := near_position Distance _ _ 15 hnr
  obtain ⟨_, bp, _, hbp⟩ := near_position Distance _ _ 15 hnb
  rw [hv, hrp] at hnr
  rw [hv, hbp] at hnb
  have z1 := hDistance v rp hnr
  have z2 := hDistance v bp hnb
  rw [abs_lt] at z1 z2
  have hrz : rp.z = -60 := by
    have hmem := hRestaurant r hr
    simp only [CityBuilder.restaurants, List.mem_singleton] at hmem
    rw [hmem] at hrp
    cases hrp
    rfl
  have hbz : 30 ≤ bp.z := by
    have hmem := hHouse b hb
    simp only [CityBuilder.houses, List.mem_cons, List.mem_singleton, List.mem_nil_iff,
      or_false] at hmem
    rcases hmem with hmem | hmem | hmem | hmem | hmem <;>
      · rw [hmem] at hbp
        cases hbp
        norm_num
  linarith [z1.1, z1.2, z2.1, z2.2]

theorem Main.spaceKeydown_transitions (Distance : Vector3 → Vector3 → JSNumber) (g : Game)
    (hApart : ¬ (g.nearRestaurant Distance = true ∧ g.nearHouse Distance = true)) :
    (Main.spaceKeydown Distance g).2.deliveries ≤ g.deliveries + 1 ∧
      ((Main.spaceKeydown Distance g).1.hasPackage = g.hasPackage ∨
        (Main.spaceKeydown Distance g).2.hasPackage =
          (Main.spaceKeydown Distance g).1.hasPackage) ∧
      (g.hasPackage = false → (Main.spaceKeydown Distance g).2.deliveries = g.deliveries) ∧
      ((Main.spaceKeydown Distance g).2.deliveries = g.deliveries + 1 →
        (Main.spaceKeydown Distance g).2.hasPackage = false) := by
  obtain ⟨⟨p1, r1, c1, _, t1⟩, ⟨_, _, _, _, t2⟩⟩ := Main.spaceKeydown_oneCall Distance g
  generalize (Main.spaceKeydown Distance g).1 = g1 at *
  generalize (Main.spaceKeydown Distance g).2 = g2 at *
  have nr := Game.nearRestaurant_congr Distance g g1 p1 r1
  have nh := Game.nearHouse_congr Distance g g1 p1 c1
  rcases t1 with ⟨a1, a2⟩ | ⟨a1, a2, a3, a4⟩ | ⟨a1, a2, a3, a4⟩ <;>
    rcases t2 with ⟨b1, b2⟩ | ⟨b1, b2, b3, b4⟩ | ⟨b1, b2, b3, b4⟩
  · exact ⟨by omega, Or.inl a1, fun _ => by omega, fun h => by omega⟩
  · exact ⟨by omega, Or.inl a1, fun _ => by omega, fun h => by omega⟩
  · refine ⟨by omega, Or.inl a1, fun h => ?_, fun _ => b2⟩
    rw [a1, h] at b1
    cases b1
  · exact ⟨by omega, Or.inr b1, fun _ => by omega, fun h => by omega⟩
  · rw [a2] at b1
    cases b1
  · exact absurd ⟨a4, by rw [← nh]; exact b4⟩ hApart
  · refine ⟨by omega, Or.inr b1, fun h => ?_, fun _ => b1.trans a2⟩
    rw [a1] at h
    cases h
  · exact absurd ⟨by rw [← nr]; exact b4, a4⟩ hApart
  · rw [a2] at b1
    cases b1

theorem axisDistance_z (a b : Vector3) (h : (axisDistance a b).lt 15 = true) :
    |a.z - b.z| < 15 := by
  unfold axisDistance at h
  rw [JSNumber.lt_finite] at h
  have h1 := of_decide_eq_true h
  have hx := abs_nonneg (a.x - b.x)
  have hy := abs_nonneg (a.y - b.y)
  linarith

/-! ### Bounds on the score and the deliveries -/

theorem Game.bounded_of_same (g g1 : Game) (h1 : g1.deliveryGoal = g.deliveryGoal)
    (h2 : g1.deliveries = g.deliveries) (h3 : g1.level = g.level) (h4 : g1.score = g.score)
    (h5 : g.isGameOver = true → g1.isGameOver = true) (hb : g.Bounded) : g1.Bounded := by
  obtain ⟨b1, b2, b3, b4, b5⟩ := hb
  refine ⟨h1.trans b1, ?_, ?_, ?_, ?_⟩
  · rw [h2]
    exact b2
  · rw [h2, h3]
    exact b3
  · rw [h2, h4]
    exact b4
  · intro h
    rw [h2] at h
    exact h5 (b5 h)

theorem Game.completeDelivery_bounded (g : Game) (pkg : Package) (housePos : Vector3)
    (hb : g.Bounded) (hO : g.isGameOver = false) : (g.completeDelivery pkg housePos).Bounded := by
  obtain ⟨b1, b2, b3, b4, b5⟩ := hb
  have hd : g.deliveries ≤ 4 := by
    by_contra hc
    have h5 : g.isGameOver = true := b5 (by omega)
    rw [hO] at h5
    cases h5
  refine ⟨(Game.completeDelivery_frame g pkg housePos).1.trans b1, ?_, ?_, ?_, ?_⟩
  · rw [Game.completeDelivery_deliveries]
    omega
  · rw [Game.completeDelivery_level, Game.completeDelivery_deliveries, b3]
    split_ifs <;> omega
  · rw [Game.completeDelivery_score, Game.completeDelivery_deliveries]
    have hbonus := Game.timeBonus_le g
    show _ ≤ Game.scoreBound g.deliveries + 150 * (1 + g.deliveries / 3)
    rw [← b3]
    omega
  · intro h
    rw [Game.completeDelivery_deliveries] at h
    exact (Game.completeDelivery_win g pkg housePos (by omega)).1

theorem Game.handleSpacePress_bounded (Distance : Vector3 → Vector3 → JSNumber) (g g1 : Game)
    (h : g.handleSpacePress Distance = .ok g1) (hb : g.Bounded) : g1.Bounded := by
  unfold Game.handleSpacePress at h
  split_ifs at h with hgate hHas
  · cases h
    exact hb
  · have hO : g.isGameOver = false := by
      cases ho : g.isGameOver with
      | false => rfl
      | true =>
        rw [ho] at hgate
        simp at hgate
    cases hd : g.deliverPackage Distance with
    | error e =>
      rw [hd] at h
      cases h
    | ok r =>
      rw [hd] at h
      cases h
      rcases Game.deliverPackage_cases Distance g r.1 r.2 hd with
        ⟨_, _, pkg, housePos, hr⟩ | ⟨_, hr⟩ | ⟨_, hr⟩
      · show r.1.Bounded
        rw [hr]
        exact Game.completeDelivery_bounded g pkg housePos hb hO
      · show r.1.Bounded
        rw [hr]
        exact Game.bounded_of_same g _ rfl rfl rfl rfl (fun h => h) hb
      · show r.1.Bounded
        rw [hr]
        exact hb
  · cases hd : g.pickupPackage Distance with
    | error e =>
      rw [hd] at h
      cases h
    | ok r =>
      rw [hd] at h
      cases h
      rcases Game.pickupPackage_cases Distance g r.1 r.2 hd with
        ⟨_, _, pkg, _, hr⟩ | ⟨_, hr⟩ | ⟨_, hr⟩
      · show r.1.Bounded
        rw [hr]
        exact Game.bounded_of_same g _ rfl rfl rfl rfl (fun h => h) hb
      · show r.1.Bounded
        rw [hr]
        exact Game.bounded_of_same g _ rfl rfl rfl rfl (fun h => h) hb
      · show r.1.Bounded
        rw [hr]
        exact hb

theorem Game.tick_bounded (g : Game) (hb : g.Bounded) : g.tick.Bounded := by
  obtain ⟨t1, t2, t3, _, _, _, t7⟩ := Game.tick_frame g
  refine Game.bounded_of_same g _ t7 t3 t1 t2 ?_ hb
  intro h
  rw [Game.tick_of_over g h]
  exact h

theorem Game.update_bounded (g : Game) (moved : Option Vector3) (handle : ℕ+)
    (hb : g.Bounded) : (g.update moved handle).Bounded := by
  unfold Game.update
  split_ifs
  · exact hb
  · cases g with
    | mk player score deliveries level time timerInterval =>
      cases player <;> cases timerInterval <;>
        exact Game.bounded_of_same _ _ rfl rfl rfl rfl (fun h => h) hb

theorem Game.moveTo_bounded (g : Game) (pos : Vector3) (hb : g.Bounded) :
    (g.moveTo pos).Bounded := by
  unfold Game.moveTo
  cases g with
  | mk player =>
    cases player <;> exact Game.bounded_of_same _ _ rfl rfl rfl rfl (fun h => h) hb

theorem Game.fireTimeout_bounded (rand : Nat → Draw) (fuel i : Nat) (g g1 : Game)
    (h : g.fireTimeout rand fuel i = some g1) (hb : g.Bounded) : g1.Bounded := by
  unfold Game.fireTimeout at h
  split at h
  · cases h
    exact hb
  · rename_i t _
    have hb1 : Game.Bounded { g with timeouts := g.timeouts.eraseIdx i } :=
      Game.bounded_of_same g _ rfl rfl rfl rfl (fun h => h) hb
    generalize ({ g with timeouts := g.timeouts.eraseIdx i } : Game) = g2 at h hb1
    cases hc : t.callback with
    | disposePackage =>
      rw [hc] at h
      simp only [Game.runCallback, Option.some.injEq] at h
      rw [← h]
      unfold Game.disposePackageCallback
      cases g2 with
      | mk player score deliveries level time timerInterval isPaused isGameOver timeLimit
          deliveryGoal timeRemaining gameWon currentPackage =>
        cases currentPackage <;> exact Game.bounded_of_same _ _ rfl rfl rfl rfl (fun h => h) hb1
    | createNewOrder =>
      rw [hc] at h
      simp only [Game.runCallback] at h
      obtain ⟨f1, f2, f3, _, _, _, _, f8, _⟩ := Game.createNewOrder_facts rand fuel g2 g1 h
      obtain ⟨s1, _⟩ := Game.createNewOrder_sameProgress rand fuel g2 g1 h
      exact Game.bounded_of_same g2 g1 s1 f2 f3 f1 (fun h => f8.trans h) hb1
    | showDestination =>
      rw [hc] at h
      simp only [Game.runCallback, Option.some.injEq] at h
      rw [← h]
      exact Game.bounded_of_same _ _ rfl rfl rfl rfl (fun h => h) hb1

theorem Game.input_bounded (Distance : Vector3 → Vector3 → JSNumber) (g g1 : Game)
    (i : Input) (h : g.input Distance i = some g1) (hb : g.Bounded) : g1.Bounded := by
  cases i with
  | move pos =>
    simp only [Game.input, Option.some.injEq] at h
    rw [← h]
    exact Game.moveTo_bounded g pos hb
  | frame moved handle =>
    simp only [Game.input, Option.some.injEq] at h
    rw [← h]
    exact Game.update_bounded g moved handle hb
  | spacePress =>
    simp only [Game.input] at h
    cases hs : g.handleSpacePress Distance with
    | error e =>
      rw [hs] at h
      cases h
      exact hb
    | ok g2 =>
      rw [hs] at h
      cases h
      exact Game.handleSpacePress_bounded Distance g _ hs hb
  | tick =>
    simp only [Game.input, Option.some.injEq] at h
    rw [← h]
    exact Game.tick_bounded g hb
  | togglePause =>
    simp only [Game.input, Option.some.injEq] at h
    rw [← h]
    exact Game.bounded_of_same g _ rfl rfl rfl rfl (fun h => h) hb
  | timeout i rand fuel =>
    simp only [Game.input] at h
    exact Game.fireTimeout_bounded rand fuel i g g1 h hb

theorem Game.play_bounded (Distance : Vector3 → Vector3 → JSNumber) (is : List Input)
    (g s : Game) (h : g.play Distance is = some s) (hb : g.Bounded) : s.Bounded := by
  induction is generalizing g with
  | nil =>
    cases h
    exact hb
  | cons i is ih =>
    unfold Game.play at h
    split at h
    · cases h
    · rename_i g1 hstep
      exact ih g1 h (Game.input_bounded Distance g g1 i hstep hb)

theorem Game.scoreBound_le (d : Nat) (h : d ≤ 5) : Game.scoreBound d ≤ 1050 := by
  interval_cases d <;> decide

theorem sampleInputs_play :
    sampleResetGame.play axisDistance sampleInputs = some samplePlayedGame := by
  simp [sampleInputs, samplePlayedGame, sampleMissionGame, sampleResetGame, Game.play,
    Game.input, Game.moveTo, Game.handleSpacePress, Except.map, Player.update, playerAt,
    Game.pickupPackage, Game.takePackage,
    Game.deliverPackage, Game.completeDelivery, Game.timeBonus, Game.gameOver,
    GameUtils.distance, axisDistance, JSNumber.lt, sampleRestaurant, sampleHouse,
    sampleHouse2, CityBuilder.createPackage, GameUtils.showNotification, setTimeout, Game.new]

/-! ### A won game started again -/

theorem wonGame_start : wonGame.start sampleRand 2 = some restartedWonGame := by
  simp [Game.start, Game.clearTimer, Game.createNewOrder, Game.restaurantLoop,
    Game.houseLoop, Game.getRandomRestaurant, Game.getRandomHouse, Game.createPackage,
    wonGame, restartedWonGame, sampleGame, sampleResetGame, sampleRand, Draw.index, sameObject,
    sampleHouse, sampleHouse2, sampleRestaurant, playerAt, Player.resetPosition,
    CityBuilder.createPackage, GameUtils.showNotification, setTimeout, Game.new]

theorem restartedWonGame_run :
    restartedWonGame.run axisDistance [Event.update none 1, Event.togglePause]
      = some pausedWonGame := by
  simp [restartedWonGame, pausedWonGame, sampleResetGame, Game.run, Game.step, Game.update,
    Game.startTimer, Player.update, playerAt, Game.togglePause, Game.new]

theorem pausedWonGame_run :
    pausedWonGame.run axisDistance [Event.togglePause, Event.tick] = some resumedWonGame := by
  simp [restartedWonGame, pausedWonGame, resumedWonGame, sampleResetGame, Game.run, Game.step,
    Game.timerFires, Game.tick, Game.togglePause, Game.new]

/-! ### A finished game in the city of `city.js` -/

theorem Game.withinReach_congr (Distance : Vector3 → Vector3 → JSNumber) (g g1 : Game)
    (buildings : List Building) (h : g1.player = g.player) :
    g1.withinReach Distance buildings = g.withinReach Distance buildings := by
  unfold Game.withinReach
  rw [h]

theorem Game.withinReach_true (Distance : Vector3 → Vector3 → JSNumber) (g : Game)
    (buildings : List Building) (h : g.withinReach Distance buildings = true) :
    ∃ player mesh v b bp, g.player = some player ∧ player.mesh = some mesh ∧
      mesh.position = some v ∧ b ∈ buildings ∧ b.position = some bp ∧
      (Distance v bp).lt 15 = true := by
  unfold Game.withinReach at h
  split at h
  · rename_i player hp
    split at h
    · rename_i mesh hm
      rw [List.any_eq_true] at h
      obtain ⟨b, hb, hnear⟩ := h
      obtain ⟨v, bp, hv, hbp⟩ := near_position Distance _ _ 15 hnear
      rw [hv, hbp] at hnear
      exact ⟨player, mesh, v, b, bp, hp, hm, hv, hb, hbp, hnear⟩
    · cases h
  · cases h

theorem Game.nearRestaurant_withinReach (Distance : Vector3 → Vector3 → JSNumber) (g : Game)
    (hC : g.InCity) (h : g.nearRestaurant Distance = true) :
    g.withinReach Distance CityBuilder.restaurants = true := by
  obtain ⟨player, mesh, r, hp, hm, hr, hnear⟩ := Game.nearRestaurant_true Distance g h
  unfold Game.withinReach
  simp only [hp, hm]
  rw [List.any_eq_true]
  exact ⟨r, hC.1 r hr, hnear⟩

theorem Game.nearHouse_withinReach (Distance : Vector3 → Vector3 → JSNumber) (g : Game)
    (hC : g.InCity) (h : g.nearHouse Distance = true) :
    g.withinReach Distance CityBuilder.houses = true := by
  obtain ⟨player, mesh, b, hp, hm, hb, hnear⟩ := Game.nearHouse_true Distance g h
  unfold Game.withinReach
  simp only [hp, hm]
  rw [List.any_eq_true]
  exact ⟨b, hC.2.1 b hb, hnear⟩

/-- Within 15 units of the restaurant of `city.js` the car is south of
`z = -45`. -/
theorem Game.withinReach_restaurants (Distance : Vector3 → Vector3 → JSNumber) (g : Game)
    (hDistance : ∀ a b, (Distance a b).lt 15 = true → |a.z - b.z| < 15)
    (h : g.withinReach Distance CityBuilder.restaurants = true) :
    ∃ player mesh v, g.player = some player ∧ player.mesh = some mesh ∧
      mesh.position = some v ∧ v.z < -45 := by
  obtain ⟨player, mesh, v, b, bp, hp, hm, hv, hb, hbp, hnear⟩ :=
    Game.withinReach_true Distance g _ h
  refine ⟨player, mesh, v, hp, hm, hv, ?_⟩
  have z := hDistance v bp hnear
  rw [abs_lt] at z
  simp only [CityBuilder.restaurants, List.mem_singleton] at hb
  rw [hb] at hbp
  cases hbp
  dsimp only at z
  linarith [z.1, z.2]

/-- Within 15 units of a house of `city.js` the car is north of `z = 15`. -/
theorem Game.withinReach_houses (Distance : Vector3 → Vector3 → JSNumber) (g : Game)
    (hDistance : ∀ a b, (Distance a b).lt 15 = true → |a.z - b.z| < 15)
    (h : g.withinReach Distance CityBuilder.houses = true) :
    ∃ player mesh v, g.player = some player ∧ player.mesh = some mesh ∧
      mesh.position = some v ∧ 15 < v.z := by
  obtain ⟨player, mesh, v, b, bp, hp, hm, hv, hb, hbp, hnear⟩ :=
    Game.withinReach_true Distance g _ h
  refine ⟨player, mesh, v, hp, hm, hv, ?_⟩
  have z := hDistance v bp hnear
  rw [abs_lt] at z
  have hbz : 30 ≤ bp.z := by
    simp only [CityBuilder.houses, List.mem_cons, List.mem_singleton, List.mem_nil_iff,
      or_false] at hb
    rcases hb with hb | hb | hb | hb | hb <;>
      · rw [hb] at hbp
        cases hbp
        norm_num
  linarith [z.1, z.2]

theorem Game.withinReach_not_both (Distance : Vector3 → Vector3 → JSNumber) (g : Game)
    (hDistance : ∀ a b, (Distance a b).lt 15 = true → |a.z - b.z| < 15)
    (h1 : g.withinReach Distance CityBuilder.restaurants = true)
    (h2 : g.withinReach Distance CityBuilder.houses = true) : False := by
  obtain ⟨player, mesh, v, hp, hm, hv, hz⟩ := Game.withinReach_restaurants Distance g hDistance h1
  obtain ⟨player2, mesh2, v2, hp2, hm2, hv2, hz2⟩ :=
    Game.withinReach_houses Distance g hDistance h2
  rw [hp] at hp2
  cases hp2
  rw [hm] at hm2
  cases hm2
  rw [hv] at hv2
  cases hv2
  linarith

/-- The starting position of the car is out of reach of every house. -/
theorem Game.withinReach_houses_reset (Distance : Vector3 → Vector3 → JSNumber) (g g1 : Game)
    (hDistance : ∀ a b, (Distance a b).lt 15 = true → |a.z - b.z| < 15)
    (h : g1.player = g.player.map Player.resetPosition) :
    g1.withinReach Distance CityBuilder.houses = false := by
  cases hw : g1.withinReach Distance CityBuilder.houses with
  | false => rfl
  | true =>
    exfalso
    obtain ⟨player, mesh, v, hp, hm, hv, hz⟩ :=
      Game.withinReach_houses Distance g1 hDistance hw
    rw [h] at hp
    cases hg : g.player with
    | none =>
      rw [hg] at hp
      cases hp
    | some p =>
      rw [hg] at hp
      simp only [Option.map_some', Option.some.injEq] at hp
      unfold Player.resetPosition at hp
      cases hpm : p.mesh with
      | none =>
        rw [hpm] at hp
        rw [← hp, hpm] at hm
        cases hm
      | some m =>
        rw [hpm] at hp
        rw [← hp] at hm
        cases hm
        cases hv
        norm_num at hz

theorem Game.InCity.of_sameCity (g g1 : Game) (h : g.SameCity g1) (hC : g.InCity) :
    g1.InCity := by
  obtain ⟨c1, c2, c3, c4⟩ := hC
  obtain ⟨s1, s2, s3, s4⟩ := h
  refine ⟨?_, ?_, ?_, ?_⟩
  · intro r hr
    rcases s3 with s3 | s3
    · exact c1 r (s3 ▸ hr)
    · rw [s3] at hr
      exact c3 r (List.mem_of_mem_head? hr)
  · intro b hb
    rcases s4 with s4 | ⟨d, s4⟩
    · exact c2 b (s4 ▸ hb)
    · rw [s4] at hb
      unfold Game.getRandomHouse at hb
      split_ifs at hb
      exact c4 b (List.getElem?_mem hb)
  · intro r hr
    rw [s1] at hr
    exact c3 r hr
  · intro b hb
    rw [s2] at hb
    exact c4 b hb

theorem Game.sameCity_refl (g : Game) : g.SameCity g :=
  ⟨Eq.refl _, Eq.refl _, Or.inl (Eq.refl _), Or.inl (Eq.refl _)⟩

theorem Game.completeDelivery_city (g : Game) (pkg : Package) (housePos : Vector3) :
    (g.completeDelivery pkg housePos).restaurants = g.restaurants ∧
      (g.completeDelivery pkg housePos).houses = g.houses := by
  simp only [Game.completeDelivery, Game.gameOver, Game.clearTimer_eq,
    GameUtils.showNotification, setTimeout]
  split_ifs <;> simp

theorem Game.completeDelivery_over (g : Game) (pkg : Package) (housePos : Vector3)
    (h : g.isGameOver = true) : (g.completeDelivery pkg housePos).isGameOver = true := by
  by_cases hlt : g.deliveries + 1 < g.deliveryGoal
  · rw [(Game.completeDelivery_continue g pkg housePos hlt).1]
    exact h
  · exact (Game.completeDelivery_win g pkg housePos (by omega)).1

theorem Game.tick_city (g : Game) :
    g.tick.player = g.player ∧ g.tick.currentRestaurant = g.currentRestaurant ∧
      g.tick.currentHouse = g.currentHouse ∧ g.tick.restaurants = g.restaurants ∧
      g.tick.houses = g.houses := by
  by_cases hrun : g.isPaused = false ∧ g.isGameOver = false ∧ g.gameWon = false
  · obtain ⟨hP, hO, hW⟩ := hrun
    refine Game.tick_running_elim g hP hO hW
      (fun t => t.player = g.player ∧ t.currentRestaurant = g.currentRestaurant ∧
        t.currentHouse = g.currentHouse ∧ t.restaurants = g.restaurants ∧
        t.houses = g.houses) ?_ ?_
    · intro g2 hg2 _ g3 hg3
      have hover : ∀ w, (g2.gameOver w).player = g.player ∧
          (g2.gameOver w).currentRestaurant = g.currentRestaurant ∧
          (g2.gameOver w).currentHouse = g.currentHouse ∧
          (g2.gameOver w).restaurants = g.restaurants ∧
          (g2.gameOver w).houses = g.houses := by
        intro w
        rw [hg2]
        simp only [Game.gameOver, Game.clearTimer_eq, GameUtils.showNotification]
        split_ifs <;> simp
      rcases hg3 with rfl | ⟨n, s, rfl⟩
      · exact hover false
      · exact hover false
    · intro g2 hg2 _ g3 hg3
      rcases hg3 with rfl | ⟨n, s, rfl⟩
      · rw [hg2]
        exact ⟨rfl, rfl, rfl, rfl, rfl⟩
      · rw [hg2]
        exact ⟨rfl, rfl, rfl, rfl, rfl⟩
  · have htick : g.tick = g := by
      cases hP : g.isPaused with
      | true => exact Game.tick_of_paused g hP
      | false =>
        cases hO : g.isGameOver with
        | true => exact Game.tick_of_over g hO
        | false =>
          cases hW : g.gameWon with
          | true => exact Game.tick_of_won g hW
          | false => exact absurd ⟨hP, hO, hW⟩ hrun
    rw [htick]
    exact ⟨rfl, rfl, rfl, rfl, rfl⟩

theorem Game.update_city (g : Game) (moved : Option Vector3) (handle : ℕ+) :
    g.SameCity (g.update moved handle) := by
  unfold Game.update
  split_ifs
  · exact Game.sameCity_refl g
  · cases g with
    | mk player score deliveries level time timerInterval =>
      cases player <;> cases timerInterval <;> exact Game.sameCity_refl _

theorem Game.fireTimeout_city (rand : Nat → Draw) (fuel i : Nat) (g g1 : Game)
    (h : g.fireTimeout rand fuel i = some g1) :
    g.SameCity g1 ∧ g1.player = g.player ∧
      (g1.hasPackage = g.hasPackage ∨ g1.hasPackage = false) := by
  unfold Game.fireTimeout at h
  split at h
  · cases h
    exact ⟨Game.sameCity_refl g, rfl, Or.inl rfl⟩
  · rename_i t _
    cases hc : t.callback with
    | disposePackage =>
      rw [hc] at h
      simp only [Game.runCallback, Option.some.injEq] at h
      rw [← h]
      unfold Game.disposePackageCallback
      cases g with
      | mk player score deliveries level time timerInterval isPaused isGameOver timeLimit
          deliveryGoal timeRemaining gameWon currentPackage =>
        cases currentPackage <;>
          exact ⟨Game.sameCity_refl _, rfl, Or.inl rfl⟩
    | createNewOrder =>
      rw [hc] at h
      simp only [Game.runCallback] at h
      obtain ⟨o1, o2, o3, j, o4, _⟩ := Game.createNewOrder_order rand fuel _ g1 h
      obtain ⟨k, hk⟩ := Game.createNewOrder_some rand fuel _ g1 h
      refine ⟨⟨o2, o3, Or.inr (o1.trans (Game.getRandomRestaurant_eq_head _)),
        Or.inr ⟨rand j, o4⟩⟩, ?_, ?_⟩
      · rw [hk, Game.createPackage_frame]
        rfl
      · rw [hk]
        show (Game.createPackage _).hasPackage = g.hasPackage ∨
          (Game.createPackage _).hasPackage = false
        generalize hX : ({ ({ g with timeouts := g.timeouts.eraseIdx i } : Game) with
          currentRestaurant := Game.getRandomRestaurant
            { g with timeouts := g.timeouts.eraseIdx i },
          currentHouse := Game.getRandomHouse
            { g with timeouts := g.timeouts.eraseIdx i } (rand k) } : Game) = X
        have hXh : X.hasPackage = g.hasPackage := by
          rw [← hX]
        cases hh : g.hasPackage with
        | false =>
          right
          exact Game.createPackage_hasPackage X (hXh.trans hh)
        | true =>
          unfold Game.createPackage
          cases X with
          | mk player score deliveries level time timerInterval isPaused isGameOver timeLimit
              deliveryGoal timeRemaining gameWon currentPackage currentRestaurant =>
            rcases currentPackage with _ | p <;> rcases currentRestaurant with _ | r
            · left
              exact hXh.trans hh
            · rcases hr : r.position with _ | pos
              · left
                simp only [hr]
                exact hXh.trans hh
              · right
                simp only [hr]
            · left
              exact hXh.trans hh
            · rcases hr : r.position with _ | pos
              · left
                simp only [hr]
                exact hXh.trans hh
              · right
                simp only [hr]
    | showDestination =>
      rw [hc] at h
      simp only [Game.runCallback, Option.some.injEq] at h
      rw [← h]
      exact ⟨Game.sameCity_refl _, rfl, Or.inl rfl⟩

theorem Game.pickupPackage_city (Distance : Vector3 → Vector3 → JSNumber) (g g' : Game)
    (b : Bool) (h : g.pickupPackage Distance = .ok (g', b)) :
    g.SameCity g' ∧ (g.isGameOver = true → g'.isGameOver = true) := by
  rcases Game.pickupPackage_cases Distance g g' b h with
    ⟨_, _, pkg, _, rfl⟩ | ⟨_, rfl⟩ | ⟨_, rfl⟩
  · exact ⟨Game.sameCity_refl _, fun h => h⟩
  · exact ⟨Game.sameCity_refl _, fun h => h⟩
  · exact ⟨Game.sameCity_refl _, fun h => h⟩

theorem Game.deliverPackage_city (Distance : Vector3 → Vector3 → JSNumber) (g g' : Game)
    (b : Bool) (h : g.deliverPackage Distance = .ok (g', b)) :
    g.SameCity g' ∧ (g.isGameOver = true → g'.isGameOver = true) := by
  rcases Game.deliverPackage_cases Distance g g' b h with
    ⟨_, _, pkg, housePos, rfl⟩ | ⟨_, rfl⟩ | ⟨_, rfl⟩
  · obtain ⟨_, o2, o3, _⟩ := Game.completeDelivery_order g pkg housePos
    obtain ⟨c1, c2⟩ := Game.completeDelivery_city g pkg housePos
    exact ⟨⟨c1, c2, Or.inl o2, Or.inl o3⟩, Game.completeDelivery_over g pkg housePos⟩
  · exact ⟨Game.sameCity_refl _, fun h => h⟩
  · exact ⟨Game.sameCity_refl _, fun h => h⟩

/-- Every event leaves the lists of buildings as they are and gives an order
made of them. -/
theorem Game.step_sameCity (Distance : Vector3 → Vector3 → JSNumber) (g g1 : Game)
    (e : Event) (hstep : g.step Distance e = some g1) : g.SameCity g1 := by
  cases e with
  | update moved handle =>
    cases hstep
    exact Game.update_city g moved handle
  | tick =>
    cases hstep
    unfold Game.timerFires
    split
    · obtain ⟨_, t2, t3, t4, t5⟩ := Game.tick_city g
      exact ⟨t4, t5, Or.inl t2, Or.inl t3⟩
    · exact Game.sameCity_refl g
  | pickup =>
    simp only [Game.step] at hstep
    split at hstep
    · rename_i g2 b hp
      cases hstep
      exact (Game.pickupPackage_city Distance g _ b hp).1
    · cases hstep
      exact Game.sameCity_refl _
  | deliver =>
    simp only [Game.step] at hstep
    split at hstep
    · rename_i g2 b hp
      cases hstep
      exact (Game.deliverPackage_city Distance g _ b hp).1
    · cases hstep
      exact Game.sameCity_refl _
  | togglePause =>
    cases hstep
    exact Game.sameCity_refl _
  | keyR =>
    simp only [Game.step] at hstep
    rw [Game.handleKeyPress_r Distance g "r" (Or.inl rfl)] at hstep
    cases hstep
    exact Game.sameCity_refl _
  | timeout i rand fuel =>
    exact (Game.fireTimeout_city rand fuel i g g1 hstep).1

theorem Game.run_inCity (Distance : Vector3 → Vector3 → JSNumber) (es : List Event)
    (g s : Game) (hrun : g.run Distance es = some s) (hC : g.InCity) : s.InCity := by
  induction es generalizing g with
  | nil =>
    cases hrun
    exact hC
  | cons e es ih =>
    unfold Game.run at hrun
    split at hrun
    · cases hrun
    · rename_i g1 hstep
      exact ih g1 hrun (Game.InCity.of_sameCity g g1 (Game.step_sameCity Distance g g1 e hstep) hC)

theorem Game.reset_inCity (rand : Nat → Draw) (fuel : Nat) (g g0 : Game)
    (hreset : g.reset rand fuel = some g0)
    (hR : ∀ r ∈ g.restaurants, r ∈ CityBuilder.restaurants)
    (hH : ∀ b ∈ g.houses, b ∈ CityBuilder.houses) : g0.InCity := by
  rw [Game.reset_eq] at hreset
  obtain ⟨o1, o2, o3, j, o4, _⟩ := Game.createNewOrder_order rand fuel _ g0 hreset
  have hs : Game.SameCity { g with currentRestaurant := none, currentHouse := none } g0 :=
    ⟨o2, o3, Or.inr (o1.trans (Game.getRandomRestaurant_eq_head _)), Or.inr ⟨rand j, o4⟩⟩
  refine Game.InCity.of_sameCity _ g0 hs ⟨?_, ?_, hR, hH⟩
  · intro r hr
    cases hr
  · intro b hb
    cases hb

/-- What an event does to a finished game: the game stays finished; the car
stays where it is or goes back to its starting position; the package is
picked up only within reach of the restaurant and delivered only within reach
of the house. -/
theorem Game.step_over (Distance : Vector3 → Vector3 → JSNumber) (g g1 : Game) (e : Event)
    (hO : g.isGameOver = true) (hstep : g.step Distance e = some g1) :
    g1.isGameOver = true ∧
      ((g1.player = g.player ∧ (g1.hasPackage = g.hasPackage ∨ g1.hasPackage = false) ∧
          g.delivers Distance e = false) ∨
        (g1.player = g.player.map Player.resetPosition ∧ g1.hasPackage = g.hasPackage ∧
          g.delivers Distance e = false) ∨
        (g1.player = g.player ∧ g.nearRestaurant Distance = true ∧
          g.delivers Distance e = false) ∨
        (g1.player = g.player ∧ g.nearHouse Distance = true ∧ g.hasPackage = true ∧
          g1.hasPackage = false)) := by
  cases e with
  | update moved handle =>
    cases hstep
    rw [Game.update_of_over g moved handle hO]
    exact ⟨hO, Or.inl ⟨rfl, Or.inl rfl, rfl⟩⟩
  | tick =>
    cases hstep
    have ht : g.timerFires = g := by
      unfold Game.timerFires
      split
      · exact Game.tick_of_over g hO
      · rfl
    rw [ht]
    exact ⟨hO, Or.inl ⟨rfl, Or.inl rfl, rfl⟩⟩
  | pickup =>
    simp only [Game.step] at hstep
    split at hstep
    · rename_i g2 b hp
      cases hstep
      obtain ⟨p1, _, _, _, t⟩ := Game.pickupPackage_oneCall Distance g _ b hp
      refine ⟨(Game.pickupPackage_city Distance g _ b hp).2 hO, ?_⟩
      rcases t with ⟨a1, _⟩ | ⟨_, _, _, a4⟩ | ⟨_, a2, a3, _⟩
      · exact Or.inl ⟨p1, Or.inl a1, rfl⟩
      · exact Or.inr (Or.inr (Or.inl ⟨p1, a4, rfl⟩))
      · rcases Game.pickupPackage_cases Distance g _ b hp with
          ⟨_, _, pkg, _, hr⟩ | ⟨_, hr⟩ | ⟨_, hr⟩
        · rw [hr] at a3
          exact absurd a3 (Nat.ne_of_lt (Nat.lt_succ_self _))
        · rw [hr] at a3
          exact absurd a3 (Nat.ne_of_lt (Nat.lt_succ_self _))
        · rw [hr] at a3
          exact absurd a3 (Nat.ne_of_lt (Nat.lt_succ_self _))
    · cases hstep
      exact ⟨hO, Or.inl ⟨rfl, Or.inl rfl, rfl⟩⟩
  | deliver =>
    simp only [Game.step] at hstep
    split at hstep
    · rename_i g2 b hp
      cases hstep
      obtain ⟨p1, _, _, _, t⟩ := Game.deliverPackage_oneCall Distance g _ b hp
      refine ⟨(Game.deliverPackage_city Distance g _ b hp).2 hO, ?_⟩
      rcases t with ⟨a1, a2⟩ | ⟨a1, a2, _, _⟩ | ⟨a1, a2, _, a4⟩
      · refine Or.inl ⟨p1, Or.inl a1, ?_⟩
        unfold Game.delivers
        rw [hp]
        rcases Game.deliverPackage_cases Distance g _ b hp with
          ⟨_, _, pkg, housePos, hr⟩ | ⟨hb, _⟩ | ⟨hb, _⟩
        · rw [hr, Game.completeDelivery_deliveries] at a2
          exact absurd a2 (Nat.succ_ne_self _)
        · exact hb
        · exact hb
      · rcases Game.deliverPackage_cases Distance g _ b hp with
          ⟨_, hh, _⟩ | ⟨_, hr⟩ | ⟨_, hr⟩
        · rw [hh] at a1
          cases a1
        · rw [hr] at a2
          have h2 : g.hasPackage = true := a2
          rw [a1] at h2
          cases h2
        · rw [hr, a1] at a2
          cases a2
      · exact Or.inr (Or.inr (Or.inr ⟨p1, a4, a1, a2⟩))
    · rename_i err hp
      cases hstep
      refine ⟨hO, Or.inl ⟨rfl, Or.inl rfl, ?_⟩⟩
      unfold Game.delivers
      rw [hp]
  | togglePause =>
    cases hstep
    exact ⟨hO, Or.inl ⟨rfl, Or.inl rfl, rfl⟩⟩
  | keyR =>
    simp only [Game.step] at hstep
    rw [Game.handleKeyPress_r Distance g "r" (Or.inl rfl)] at hstep
    cases hstep
    exact ⟨hO, Or.inr (Or.inl ⟨rfl, rfl, rfl⟩)⟩
  | timeout i rand fuel =>
    obtain ⟨_, c2, c3⟩ := Game.fireTimeout_city rand fuel i g g1 hstep
    obtain ⟨_, _, _, _, s5, _⟩ := Game.fireTimeout_sameProgress rand fuel i g g1 hstep
    exact ⟨s5.trans hO, Or.inl ⟨c2, c3, rfl⟩⟩

/-- No event delivers anything in a stuck game, and the game stays stuck. -/
theorem Game.stuck_step (Distance : Vector3 → Vector3 → JSNumber) (g g1 : Game) (e : Event)
    (hDistance : ∀ a b, (Distance a b).lt 15 = true → |a.z - b.z| < 15)
    (hS : g.Stuck Distance) (hstep : g.step Distance e = some g1) :
    g1.Stuck Distance ∧ g.delivers Distance e = false := by
  obtain ⟨hO, hC, hS⟩ := hS
  obtain ⟨hO1, t⟩ := Game.step_over Distance g g1 e hO hstep
  have hC1 : g1.InCity :=
    Game.InCity.of_sameCity g g1 (Game.step_sameCity Distance g g1 e hstep) hC
  rcases t with ⟨p, hh, hd⟩ | ⟨p, _, hd⟩ | ⟨p, hn, hd⟩ | ⟨_, hn, hh, _⟩
  · refine ⟨⟨hO1, hC1, ?_⟩, hd⟩
    rw [Game.withinReach_congr Distance g g1 _ p, Game.withinReach_congr Distance g g1 _ p]
    rcases hS with hS | ⟨hS1, hS2⟩
    · exact Or.inl hS
    · refine Or.inr ⟨?_, hS2⟩
      rcases hh with hh | hh
      · exact hh.trans hS1
      · exact hh
  · exact ⟨⟨hO1, hC1, Or.inl (Game.withinReach_houses_reset Distance g g1 hDistance p)⟩, hd⟩
  · refine ⟨⟨hO1, hC1, ?_⟩, hd⟩
    rw [Game.withinReach_congr Distance g g1 _ p]
    rcases hS with hS | ⟨_, hS2⟩
    · exact Or.inl hS
    · rw [Game.nearRestaurant_withinReach Distance g hC hn] at hS2
      cases hS2
  · exfalso
    rcases hS with hS | ⟨hS1, _⟩
    · rw [Game.nearHouse_withinReach Distance g hC hn] at hS
      cases hS
    · rw [hh] at hS1
      cases hS1

theorem Game.stuck_run (Distance : Vector3 → Vector3 → JSNumber) (es : List Event) (g : Game)
    (hDistance : ∀ a b, (Distance a b).lt 15 = true → |a.z - b.z| < 15)
    (hS : g.Stuck Distance) : g.deliveriesMade Distance es = 0 := by
  induction es generalizing g with
  | nil => rfl
  | cons e es ih =>
    unfold Game.deliveriesMade
    split
    · rfl
    · rename_i g1 hstep
      obtain ⟨hS1, hd⟩ := Game.stuck_step Distance g g1 e hDistance hS hstep
      rw [hd, ih g1 hS1]
      rfl

/-- A finished game in the city of `city.js` delivers at most once more: the
car no longer moves, and no position is within reach of both the restaurant
and a house. -/
theorem Game.over_run (Distance : Vector3 → Vector3 → JSNumber) (es : List Event) (g : Game)
    (hDistance : ∀ a b, (Distance a b).lt 15 = true → |a.z - b.z| < 15)
    (hO : g.isGameOver = true) (hC : g.InCity) : g.deliveriesMade Distance es ≤ 1 := by
  induction es generalizing g with
  | nil => exact Nat.zero_le _
  | cons e es ih =>
    unfold Game.deliveriesMade
    split
    · exact Nat.zero_le _
    · rename_i g1 hstep
      obtain ⟨hO1, t⟩ := Game.step_over Distance g g1 e hO hstep
      have hC1 : g1.InCity :=
        Game.InCity.of_sameCity g g1 (Game.step_sameCity Distance g g1 e hstep) hC
      rcases t with ⟨_, _, hd⟩ | ⟨_, _, hd⟩ | ⟨_, _, hd⟩ | ⟨p, hn, _, hh⟩
      · rw [hd]
        simpa using ih g1 hO1 hC1
      · rw [hd]
        simpa using ih g1 hO1 hC1
      · rw [hd]
        simpa using ih g1 hO1 hC1
      · have hS1 : g1.Stuck Distance := by
          refine ⟨hO1, hC1, Or.inr ⟨hh, ?_⟩⟩
          rw [Game.withinReach_congr Distance g g1 _ p]
          cases hw : g.withinReach Distance CityBuilder.restaurants with
          | false => rfl
          | true =>
            exact (Game.withinReach_not_both Distance g hDistance hw
              (Game.nearHouse_withinReach Distance g hC hn)).elim
        rw [Game.stuck_run Distance es g1 hDistance hS1]
        split_ifs <;> simp

/-! ### Five missions -/

theorem sampleResetGame_run :
    sampleResetGame.run axisDistance
      [Event.update (some ⟨0, 0, -60⟩) 1, Event.pickup, Event.update (some ⟨70, 0, 30⟩) 1]
      = some sampleCarryingGame := by
  simp [sampleCarryingGame, sampleResetGame, Game.run, Game.step, Game.update,
    Game.startTimer, Player.update, playerAt, Game.pickupPackage, Game.takePackage,
    GameUtils.distance, axisDistance, JSNumber.lt, sampleRestaurant, sampleHouse,
    sampleHouse2, CityBuilder.createPackage, GameUtils.showNotification, Game.new]

theorem sampleCarryingGame_deliver :
    sampleCarryingGame.deliverPackage axisDistance = .ok (sampleMissionGame, true) := by
  simp [sampleCarryingGame, sampleMissionGame, sampleResetGame, playerAt,
    Game.deliverPackage, Game.completeDelivery, Game.timeBonus, Game.gameOver,
    GameUtils.distance, axisDistance, JSNumber.lt, sampleRestaurant, sampleHouse,
    sampleHouse2, CityBuilder.createPackage, GameUtils.showNotification, setTimeout, Game.new]

theorem sampleMissionGame_nextMission :
    sampleMissionGame.run axisDistance (nextMission ⟨-70, 0, 30⟩) = some secondMissionGame := by
  simp [nextMission, secondMissionGame, sampleMissionGame, sampleResetGame, Game.run,
    Game.step, Game.fireTimeout, Game.runCallback, Game.showDestinationCallback,
    Game.disposePackageCallback, Game.createNewOrder, Game.restaurantLoop, Game.houseLoop,
    Game.getRandomRestaurant, Game.getRandomHouse, Game.createPackage, sampleRand, Draw.index,
    sameObject, Game.update, Game.startTimer, Player.update, playerAt, Game.pickupPackage,
    Game.takePackage, Game.deliverPackage, Game.completeDelivery, Game.timeBonus,
    Game.gameOver, Game.clearTimer, GameUtils.distance, axisDistance, JSNumber.lt,
    sampleRestaurant, sampleHouse, sampleHouse2, CityBuilder.createPackage, Package.dispose,
    GameUtils.showNotification, setTimeout, Game.new]

theorem secondMissionGame_nextMission :
    secondMissionGame.run axisDistance (nextMission ⟨70, 0, 30⟩) = some thirdMissionGame := by
  simp [nextMission, secondMissionGame, thirdMissionGame, sampleMissionGame, sampleResetGame,
    Game.run,
    Game.step, Game.fireTimeout, Game.runCallback, Game.showDestinationCallback,
    Game.disposePackageCallback, Game.createNewOrder, Game.restaurantLoop, Game.houseLoop,
    Game.getRandomRestaurant, Game.getRandomHouse, Game.createPackage, sampleRand, Draw.index,
    sameObject, Game.update, Game.startTimer, Player.update, playerAt, Game.pickupPackage,
    Game.takePackage, Game.deliverPackage, Game.completeDelivery, Game.timeBonus,
    Game.gameOver, Game.clearTimer, GameUtils.distance, axisDistance, JSNumber.lt,
    sampleRestaurant, sampleHouse, sampleHouse2, CityBuilder.createPackage, Package.dispose,
    GameUtils.showNotification, setTimeout, Game.new]

theorem thirdMissionGame_nextMission :
    thirdMissionGame.run axisDistance (nextMission ⟨-70, 0, 30⟩) = some fourthMissionGame := by
  simp [nextMission, secondMissionGame, thirdMissionGame, fourthMissionGame, sampleMissionGame,
    sampleResetGame, Game.run,
    Game.step, Game.fireTimeout, Game.runCallback, Game.showDestinationCallback,
    Game.disposePackageCallback, Game.createNewOrder, Game.restaurantLoop, Game.houseLoop,
    Game.getRandomRestaurant, Game.getRandomHouse, Game.createPackage, sampleRand, Draw.index,
    sameObject, Game.update, Game.startTimer, Player.update, playerAt, Game.pickupPackage,
    Game.takePackage, Game.deliverPackage, Game.completeDelivery, Game.timeBonus,
    Game.gameOver, Game.clearTimer, GameUtils.distance, axisDistance, JSNumber.lt,
    sampleRestaurant, sampleHouse, sampleHouse2, CityBuilder.createPackage, Package.dispose,
    GameUtils.showNotification, setTimeout, Game.new]

theorem fourthMissionGame_nextMission :
    fourthMissionGame.run axisDistance (nextMission ⟨70, 0, 30⟩) = some fifthMissionGame := by
  simp [nextMission, secondMissionGame, thirdMissionGame, fourthMissionGame, fifthMissionGame,
    sampleMissionGame, sampleResetGame, Game.run,
    Game.step, Game.fireTimeout, Game.runCallback, Game.showDestinationCallback,
    Game.disposePackageCallback, Game.createNewOrder, Game.restaurantLoop, Game.houseLoop,
    Game.getRandomRestaurant, Game.getRandomHouse, Game.createPackage, sampleRand, Draw.index,
    sameObject, Game.update, Game.startTimer, Player.update, playerAt, Game.pickupPackage,
    Game.takePackage, Game.deliverPackage, Game.completeDelivery, Game.timeBonus,
    Game.gameOver, Game.clearTimer, GameUtils.distance, axisDistance, JSNumber.lt,
    sampleRestaurant, sampleHouse, sampleHouse2, CityBuilder.createPackage, Package.dispose,
    GameUtils.showNotification, setTimeout, Game.new]

theorem sampleMissionGame_wins :
    sampleMissionGame.run axisDistance
      (nextMission ⟨-70, 0, 30⟩ ++ (nextMission ⟨70, 0, 30⟩ ++
        (nextMission ⟨-70, 0, 30⟩ ++ nextMission ⟨70, 0, 30⟩))) = some fifthMissionGame := by
  rw [Game.run_append axisDistance _ _ _ _ sampleMissionGame_nextMission,
    Game.run_append axisDistance _ _ _ _ secondMissionGame_nextMission,
    Game.run_append axisDistance _ _ _ _ thirdMissionGame_nextMission]
  exact fourthMissionGame_nextMission

/-! ## Theorems -/

/-- C1. When `deliverPackage` is called while carrying a package, with a
package and a house present and the player less than 15 units from the house,
it returns `true`, `deliveries` grows by exactly 1, `hasPackage` becomes false
and `score` grows by `100 * L + max(0, 50 - floor(t / 10)) * L`, with `L` the
level and `t` the elapsed time before the call. -/
theorem deliverPackage_success (Distance : Vector3 → Vector3 → JSNumber) (g : Game)
    (pkg : Package) (house : Building) (player : Player) (mesh : Mesh)
    (hHas : g.hasPackage = true) (hPkg : g.currentPackage = some pkg)
    (hHouse : g.currentHouse = some house) (hPlayer : g.player = some player)
    (hMesh : player.mesh = some mesh)
    (hNear : (GameUtils.distance Distance mesh.position house.position).lt 15 = true) :
    ∃ g', g.deliverPackage Distance = .ok (g', true) ∧
      g'.deliveries = g.deliveries + 1 ∧ g'.hasPackage = false ∧
      (g'.score : Int) =
        g.score + 100 * g.level + max 0 (50 - ((g.time / 10 : Nat) : Int)) * g.level := by
  obtain ⟨_, housePos, _, hPos⟩ := near_position Distance _ _ _ hNear
  refine ⟨g.completeDelivery pkg housePos,
    Game.deliverPackage_near Distance g pkg house player mesh housePos hHas hPkg hHouse hPlayer
      hMesh hPos hNear,
    Game.completeDelivery_deliveries g pkg housePos,
    Game.completeDelivery_hasPackage g pkg housePos, ?_⟩
  rw [Game.completeDelivery_score, Game.timeBonus]
  push_cast
  rw [Int.toNat_of_nonneg (le_max_left _ _)]

/-- Witness of C1: a delivery 10 units from the house, at level 1 and time 0,
is worth 100 + 50 points. -/
theorem deliverPackage_success_witness :
    ∃ g', (carryingGame ⟨-60, 0, 30⟩).deliverPackage axisDistance = .ok (g', true) ∧
      g'.deliveries = (carryingGame ⟨-60, 0, 30⟩).deliveries + 1 ∧ g'.hasPackage = false ∧
      (g'.score : Int) =
        (carryingGame ⟨-60, 0, 30⟩).score + 100 * (carryingGame ⟨-60, 0, 30⟩).level +
          max 0 (50 - (((carryingGame ⟨-60, 0, 30⟩).time / 10 : Nat) : Int)) *
            (carryingGame ⟨-60, 0, 30⟩).level :=
  deliverPackage_success axisDistance (carryingGame ⟨-60, 0, 30⟩)
    { parent := false, position := ⟨0, 1, -60⟩, scaling := ⟨1, 1, 1⟩, disposed := false }
    sampleHouse (playerAt ⟨-60, 0, 30⟩) { position := some ⟨-60, 0, 30⟩ }
    rfl rfl rfl rfl rfl
    (by simp [GameUtils.distance, axisDistance, sampleHouse, JSNumber.lt]; norm_num)

/-- C2. When the pickup guard holds (no package carried, a package and a
restaurant present), `pickupPackage` returns a boolean `b` and leaves
`hasPackage = b`, where `b` is true exactly when the distance from the player
to the restaurant is strictly less than 15: for a finite distance `q`, `b` is
true iff `q < 15`, so 15 itself and anything above fail. -/
theorem pickupPackage_iff_near (Distance : Vector3 → Vector3 → JSNumber) (g : Game)
    (pkg : Package) (restaurant : Building) (player : Player) (mesh : Mesh)
    (hHas : g.hasPackage = false) (hPkg : g.currentPackage = some pkg)
    (hRest : g.currentRestaurant = some restaurant) (hPlayer : g.player = some player)
    (hMesh : player.mesh = some mesh) :
    ∃ g' b, g.pickupPackage Distance = .ok (g', b) ∧ g'.hasPackage = b ∧
      (b = true ↔ (GameUtils.distance Distance mesh.position restaurant.position).lt 15 = true) ∧
      (∀ q, GameUtils.distance Distance mesh.position restaurant.position = JSNumber.finite q →
        (b = true ↔ q < 15)) :=
  pickupPackage_iff_near_aux Distance g pkg restaurant player mesh hHas hPkg hRest hPlayer hMesh

/-- Witness of C2: at distance 14.9 from the restaurant the pickup succeeds. -/
theorem pickupPackage_iff_near_witness :
    ∃ g' b, (sampleGame ⟨149 / 10, 0, -60⟩).pickupPackage axisDistance = .ok (g', b) ∧
      g'.hasPackage = b ∧
      (b = true ↔
        (GameUtils.distance axisDistance (some ⟨149 / 10, 0, -60⟩) sampleRestaurant.position).lt 15
          = true) ∧
      (∀ q, GameUtils.distance axisDistance (some ⟨149 / 10, 0, -60⟩) sampleRestaurant.position
          = JSNumber.finite q → (b = true ↔ q < 15)) :=
  pickupPackage_iff_near axisDistance (sampleGame ⟨149 / 10, 0, -60⟩)
    { parent := false, position := ⟨0, 1, -60⟩, scaling := ⟨1, 1, 1⟩, disposed := false }
    sampleRestaurant (playerAt ⟨149 / 10, 0, -60⟩) { position := some ⟨149 / 10, 0, -60⟩ }
    rfl rfl rfl rfl rfl

/-- C3. Guard failures are silent no-ops: `deliverPackage` without a carried
package, without a package or without a house, and `pickupPackage` while
carrying, without a package or without a restaurant, return `false` without
raising an error and give back the very same game: every field is unchanged. -/
theorem guard_failure_is_noop (Distance : Vector3 → Vector3 → JSNumber) (g : Game) :
    ((g.hasPackage = false ∨ g.currentPackage = none ∨ g.currentHouse = none) →
      g.deliverPackage Distance = .ok (g, false)) ∧
    ((g.hasPackage = true ∨ g.currentPackage = none ∨ g.currentRestaurant = none) →
      g.pickupPackage Distance = .ok (g, false)) := by
  constructor
  · intro h
    unfold Game.deliverPackage
    rcases h with h | h | h
    · simp only [h]
    · simp only [h]
      split <;> simp_all
    · simp only [h]
      split <;> simp_all
  · intro h
    unfold Game.pickupPackage
    rcases h with h | h | h
    · simp only [h]
    · simp only [h]
      split <;> simp_all
    · simp only [h]
      split <;> simp_all

/-- Witness of C3: the game of the constructor has no order at all. -/
theorem guard_failure_is_noop_witness :
    Game.new.deliverPackage axisDistance = .ok (Game.new, false) ∧
      Game.new.pickupPackage axisDistance = .ok (Game.new, false) :=
  ⟨(guard_failure_is_noop axisDistance Game.new).1 (Or.inl rfl),
   (guard_failure_is_noop axisDistance Game.new).2 (Or.inr (Or.inl rfl))⟩

/-- C6. In a state that is neither paused nor over nor won, one timer tick
adds exactly 1 to `time`, sets `timeRemaining` to `max(0, timeLimit - time)`
for the new `time`, and sets `isGameOver` exactly when that new
`timeRemaining` is 0; `gameWon` stays false. -/
theorem tick_running (g : Game) (hP : g.isPaused = false) (hO : g.isGameOver = false)
    (hW : g.gameWon = false) :
    g.tick.time = g.time + 1 ∧
      g.tick.timeRemaining = max (0 : Int) ((g.timeLimit : Int) - (g.tick.time : Int)) ∧
      (g.tick.isGameOver = true ↔ g.tick.timeRemaining = 0) ∧
      g.tick.gameWon = false := by
  refine ⟨Game.tick_time g hP hO hW, ?_, ?_, Game.tick_gameWon g hW⟩
  · rw [Game.tick_time g hP hO hW, Game.tick_timeRemaining g hP hO hW]
  · rw [Game.tick_isGameOver g hP hO hW]
    simp

/-- Witness of C6: the first tick of the constructor's game. -/
theorem tick_running_witness :
    Game.new.tick.time = Game.new.time + 1 ∧
      Game.new.tick.timeRemaining =
        max (0 : Int) ((Game.new.timeLimit : Int) - (Game.new.tick.time : Int)) ∧
      (Game.new.tick.isGameOver = true ↔ Game.new.tick.timeRemaining = 0) ∧
      Game.new.tick.gameWon = false :=
  tick_running Game.new rfl rfl rfl

/-- C7. A successful `deliverPackage` raises `level` by exactly 1 when the new
`deliveries` count is a multiple of 3 and leaves it unchanged otherwise; a
timer tick, a pickup (successful or not), a failed delivery and a pause toggle
leave `level` unchanged. -/
theorem level_changes_only_on_third_delivery (Distance : Vector3 → Vector3 → JSNumber)
    (g : Game) :
    (∀ g', g.deliverPackage Distance = .ok (g', true) →
      g'.deliveries = g.deliveries + 1 ∧
      (g'.deliveries % 3 = 0 → g'.level = g.level + 1) ∧
      (g'.deliveries % 3 ≠ 0 → g'.level = g.level)) ∧
    g.tick.level = g.level ∧
    (∀ g' b, g.pickupPackage Distance = .ok (g', b) → g'.level = g.level) ∧
    (∀ g', g.deliverPackage Distance = .ok (g', false) → g'.level = g.level) ∧
    g.togglePause.1.level = g.level := by
  refine ⟨?_, (Game.tick_frame g).1, ?_, ?_, rfl⟩
  · intro g' h
    rcases Game.deliverPackage_cases Distance g g' true h with
      ⟨_, _, pkg, housePos, rfl⟩ | ⟨hb, _⟩ | ⟨hb, _⟩
    · rw [Game.completeDelivery_deliveries, Game.completeDelivery_level]
      refine ⟨rfl, ?_, ?_⟩ <;> intro hm <;> simp [hm]
    · cases hb
    · cases hb
  · intro g' b h
    rcases Game.pickupPackage_cases Distance g g' b h with
      ⟨_, _, pkg, _, rfl⟩ | ⟨_, rfl⟩ | ⟨_, rfl⟩ <;> rfl
  · intro g' h
    rcases Game.deliverPackage_cases Distance g g' false h with
      ⟨hb, _⟩ | ⟨_, rfl⟩ | ⟨_, rfl⟩
    · cases hb
    · rfl
    · rfl

/-- C8, as stated, fails: a won game is started again with `start`, which
leaves `gameWon` true; the next frame installs the timer; the game is paused
and unpaused; the tick that follows leaves `time` at its frozen value instead
of adding 1. -/
theorem pause_resume_counterexample :
    wonGame.start sampleRand 2 = some restartedWonGame ∧
      restartedWonGame.run axisDistance [Event.update none 1, Event.togglePause]
        = some pausedWonGame ∧
      pausedWonGame.isPaused = true ∧ pausedWonGame.timerInterval = some 1 ∧
      pausedWonGame.isGameOver = false ∧
      pausedWonGame.run axisDistance [Event.togglePause, Event.tick] = some resumedWonGame ∧
      resumedWonGame.isPaused = false ∧ resumedWonGame.time = pausedWonGame.time ∧
      resumedWonGame.time ≠ pausedWonGame.time + 1 :=
  ⟨wonGame_start, restartedWonGame_run, rfl, rfl, rfl, pausedWonGame_run, rfl, rfl,
    by decide⟩

/-- C8, amended. In every paused state a timer tick changes nothing, so
`time` and `timeRemaining` are frozen; once `togglePause` has unpaused a game
that is neither over nor won, the next tick continues from the frozen value:
`time` becomes the frozen time plus 1 and `timeRemaining` becomes
`max(0, timeLimit - (frozen time + 1))`. -/
theorem pause_freezes_clock (g : Game) (hP : g.isPaused = true) :
    g.tick.time = g.time ∧ g.tick.timeRemaining = g.timeRemaining ∧
      g.togglePause.1.isPaused = false ∧
      (g.isGameOver = false → g.gameWon = false →
        g.togglePause.1.tick.time = g.time + 1 ∧
        g.togglePause.1.tick.timeRemaining =
          max (0 : Int) ((g.timeLimit : Int) - ((g.time + 1 : Nat) : Int))) := by
  refine ⟨by rw [Game.tick_of_paused g hP], by rw [Game.tick_of_paused g hP],
    by simp [Game.togglePause, hP], ?_⟩
  intro hO hW
  have h1 : g.togglePause.1.isPaused = false := by simp [Game.togglePause, hP]
  exact ⟨Game.tick_time g.togglePause.1 h1 hO hW,
    Game.tick_timeRemaining g.togglePause.1 h1 hO hW⟩

/-- Witness of C8 (amended): a paused game at time 0. -/
theorem pause_freezes_clock_witness :
    pausedNearRestaurant.tick.time = pausedNearRestaurant.time ∧
      pausedNearRestaurant.tick.timeRemaining = pausedNearRestaurant.timeRemaining ∧
      pausedNearRestaurant.togglePause.1.isPaused = false ∧
      (pausedNearRestaurant.isGameOver = false → pausedNearRestaurant.gameWon = false →
        pausedNearRestaurant.togglePause.1.tick.time = pausedNearRestaurant.time + 1 ∧
        pausedNearRestaurant.togglePause.1.tick.timeRemaining =
          max (0 : Int) ((pausedNearRestaurant.timeLimit : Int) -
            ((pausedNearRestaurant.time + 1 : Nat) : Int))) :=
  pause_freezes_clock pausedNearRestaurant rfl

/-- C9, as stated, fails: `pickupPackage` and `deliverPackage` do not test
`isPaused`; called on a paused game within reach they succeed. -/
theorem paused_methods_counterexample :
    pausedNearRestaurant.isPaused = true ∧
      (∃ g', pausedNearRestaurant.pickupPackage axisDistance = .ok (g', true) ∧
        g'.hasPackage = true ∧ pausedNearRestaurant.hasPackage = false) ∧
      pausedNearHouse.isPaused = true ∧
      (∃ g', pausedNearHouse.deliverPackage axisDistance = .ok (g', true) ∧
        g'.deliveries = 1 ∧ g'.score = 150 ∧ pausedNearHouse.deliveries = 0 ∧
        pausedNearHouse.score = 0) := by
  refine ⟨rfl, ?_, rfl, ?_⟩
  · obtain ⟨g', b, h, hHas, hb, _⟩ := pickupPackage_iff_near_aux axisDistance
      pausedNearRestaurant
      { parent := false, position := ⟨0, 1, -60⟩, scaling := ⟨1, 1, 1⟩, disposed := false }
      sampleRestaurant (playerAt ⟨10, 0, -60⟩) { position := some ⟨10, 0, -60⟩ }
      rfl rfl rfl rfl rfl
    have hb' : b = true :=
      hb.2 (by simp [GameUtils.distance, axisDistance, sampleRestaurant, JSNumber.lt]; norm_num)
    subst hb'
    exact ⟨g', h, hHas, rfl⟩
  · have hnear : (GameUtils.distance axisDistance (some ⟨-60, 0, 30⟩)
        sampleHouse.position).lt 15 = true := by
      simp [GameUtils.distance, axisDistance, sampleHouse, JSNumber.lt]; norm_num
    refine ⟨_, Game.deliverPackage_near axisDistance pausedNearHouse
      { parent := false, position := ⟨0, 1, -60⟩, scaling := ⟨1, 1, 1⟩, disposed := false }
      sampleHouse (playerAt ⟨-60, 0, 30⟩) { position := some ⟨-60, 0, 30⟩ } ⟨-70, 0, 30⟩
      rfl rfl rfl rfl rfl rfl hnear, ?_, ?_, rfl, rfl⟩
    · rw [Game.completeDelivery_deliveries]
      rfl
    · rw [Game.completeDelivery_score]
      decide

/-- C9, amended. While the game is paused a press of the space bar is
rejected by the handlers: `handleSpacePress` and both keydown listeners of
`main.js` return without error and give back the very same game, whatever the
player's distance to the restaurant or the house. -/
theorem paused_space_press_rejected (Distance : Vector3 → Vector3 → JSNumber) (g : Game)
    (hP : g.isPaused = true) :
    g.handleSpacePress Distance = .ok g ∧
      Main.documentKeydownSpace Distance g = .ok g ∧
      Main.windowKeydown Distance g " " = .ok g := by
  refine ⟨?_, ?_, ?_⟩
  · simp [Game.handleSpacePress, hP]
  · simp [Main.documentKeydownSpace, Game.handleSpacePress, hP]
  · simp [Main.windowKeydown, hP]

/-- Witness of C9 (amended): the paused game next to the restaurant. -/
theorem paused_space_press_rejected_witness :
    pausedNearRestaurant.handleSpacePress axisDistance = .ok pausedNearRestaurant ∧
      Main.documentKeydownSpace axisDistance pausedNearRestaurant = .ok pausedNearRestaurant ∧
      Main.windowKeydown axisDistance pausedNearRestaurant " " = .ok pausedNearRestaurant :=
  paused_space_press_rejected axisDistance pausedNearRestaurant rfl

/-- C10. Whatever the prior state (mid-game, paused, lost or won), when
`reset` returns: `score = 0`, `deliveries = 0`, `level = 1`, `time = 0`,
`timeRemaining = timeLimit`, `isPaused`, `isGameOver`, `gameWon` and
`hasPackage` are false, the timer handle is cleared, and `createNewOrder` has
generated a new order: the restaurant is the first of `restaurants`, the house
is one of `houses` (when there is any), a fresh package lies at the
restaurant (when it has a position), the new-order notification has been
shown and the destination notice is scheduled. -/
theorem reset_postcondition (rand : Nat → Draw) (fuel : Nat) (g g' : Game)
    (h : g.reset rand fuel = some g') :
    g'.score = 0 ∧ g'.deliveries = 0 ∧ g'.level = 1 ∧ g'.time = 0 ∧
      g'.timeRemaining = (g.timeLimit : Int) ∧ g'.timeLimit = g.timeLimit ∧
      g'.deliveryGoal = g.deliveryGoal ∧
      g'.isPaused = false ∧ g'.isGameOver = false ∧ g'.gameWon = false ∧
      g'.hasPackage = false ∧ g'.timerInterval = none ∧
      g'.currentRestaurant = g.restaurants.head? ∧
      (g.houses ≠ [] → ∃ b ∈ g.houses, g'.currentHouse = some b) ∧
      (∀ r pos, g.restaurants.head? = some r → r.position = some pos →
        g'.currentPackage = some { parent := false, position := { pos with y := 1 },
                                   scaling := ⟨1, 1, 1⟩, disposed := false }) ∧
      g'.notifications = g.notifications ++ [⟨Notice.newOrder, Severity.info⟩] ∧
      g'.timeouts = g.timeouts ++ [⟨Callback.showDestination, 1500⟩] :=
  reset_facts rand fuel g g' h

/-- Witness of C10: `reset` of a running game returns; the first draw is
rejected because it picks the house of the previous order. -/
theorem reset_postcondition_witness :
    (sampleGame ⟨30, 0, 30⟩).reset sampleRand 2 = some sampleResetGame ∧
      sampleResetGame.score = 0 ∧ sampleResetGame.deliveries = 0 ∧
      sampleResetGame.level = 1 ∧ sampleResetGame.time = 0 ∧
      sampleResetGame.timeRemaining = 180 ∧ sampleResetGame.hasPackage = false ∧
      sampleResetGame.timerInterval = none ∧
      sampleResetGame.currentRestaurant = some sampleRestaurant :=
  have h : (sampleGame ⟨30, 0, 30⟩).reset sampleRand 2 = some sampleResetGame :=
    sampleGame_reset
  have p := reset_postcondition sampleRand 2 (sampleGame ⟨30, 0, 30⟩) sampleResetGame h
  ⟨h, p.1, p.2.1, p.2.2.1, p.2.2.2.1, p.2.2.2.2.1, p.2.2.2.2.2.2.2.2.2.2.1,
    p.2.2.2.2.2.2.2.2.2.2.2.1, p.2.2.2.2.2.2.2.2.2.2.2.2.1⟩

/-- C5. From the state `reset` returns, with `timeLimit = 180` and nothing but
timer ticks: after `n < 180` ticks the game is not over and
`timeRemaining = 180 - n` (so it is positive); the 180th tick gives
`timeRemaining = 0`, `isGameOver = true` and `gameWon = false`; and
`timeRemaining` is never negative, after any number of ticks. -/
theorem timer_expiry (rand : Nat → Draw) (fuel : Nat) (g g0 : Game)
    (hreset : g.reset rand fuel = some g0) (hlimit : g0.timeLimit = 180) :
    (∀ n, n < 180 → (g0.ticks n).isGameOver = false ∧ (g0.ticks n).time = n ∧
      (g0.ticks n).timeRemaining = 180 - (n : Int) ∧ 0 < (g0.ticks n).timeRemaining) ∧
    ((g0.ticks 180).timeRemaining = 0 ∧ (g0.ticks 180).isGameOver = true ∧
      (g0.ticks 180).gameWon = false) ∧
    (∀ n, 0 ≤ (g0.ticks n).timeRemaining) := by
  obtain ⟨_, _, _, hT, hR, hTL, _, hP, hO, hW, _⟩ := reset_facts rand fuel g g0 hreset
  rw [← hTL] at hR
  have hbefore : ∀ n, n < 180 → (g0.ticks n).isGameOver = false ∧ (g0.ticks n).time = n ∧
      (g0.ticks n).timeRemaining = 180 - (n : Int) ∧ 0 < (g0.ticks n).timeRemaining := by
    intro n hn
    obtain ⟨h1, _, _, h4, _, h6⟩ :=
      Game.ticks_before_limit g0 hP hO hW hT hR n (by omega)
    rw [hlimit] at h6
    refine ⟨h4, h1, by simpa using h6, ?_⟩
    rw [h6]
    push_cast
    omega
  have hat := Game.ticks_at_limit g0 hP hO hW hT hR (by omega)
  rw [hlimit] at hat
  refine ⟨hbefore, hat, ?_⟩
  intro n
  rcases Nat.lt_or_ge n 180 with hn | hn
  · exact le_of_lt (hbefore n hn).2.2.2
  · obtain ⟨m, rfl⟩ : ∃ m, n = 180 + m := ⟨n - 180, by omega⟩
    rw [Game.ticks_add, Game.ticks_after_over _ hat.2.1, hat.1]

/-- Witness of C5: the game of `sampleResetGame`, which `reset` returns. -/
theorem timer_expiry_witness :
    (∀ n, n < 180 → (sampleResetGame.ticks n).isGameOver = false ∧
      (sampleResetGame.ticks n).time = n ∧
      (sampleResetGame.ticks n).timeRemaining = 180 - (n : Int) ∧
      0 < (sampleResetGame.ticks n).timeRemaining) ∧
    ((sampleResetGame.ticks 180).timeRemaining = 0 ∧
      (sampleResetGame.ticks 180).isGameOver = true ∧
      (sampleResetGame.ticks 180).gameWon = false) ∧
    (∀ n, 0 ≤ (sampleResetGame.ticks n).timeRemaining) :=
  timer_expiry sampleRand 2 (sampleGame ⟨30, 0, 30⟩) sampleResetGame
    sampleGame_reset rfl

/-- Witness of C7: the first delivery of a game does not change the level. -/
theorem level_changes_only_on_third_delivery_witness :
    ((carryingGame ⟨-60, 0, 30⟩).completeDelivery
        { parent := false, position := ⟨0, 1, -60⟩, scaling := ⟨1, 1, 1⟩, disposed := false }
        ⟨-70, 0, 30⟩).level = (carryingGame ⟨-60, 0, 30⟩).level :=
  ((level_changes_only_on_third_delivery axisDistance (carryingGame ⟨-60, 0, 30⟩)).1 _
    (Game.deliverPackage_near axisDistance (carryingGame ⟨-60, 0, 30⟩)
      { parent := false, position := ⟨0, 1, -60⟩, scaling := ⟨1, 1, 1⟩, disposed := false }
      sampleHouse (playerAt ⟨-60, 0, 30⟩) { position := some ⟨-60, 0, 30⟩ } ⟨-70, 0, 30⟩
      rfl rfl rfl rfl rfl rfl
      (by simp [GameUtils.distance, axisDistance, sampleHouse, JSNumber.lt]; norm_num))).2.2
    (by rw [Game.completeDelivery_deliveries]; decide)

/-- C4. Win scenario in the city of `city.js`, with a distance that is never
less than the distance along the z axis. Take the game `reset` returns, with
`deliveryGoal = 5`, and a run of frames, ticks, pickups, deliveries, pause
toggles, position resets and timeout callbacks that contains five successful
`deliverPackage` calls or more. `deliveries` counts the successful calls. A
successful call needs `hasPackage`, hence an earlier pickup, and adds 1 to
`deliveries`; after each of the deliveries 1 to 4 the game is neither over nor
won and the next `createNewOrder` is scheduled; the 5th delivery sets
`isGameOver` and `gameWon` within that same call, clears the timer handle and
schedules the removal of the package only, no `createNewOrder`. -/
theorem win_on_fifth_delivery (Distance : Vector3 → Vector3 → JSNumber) (rand : Nat → Draw)
    (fuel : Nat) (g g0 s1 s2 s3 : Game) (es1 es2 : List Event)
    (hDistance : ∀ a b, (Distance a b).lt 15 = true → |a.z - b.z| < 15)
    (hR : ∀ r ∈ g.restaurants, r ∈ CityBuilder.restaurants)
    (hH : ∀ b ∈ g.houses, b ∈ CityBuilder.houses)
    (hreset : g.reset rand fuel = some g0) (hgoal : g0.deliveryGoal = 5)
    (hrun1 : g0.run Distance es1 = some s1)
    (hdel : s1.deliverPackage Distance = .ok (s2, true))
    (hrun2 : s2.run Distance es2 = some s3) (hfive : 5 ≤ s3.deliveries) :
    s1.deliveries = g0.deliveriesMade Distance es1 ∧ s1.hasPackage = true ∧
      s2.deliveries = s1.deliveries + 1 ∧
      (s2.deliveries < 5 → s2.isGameOver = false ∧ s2.gameWon = false ∧
        s2.timeouts = s1.timeouts ++
          [⟨Callback.disposePackage, 1500⟩, ⟨Callback.createNewOrder, 2000⟩]) ∧
      (s2.deliveries = 5 → s2.isGameOver = true ∧ s2.gameWon = true ∧
        s2.timerInterval = none ∧
        s2.timeouts = s1.timeouts ++ [⟨Callback.disposePackage, 1500⟩]) := by
  obtain ⟨_, hD, _, _, _, _, _, _, hO, hW, _⟩ := reset_facts rand fuel g g0 hreset
  have hstart : g0.Unfinished := fun _ => ⟨hW, fun h => by rw [hO] at h; cases h⟩
  obtain ⟨hu, hG, _, hcount, _⟩ := Game.run_progress Distance es1 g0 s1 hrun1 hstart
  rw [hgoal] at hG
  rw [hD, Nat.zero_add] at hcount
  have hC : s1.InCity :=
    Game.run_inCity Distance es1 g0 s1 hrun1 (Game.reset_inCity rand fuel g g0 hreset hR hH)
  rcases Game.deliverPackage_cases Distance s1 s2 true hdel with
    ⟨_, hHas, pkg, housePos, hs2⟩ | ⟨hb, _⟩ | ⟨hb, _⟩
  · have hDel : s2.deliveries = s1.deliveries + 1 := by
      rw [hs2]
      exact Game.completeDelivery_deliveries s1 pkg housePos
    refine ⟨hcount, hHas, hDel, ?_, ?_⟩
    · intro hlt
      rw [hDel] at hlt
      have hlive : s1.isGameOver = false := by
        cases hso : s1.isGameOver with
        | false => rfl
        | true =>
          exfalso
          have hrest : s1.run Distance (Event.deliver :: es2) = some s3 := by
            simp only [Game.run, Game.step, hdel]
            exact hrun2
          obtain ⟨_, _, _, hc, _⟩ :=
            Game.run_progress Distance (Event.deliver :: es2) s1 s3 hrest hu
          have hle := Game.over_run Distance (Event.deliver :: es2) s1 hDistance hso hC
          omega
      obtain ⟨h1, h2, _, h4⟩ :=
        Game.completeDelivery_continue s1 pkg housePos (by omega)
      rw [hs2]
      exact ⟨h1.trans hlive, h2.trans (hu (by omega)).1, h4⟩
    · intro heq
      rw [hDel] at heq
      rw [hs2]
      exact Game.completeDelivery_win s1 pkg housePos (by omega)
  · cases hb
  · cases hb

/-- Witness of C4: five missions played from a freshly reset game; the first
delivery. -/
theorem win_on_fifth_delivery_witness :
    sampleCarryingGame.deliveries = sampleResetGame.deliveriesMade axisDistance
        [Event.update (some ⟨0, 0, -60⟩) 1, Event.pickup, Event.update (some ⟨70, 0, 30⟩) 1] ∧
      sampleCarryingGame.hasPackage = true ∧
      sampleMissionGame.deliveries = sampleCarryingGame.deliveries + 1 ∧
      (sampleMissionGame.deliveries < 5 → sampleMissionGame.isGameOver = false ∧
        sampleMissionGame.gameWon = false ∧
        sampleMissionGame.timeouts = sampleCarryingGame.timeouts ++
          [⟨Callback.disposePackage, 1500⟩, ⟨Callback.createNewOrder, 2000⟩]) ∧
      (sampleMissionGame.deliveries = 5 → sampleMissionGame.isGameOver = true ∧
        sampleMissionGame.gameWon = true ∧ sampleMissionGame.timerInterval = none ∧
        sampleMissionGame.timeouts = sampleCarryingGame.timeouts ++
          [⟨Callback.disposePackage, 1500⟩]) :=
  win_on_fifth_delivery axisDistance sampleRand 2 (sampleGame ⟨30, 0, 30⟩) sampleResetGame
    sampleCarryingGame sampleMissionGame fifthMissionGame
    [Event.update (some ⟨0, 0, -60⟩) 1, Event.pickup, Event.update (some ⟨70, 0, 30⟩) 1]
    (nextMission ⟨-70, 0, 30⟩ ++ (nextMission ⟨70, 0, 30⟩ ++
      (nextMission ⟨-70, 0, 30⟩ ++ nextMission ⟨70, 0, 30⟩)))
    axisDistance_z
    (fun r hr => by
      simp only [sampleGame, List.mem_singleton] at hr
      rw [hr]
      exact List.Mem.head _)
    (fun b hb => by
      simp only [sampleGame, List.mem_cons, List.mem_singleton, List.mem_nil_iff,
        or_false] at hb
      rcases hb with hb | hb
      · rw [hb]
        exact List.Mem.head _
      · rw [hb]
        exact List.Mem.tail _ (List.Mem.head _))
    sampleGame_reset rfl sampleResetGame_run sampleCarryingGame_deliver sampleMissionGame_wins
    (by decide)

/-- C15, as stated, fails twice. With two restaurants, once the current
restaurant is the first one, `createNewOrder` does not return whatever the
fuel; and with the two houses of `sampleGame` and draws that pick the house of
the previous order three times, it is still looping after three draws, more
than the two options there are, and returns at the fourth. -/
theorem createNewOrder_termination_counterexample :
    (¬ ∃ fuel, (twoRestaurantGame.createNewOrder sampleRand fuel).isSome = true) ∧
      (sampleGame ⟨30, 0, 30⟩).houses.length = 2 ∧
      (sampleGame ⟨30, 0, 30⟩).createNewOrder lateRand 3 = none ∧
      ((sampleGame ⟨30, 0, 30⟩).createNewOrder lateRand 4).isSome = true := by
  refine ⟨?_, rfl, ?_, ?_⟩
  · rintro ⟨fuel, h⟩
    have hloop : twoRestaurantGame.restaurantLoop fuel = none :=
      Game.restaurantLoop_diverges twoRestaurantGame fuel (by decide) rfl
    unfold Game.createNewOrder at h
    rw [hloop] at h
    cases h
  · have hloop : (sampleGame ⟨30, 0, 30⟩).houseLoop lateRand 0 3 = none := by
      apply Game.houseLoop_reject
      intro j hj
      interval_cases j <;> rfl
    unfold Game.createNewOrder
    rw [Game.restaurantLoop_single _ 2 (by decide), hloop]
  · obtain ⟨j, _, _, hj⟩ := Game.houseLoop_accept (sampleGame ⟨30, 0, 30⟩) lateRand 3 0 rfl
    obtain ⟨g', hg'⟩ := Game.createNewOrder_isSome lateRand 4 (sampleGame ⟨30, 0, 30⟩) _ _
      (Game.restaurantLoop_single _ 3 (by decide)) hj
    rw [hg']
    rfl

/-- C15, amended. With exactly one restaurant and at least one house, for any
previous order and any random source: `createNewOrder` returns as soon as a
draw is accepted, that is, with two or more houses, as soon as a draw picks a
house other than the house of the previous order; if draw number `j` (counted
from 0) is accepted, `j + 1` passes of the loop are enough. When it returns,
`currentRestaurant` is a member of `restaurants` and `currentHouse` a member
of `houses`. -/
theorem createNewOrder_returns_on_accepted_draw (rand : Nat → Draw) (g : Game) (j : Nat)
    (hR : g.restaurants.length = 1) (hH : g.houses ≠ [])
    (hacc : (decide (g.houses.length > 1) &&
      sameObject (g.getRandomHouse (rand j)) g.currentHouse) = false) :
    ∃ g', g.createNewOrder rand (j + 1) = some g' ∧
      (∃ r ∈ g.restaurants, g'.currentRestaurant = some r) ∧
      (∃ b ∈ g.houses, g'.currentHouse = some b) := by
  have hacc' : (decide (g.houses.length > 1) &&
      sameObject (g.getRandomHouse (rand (0 + j))) g.currentHouse) = false := by
    rw [Nat.zero_add]
    exact hacc
  obtain ⟨i, _, _, hi⟩ := Game.houseLoop_accept g rand j 0 hacc'
  obtain ⟨g', hg'⟩ := Game.createNewOrder_isSome rand (j + 1) g _ _
    (Game.restaurantLoop_single g j (by omega)) hi
  obtain ⟨hr, _, _, k, hk, _⟩ := Game.createNewOrder_order rand (j + 1) g g' hg'
  refine ⟨g', hg', ?_, ?_⟩
  · rw [hr, Game.getRandomRestaurant_eq_head]
    cases hrs : g.restaurants with
    | nil => rw [hrs] at hR; cases hR
    | cons r rs => exact ⟨r, List.mem_cons_self _ _, rfl⟩
  · obtain ⟨b, hb, hget⟩ := Game.getRandomHouse_mem g (rand k) hH
    exact ⟨b, hb, hk.trans hget⟩

/-- Witness of C15 (amended): the second draw of `sampleRand` is accepted. -/
theorem createNewOrder_returns_on_accepted_draw_witness :
    ∃ g', (sampleGame ⟨30, 0, 30⟩).createNewOrder sampleRand (1 + 1) = some g' ∧
      (∃ r ∈ (sampleGame ⟨30, 0, 30⟩).restaurants, g'.currentRestaurant = some r) ∧
      (∃ b ∈ (sampleGame ⟨30, 0, 30⟩).houses, g'.currentHouse = some b) :=
  createNewOrder_returns_on_accepted_draw sampleRand (sampleGame ⟨30, 0, 30⟩) 1 rfl
    (by simp [sampleGame]) rfl

/-- C16. With exactly one house `h` configured, whatever the previous order
and the random source: the house loop makes a single pass (one pass of fuel is
enough, so it reads one draw) and ends with `h`; whenever `createNewOrder`
returns, `currentHouse` is `h`; and with at most one restaurant it does return,
after one pass of each loop. -/
theorem single_house_is_reused (rand : Nat → Draw) (g : Game) (h : Building)
    (hH : g.houses = [h]) :
    g.houseLoop rand 0 1 = some (some h) ∧
      (∀ fuel g', g.createNewOrder rand fuel = some g' → g'.currentHouse = some h) ∧
      (g.restaurants.length ≤ 1 →
        ∃ g', g.createNewOrder rand 1 = some g' ∧ g'.currentHouse = some h) := by
  have hloop : g.houseLoop rand 0 1 = some (some h) := by
    unfold Game.houseLoop
    have hlen : decide (g.houses.length > 1) = false := by rw [hH]; rfl
    simp only [hlen, Bool.false_and, Bool.false_eq_true, if_false]
    rw [Game.getRandomHouse_single g _ h hH]
  have hall : ∀ fuel g', g.createNewOrder rand fuel = some g' → g'.currentHouse = some h := by
    intro fuel g' hg'
    obtain ⟨_, _, _, k, hk, _⟩ := Game.createNewOrder_order rand fuel g g' hg'
    rw [hk, Game.getRandomHouse_single g _ h hH]
  refine ⟨hloop, hall, ?_⟩
  intro hR
  obtain ⟨g', hg'⟩ := Game.createNewOrder_isSome rand 1 g _ _
    (Game.restaurantLoop_single g 0 hR) hloop
  exact ⟨g', hg', hall 1 g' hg'⟩

/-- Witness of C16: a city with the single house `sampleHouse`, which is also
the house of the previous order. -/
theorem single_house_is_reused_witness :
    oneHouseGame.houseLoop sampleRand 0 1 = some (some sampleHouse) ∧
      (∀ fuel g', oneHouseGame.createNewOrder sampleRand fuel = some g' →
        g'.currentHouse = some sampleHouse) ∧
      (oneHouseGame.restaurants.length ≤ 1 →
        ∃ g', oneHouseGame.createNewOrder sampleRand 1 = some g' ∧
          g'.currentHouse = some sampleHouse) :=
  single_house_is_reused sampleRand oneHouseGame sampleHouse rfl

/-- C17. With two or more houses, whenever `createNewOrder` returns, the new
`currentHouse` is a member of `houses` and is not the `currentHouse` of the
preceding order: `===` tells them apart, so they are different. -/
theorem new_house_differs_from_previous (rand : Nat → Draw) (fuel : Nat) (g g' : Game)
    (hlen : 2 ≤ g.houses.length) (h : g.createNewOrder rand fuel = some g') :
    (∃ b ∈ g.houses, g'.currentHouse = some b) ∧
      sameObject g'.currentHouse g.currentHouse = false ∧
      g'.currentHouse ≠ g.currentHouse := by
  obtain ⟨_, _, _, k, hk, hacc⟩ := Game.createNewOrder_order rand fuel g g' h
  have hne : g.houses ≠ [] := by
    intro h0
    rw [h0] at hlen
    cases hlen
  have hdec : decide (g.houses.length > 1) = true := decide_eq_true (by omega)
  rw [hdec, Bool.true_and] at hacc
  refine ⟨?_, hacc, ?_⟩
  · obtain ⟨b, hb, hget⟩ := Game.getRandomHouse_mem g (rand k) hne
    exact ⟨b, hb, hk.trans hget⟩
  · intro heq
    rw [heq, sameObject_self] at hacc
    cases hacc

/-- Witness of C17: the order that follows `sampleGame`. -/
theorem new_house_differs_from_previous_witness :
    (∃ b ∈ (sampleGame ⟨30, 0, 30⟩).houses, sampleNewOrderGame.currentHouse = some b) ∧
      sameObject sampleNewOrderGame.currentHouse (sampleGame ⟨30, 0, 30⟩).currentHouse = false ∧
      sampleNewOrderGame.currentHouse ≠ (sampleGame ⟨30, 0, 30⟩).currentHouse :=
  new_house_differs_from_previous sampleRand 2 (sampleGame ⟨30, 0, 30⟩) sampleNewOrderGame
    (by decide) sampleGame_createNewOrder

/-- C11 fails on the code: `start` assigns `isPaused`, `isGameOver`, `time`,
`score`, `deliveries` and `level`, but not `gameWon` and `timeRemaining`, which
`reset` assigns. Called on a won game it returns a game that is still won,
with the `timeRemaining` of the finished game instead of `timeLimit`, and on
which the timer callback never advances; called 20 seconds after `init` it
returns `time = 0` with `timeRemaining = 160`. -/
theorem start_keeps_gameWon_and_timeRemaining :
    (wonGame.gameWon = true ∧ wonGame.timeRemaining = 60 ∧
      ∃ g', wonGame.start sampleRand 2 = some g' ∧ g'.isGameOver = false ∧ g'.score = 0 ∧
        g'.deliveries = 0 ∧ g'.time = 0 ∧ g'.gameWon = true ∧ g'.timeRemaining = 60 ∧
        g'.timeLimit = 180 ∧ g'.tick = g') ∧
    (waitingGame.gameWon = false ∧ waitingGame.isGameOver = false ∧
      ∃ g', waitingGame.start sampleRand 2 = some g' ∧ g'.time = 0 ∧
        g'.timeRemaining = 160 ∧ g'.timeLimit = 180) := by
  refine ⟨⟨rfl, rfl, ?_⟩, rfl, rfl, ?_⟩
  · obtain ⟨j, _, _, hj⟩ := Game.houseLoop_accept wonGame sampleRand 1 0 rfl
    obtain ⟨g', hg'⟩ := Game.start_isSome sampleRand 2 wonGame _ _
      (Game.restaurantLoop_single wonGame 1 (by decide)) hj
    obtain ⟨h1, h2, _, h4, _, h6, _, h8, h9, h10⟩ :=
      Game.start_facts sampleRand 2 wonGame g' hg'
    exact ⟨g', hg', h6, h1, h2, h4, h9, h10, h8, Game.tick_of_won g' h9⟩
  · obtain ⟨j, _, _, hj⟩ := Game.houseLoop_accept waitingGame sampleRand 1 0 rfl
    obtain ⟨g', hg'⟩ := Game.start_isSome sampleRand 2 waitingGame _ _
      (Game.restaurantLoop_single waitingGame 1 (by decide)) hj
    obtain ⟨_, _, _, h4, _, _, _, h8, _, h10⟩ :=
      Game.start_facts sampleRand 2 waitingGame g' hg'
    exact ⟨g', hg', h4, h10, h8⟩

/-- C12. Once `gameOver` has run (won or lost), `isGameOver` is true and the
timer handle is cleared; and after any sequence of frames (`update`), timer
firings and pause toggles the game is still over, the handle is still cleared
(`update` starts no timer: it returns the game as it is), and `time` and
`timeRemaining` are what they were, also under a call of the timer callback
itself. -/
theorem terminal_state_stops_timer (Distance : Vector3 → Vector3 → JSNumber) (g : Game)
    (won : Bool) (es : List Event) (hes : ∀ e ∈ es, e.isClock = true) :
    (g.gameOver won).isGameOver = true ∧ (g.gameOver won).timerInterval = none ∧
      ∃ s, (g.gameOver won).run Distance es = some s ∧ s.isGameOver = true ∧
        s.timerInterval = none ∧ s.time = g.time ∧ s.timeRemaining = g.timeRemaining ∧
        s.tick = s ∧ ∀ moved handle, s.update moved handle = s := by
  obtain ⟨h1, _, h3, h4, h5⟩ := Game.gameOver_facts g won
  obtain ⟨s, hs, i1, i2, i3, i4⟩ := Game.run_terminal Distance es (g.gameOver won) h1 h3 hes
  exact ⟨h1, h3, s, hs, i1, i2, i3.trans h4, i4.trans h5, Game.tick_of_over s i1,
    fun moved handle => Game.update_of_over s moved handle i1⟩

/-- Witness of C12: a game lost on time, then a frame, a timer firing, a pause
and a resume. -/
theorem terminal_state_stops_timer_witness :
    ((sampleGame ⟨0, 2 / 5, 0⟩).gameOver false).isGameOver = true ∧
      ((sampleGame ⟨0, 2 / 5, 0⟩).gameOver false).timerInterval = none ∧
      ∃ s, ((sampleGame ⟨0, 2 / 5, 0⟩).gameOver false).run axisDistance
          [Event.update (some ⟨1, 0, 0⟩) 2, Event.tick, Event.togglePause, Event.togglePause]
          = some s ∧
        s.isGameOver = true ∧ s.timerInterval = none ∧
        s.time = (sampleGame ⟨0, 2 / 5, 0⟩).time ∧
        s.timeRemaining = (sampleGame ⟨0, 2 / 5, 0⟩).timeRemaining ∧
        s.tick = s ∧ ∀ moved handle, s.update moved handle = s :=
  terminal_state_stops_timer axisDistance (sampleGame ⟨0, 2 / 5, 0⟩) false
    [Event.update (some ⟨1, 0, 0⟩) 2, Event.tick, Event.togglePause, Event.togglePause]
    (by decide)

/-- C13 fails on the code: in a game lost on time, a press of the space bar
handled by `handleKeyPress(' ')`, which has no `isGameOver` test and which the
`window` listener of `main.js` calls in any unpaused game, delivers the
carried package: `deliveries` goes from 4 to 5, the score grows, `hasPackage`
becomes false and the lost game becomes won. `handleSpacePress`, which tests
`isGameOver`, leaves the same game unchanged. -/
theorem space_key_after_loss_wins :
    lostNearHouse.isGameOver = true ∧ lostNearHouse.gameWon = false ∧
      lostNearHouse.deliveries = 4 ∧ lostNearHouse.score = 600 ∧
      lostNearHouse.handleSpacePress axisDistance = .ok lostNearHouse ∧
      ∃ g', lostNearHouse.handleKeyPress axisDistance " " = .ok g' ∧
        Main.windowKeydown axisDistance lostNearHouse " " = .ok g' ∧
        g'.deliveries = 5 ∧ g'.score = 864 ∧ g'.hasPackage = false ∧ g'.gameWon = true := by
  have hnear : (GameUtils.distance axisDistance (some ⟨-60, 0, 30⟩)
      sampleHouse.position).lt 15 = true := by
    simp [GameUtils.distance, axisDistance, sampleHouse, JSNumber.lt]; norm_num
  have hdel := Game.deliverPackage_near axisDistance lostNearHouse
    { parent := false, position := ⟨0, 1, -60⟩, scaling := ⟨1, 1, 1⟩, disposed := false }
    sampleHouse (playerAt ⟨-60, 0, 30⟩) { position := some ⟨-60, 0, 30⟩ } ⟨-70, 0, 30⟩
    rfl rfl rfl rfl rfl rfl hnear
  have hkey : lostNearHouse.handleKeyPress axisDistance " " =
      .ok (lostNearHouse.completeDelivery
        { parent := false, position := ⟨0, 1, -60⟩, scaling := ⟨1, 1, 1⟩, disposed := false }
        ⟨-70, 0, 30⟩) := by
    have hh : lostNearHouse.hasPackage = true := rfl
    unfold Game.handleKeyPress
    rw [if_pos rfl, if_pos hh, hdel]
    rfl
  refine ⟨rfl, rfl, rfl, rfl, ?_, _, hkey, ?_, ?_, ?_, Game.completeDelivery_hasPackage _ _ _,
    (Game.completeDelivery_win _ _ _ (by decide)).2.1⟩
  · simp [Game.handleSpacePress, lostNearHouse]
  · unfold Main.windowKeydown
    have hp : (!lostNearHouse.isPaused) = true := rfl
    rw [if_pos hp, hkey]
    rfl
  · rw [Game.completeDelivery_deliveries]
    rfl
  · rw [Game.completeDelivery_score]
    decide

/-- C19. `GameUtils.distance` is `Infinity` as soon as one argument is
missing; so with the guard passed and a player mesh present, when the position
of the mesh or of the restaurant is missing `pickupPackage` returns `false`
and gives back the very same game (no hint in the notification log, no field
changed), and so does `deliverPackage` when the position of the mesh or of the
house is missing. -/
theorem missing_position_is_infinitely_far (Distance : Vector3 → Vector3 → JSNumber)
    (g : Game) (pkg : Package) (building : Building) (player : Player) (mesh : Mesh)
    (hPkg : g.currentPackage = some pkg) (hPlayer : g.player = some player)
    (hMesh : player.mesh = some mesh)
    (hMissing : mesh.position = none ∨ building.position = none) :
    GameUtils.distance Distance mesh.position building.position = JSNumber.infinity ∧
      (g.hasPackage = false → g.currentRestaurant = some building →
        g.pickupPackage Distance = .ok (g, false)) ∧
      (g.hasPackage = true → g.currentHouse = some building →
        g.deliverPackage Distance = .ok (g, false)) := by
  have hinf : GameUtils.distance Distance mesh.position building.position
      = JSNumber.infinity := by
    rcases hMissing with h | h
    · rw [h]
      rfl
    · rw [h]
      cases mesh.position <;> rfl
  refine ⟨hinf, ?_, ?_⟩
  · intro hHas hRest
    unfold Game.pickupPackage
    simp only [hHas, hPkg, hRest, hPlayer, hMesh, hinf, JSNumber.lt]
    rfl
  · intro hHas hHouse
    unfold Game.deliverPackage
    simp only [hHas, hPkg, hHouse, hPlayer, hMesh, hinf, JSNumber.lt]
    rfl

/-- Witness of C19: a restaurant without a position. -/
theorem missing_position_is_infinitely_far_witness :
    GameUtils.distance axisDistance (some ⟨0, 0, -60⟩) none = JSNumber.infinity ∧
      (({ sampleGame ⟨0, 0, -60⟩ with
          currentRestaurant := some { id := 0, position := none } } : Game).pickupPackage
          axisDistance =
        .ok ({ sampleGame ⟨0, 0, -60⟩ with
          currentRestaurant := some { id := 0, position := none } }, false)) :=
  have h := missing_position_is_infinitely_far axisDistance
    { sampleGame ⟨0, 0, -60⟩ with currentRestaurant := some { id := 0, position := none } }
    { parent := false, position := ⟨0, 1, -60⟩, scaling := ⟨1, 1, 1⟩, disposed := false }
    { id := 0, position := none } (playerAt ⟨0, 0, -60⟩) { position := some ⟨0, 0, -60⟩ }
    rfl rfl rfl (Or.inr rfl)
  ⟨h.1, h.2.1 rfl rfl⟩

/-- C14 fails on the code: the delayed `createNewOrder` of a delivery has no
test of the status. A package is delivered in the last second, the 180th tick
ends the game as lost and the delivered package is removed; when the pending
`createNewOrder` then runs, the finished game gets a new order: another
house, a fresh package at the restaurant, a new-order notification. -/
theorem new_order_after_loss :
    lateCarryingGame.run axisDistance
        [Event.deliver, Event.tick, Event.timeout 0 sampleRand 2] = some lostAfterDelivery ∧
      lostAfterDelivery.isGameOver = true ∧ lostAfterDelivery.gameWon = false ∧
      lostAfterDelivery.deliveries = 1 ∧
      lostAfterDelivery.timeouts = [⟨Callback.createNewOrder, 2000⟩] ∧
      lostAfterDelivery.step axisDistance (Event.timeout 0 sampleRand 2) = some orderAfterLoss ∧
      orderAfterLoss.isGameOver = true ∧
      lostAfterDelivery.currentHouse = some sampleHouse ∧
      orderAfterLoss.currentHouse = some sampleHouse2 ∧
      lostAfterDelivery.currentPackage = none ∧
      orderAfterLoss.currentPackage =
        some { parent := false, position := ⟨0, 1, -60⟩, scaling := ⟨1, 1, 1⟩,
               disposed := false } ∧
      orderAfterLoss.notifications =
        lostAfterDelivery.notifications ++ [⟨Notice.newOrder, Severity.info⟩] :=
  ⟨lateCarryingGame_run, rfl, rfl, rfl, rfl, lostAfterDelivery_step, rfl, rfl, rfl, rfl, rfl,
    rfl⟩

/-- C18 fails on the code: from the game `reset` returns, a first mission is
played; the package just delivered is picked up again at the restaurant
before its removal callback fires; when the callback fires, `currentPackage`
becomes `null` while `hasPackage` is still true. -/
theorem carrying_without_package :
    (sampleGame ⟨30, 0, 30⟩).reset sampleRand 2 = some sampleResetGame ∧
      sampleResetGame.run axisDistance (sampleMission ++ secondPickup)
        = some carryingNothingGame ∧
      carryingNothingGame.hasPackage = true ∧ carryingNothingGame.currentPackage = none ∧
      carryingNothingGame.deliverPackage axisDistance = .ok (carryingNothingGame, false) ∧
      carryingNothingGame.pickupPackage axisDistance = .ok (carryingNothingGame, false) := by
  refine ⟨sampleGame_reset, ?_, rfl, rfl, ?_, ?_⟩
  · rw [Game.run_append axisDistance sampleMission secondPickup sampleResetGame
      sampleMissionGame sampleMission_run]
    exact sampleMissionGame_run
  · unfold Game.deliverPackage
    rfl
  · unfold Game.pickupPackage
    rfl

/-- C20, as stated, fails: `reset` is called while the `createNewOrder` of the
last delivery is pending; when that callback runs, the house of the order
created by `reset` is replaced by another house. -/
theorem stale_order_counterexample :
    sampleResetGame.run axisDistance sampleMission = some sampleMissionGame ∧
      sampleMissionGame.timeouts[2]? = some ⟨Callback.createNewOrder, 2000⟩ ∧
      sampleMissionGame.reset sampleRand 2 = some staleResetGame ∧
      staleResetGame.fireTimeout sampleRand 2 2 = some staleOrderGame ∧
      staleResetGame.currentHouse = some sampleHouse ∧
      staleOrderGame.currentHouse = some sampleHouse2 ∧
      staleOrderGame.currentHouse ≠ staleResetGame.currentHouse :=
  ⟨sampleMission_run, rfl, sampleMissionGame_reset, staleResetGame_fireTimeout, rfl, rfl,
    by decide⟩

/-- C20, amended. `reset` does not cancel a pending `createNewOrder`: when the
stale callback runs on the game `reset` returned, it puts a new order in place
of the one created by `reset`. The restaurant is the same, with two or more
houses the house is another member of `houses`, the package is replaced by a
fresh one at the restaurant with `hasPackage` false (when the restaurant has a
position), and a second new-order notification is shown; the score, the
clock and the status keep the values they had right after `reset`. -/
theorem stale_order_replaces_reset_order (rand0 rand : Nat → Draw) (fuel0 fuel i d : Nat)
    (g0 g g' : Game) (hreset : g0.reset rand0 fuel0 = some g)
    (hpending : g.timeouts[i]? = some ⟨Callback.createNewOrder, d⟩)
    (hfire : g.fireTimeout rand fuel i = some g') :
    g'.score = 0 ∧ g'.deliveries = 0 ∧ g'.level = 1 ∧ g'.time = 0 ∧
      g'.timeRemaining = (g.timeLimit : Int) ∧ g'.isPaused = false ∧
      g'.isGameOver = false ∧ g'.gameWon = false ∧
      g'.currentRestaurant = g.currentRestaurant ∧
      (2 ≤ g.houses.length →
        (∃ b ∈ g.houses, g'.currentHouse = some b) ∧ g'.currentHouse ≠ g.currentHouse) ∧
      (∀ r pos, g.currentRestaurant = some r → r.position = some pos →
        g'.hasPackage = false ∧
        g'.currentPackage = some { parent := false, position := { pos with y := 1 },
                                   scaling := ⟨1, 1, 1⟩, disposed := false }) ∧
      g'.notifications = g.notifications ++ [⟨Notice.newOrder, Severity.info⟩] := by
  obtain ⟨r1, r2, r3, r4, r5, r6, _, r8, r9, r10, _⟩ := reset_facts rand0 fuel0 g0 g hreset
  obtain ⟨o1, _, o3⟩ := Game.reset_order rand0 fuel0 g0 g hreset
  rw [Game.fireTimeout_createNewOrder rand fuel i d g hpending] at hfire
  obtain ⟨f1, f2, f3, f4, f5, f6, f7, f8, f9, f10, _⟩ :=
    Game.createNewOrder_facts rand fuel _ g' hfire
  obtain ⟨c1, _, _, k, ck, cacc⟩ := Game.createNewOrder_order rand fuel _ g' hfire
  have hrest : g'.currentRestaurant = g.currentRestaurant := by
    refine c1.trans ((Game.getRandomRestaurant_eq_head _).trans ?_)
    show g.restaurants.head? = g.currentRestaurant
    rw [o3, o1]
  refine ⟨f1.trans r1, f2.trans r2, f3.trans r3, f4.trans r4, ?_, f7.trans r8, f8.trans r9,
    f9.trans r10, hrest, ?_, ?_, f10⟩
  · rw [f5]
    exact r5.trans (by rw [r6])
  · intro hlen
    have hne : g.houses ≠ [] := by
      intro h0
      rw [h0] at hlen
      cases hlen
    have hdec : decide (g.houses.length > 1) = true := decide_eq_true (by omega)
    have hacc : sameObject g'.currentHouse g.currentHouse = false := by
      have := cacc
      simp only [hdec, Bool.true_and] at this
      exact this
    refine ⟨?_, ?_⟩
    · obtain ⟨b, hb, hget⟩ := Game.getRandomHouse_mem g (rand k) hne
      exact ⟨b, hb, ck.trans hget⟩
    · intro heq
      rw [heq, sameObject_self] at hacc
      cases hacc
  · intro r pos hr hpos
    have hget : Game.getRandomRestaurant { g with timeouts := g.timeouts.eraseIdx i }
        = some r := c1.symm.trans (hrest.trans hr)
    exact Game.createNewOrder_package rand fuel _ g' r pos hfire hget hpos

/-- Witness of C20 (amended): the reset that follows the first mission. -/
theorem stale_order_replaces_reset_order_witness :
    staleOrderGame.score = 0 ∧ staleOrderGame.deliveries = 0 ∧ staleOrderGame.level = 1 ∧
      staleOrderGame.time = 0 ∧ staleOrderGame.timeRemaining = (staleResetGame.timeLimit : Int) ∧
      staleOrderGame.isPaused = false ∧ staleOrderGame.isGameOver = false ∧
      staleOrderGame.gameWon = false ∧
      staleOrderGame.currentRestaurant = staleResetGame.currentRestaurant ∧
      (2 ≤ staleResetGame.houses.length →
        (∃ b ∈ staleResetGame.houses, staleOrderGame.currentHouse = some b) ∧
        staleOrderGame.currentHouse ≠ staleResetGame.currentHouse) ∧
      (∀ r pos, staleResetGame.currentRestaurant = some r → r.position = some pos →
        staleOrderGame.hasPackage = false ∧
        staleOrderGame.currentPackage =
          some { parent := false, position := { pos with y := 1 },
                 scaling := ⟨1, 1, 1⟩, disposed := false }) ∧
      staleOrderGame.notifications =
        staleResetGame.notifications ++ [⟨Notice.newOrder, Severity.info⟩] :=
  stale_order_replaces_reset_order sampleRand sampleRand 2 2 2 2000 sampleMissionGame
    staleResetGame staleOrderGame sampleMissionGame_reset rfl staleResetGame_fireTimeout

/-- C21, as stated, fails: in a city without restaurants and without houses
`init` completes; it returns a game with no restaurant, no house and no
package, in which `pickupPackage` and `deliverPackage` return `false`. -/
theorem init_empty_city_counterexample :
    Game.init [] [] (playerAt ⟨0, 2 / 5, 0⟩) sampleRand 1 Game.new = some emptyCityGame ∧
      emptyCityGame.currentRestaurant = none ∧ emptyCityGame.currentHouse = none ∧
      emptyCityGame.currentPackage = none ∧ emptyCityGame.isGameOver = false ∧
      emptyCityGame.pickupPackage axisDistance = .ok (emptyCityGame, false) ∧
      emptyCityGame.deliverPackage axisDistance = .ok (emptyCityGame, false) := by
  refine ⟨?_, rfl, rfl, rfl, rfl, Game.pickupPackage_of_no_package axisDistance _ rfl,
    Game.deliverPackage_of_no_house axisDistance _ rfl⟩
  simp [Game.init, Game.createNewOrder, Game.restaurantLoop, Game.houseLoop,
    Game.getRandomRestaurant, Game.getRandomHouse, Game.createPackage, emptyCityGame,
    sameObject, GameUtils.showNotification, setTimeout, Game.new]

/-- C21, amended. Called on a new `Game`, `init` completes whatever the city
provides. Without restaurants the game it returns has no restaurant and no
package and `pickupPackage` returns `false` in it; without houses it has no
house and `deliverPackage` returns `false` in any game without a house. The
notification of the new order is shown in both cases. -/
theorem init_completes_without_buildings (restaurants houses : List Building)
    (player : Player) (rand : Nat → Draw) (fuel : Nat) :
    ∃ g', Game.init restaurants houses player rand (fuel + 1) Game.new = some g' ∧
      g'.restaurants = restaurants ∧ g'.houses = houses ∧ g'.player = some player ∧
      g'.notifications = [⟨Notice.newOrder, Severity.info⟩] ∧
      (restaurants = [] → g'.currentRestaurant = none ∧ g'.currentPackage = none ∧
        ∀ Distance, g'.pickupPackage Distance = .ok (g', false)) ∧
      (houses = [] → g'.currentHouse = none ∧
        ∀ Distance, g'.deliverPackage Distance = .ok (g', false)) := by
  refine ⟨_, Game.init_new restaurants houses player rand fuel, ?_, ?_, ?_, ?_, ?_, ?_⟩
  · rw [Game.createPackage_frame]
    rfl
  · rw [Game.createPackage_frame]
    rfl
  · rw [Game.createPackage_frame]
    rfl
  · rw [Game.createPackage_frame]
    rfl
  · intro hr
    subst hr
    have hc := Game.createPackage_of_no_restaurant
      { Game.new with
        restaurants := []
        houses := houses
        player := some player
        currentRestaurant := ([] : List Building).head?
        currentHouse := Game.getRandomHouse
          { Game.new with restaurants := [], houses := houses, player := some player }
          (rand 0) } rfl rfl
    rw [hc]
    exact ⟨rfl, rfl, fun Distance => Game.pickupPackage_of_no_restaurant Distance _ rfl⟩
  · intro hh
    subst hh
    have hnone : (setTimeout (GameUtils.showNotification
        (Game.createPackage { Game.new with
          restaurants := restaurants
          houses := []
          player := some player
          currentRestaurant := restaurants.head?
          currentHouse := Game.getRandomHouse
            { Game.new with restaurants := restaurants, houses := [],
                            player := some player } (rand 0) })
        Notice.newOrder Severity.info) Callback.showDestination 1500).currentHouse = none := by
      rw [Game.createPackage_frame]
      rfl
    exact ⟨hnone, fun Distance => Game.deliverPackage_of_no_house Distance _ hnone⟩

/-- C22. After `d` successful deliveries that begin from score 0, deliveries 0
and level 1, each made with 500 or more seconds elapsed (the time bonus is
then zero), the score is the sum over `i = 1..d` of `100 * (1 + (i - 1) / 3)`,
the level at delivery `i` being `1 + (i - 1) / 3`; `deliveries` is `d` and the
level is `1 + d / 3`. -/
theorem score_after_deliveries (Distance : Vector3 → Vector3 → JSNumber) (g0 g : Game)
    (d : Nat) (hScore : g0.score = 0) (hDel : g0.deliveries = 0) (hLevel : g0.level = 1)
    (h : Game.AfterDeliveries Distance g0 d g) :
    g.score = ∑ i in Finset.Icc 1 d, 100 * (1 + (i - 1) / 3) ∧ g.deliveries = d ∧
      g.level = 1 + d / 3 := by
  induction h with
  | start => exact ⟨by simpa using hScore, hDel, by simpa using hLevel⟩
  | between d g g1 _ h1 h2 h3 ih =>
    exact ⟨h1.trans ih.1, h2.trans ih.2.1, h3.trans ih.2.2⟩
  | deliver d g g1 _ hTime hOk ih =>
    obtain ⟨i1, i2, i3⟩ := ih
    rcases Game.deliverPackage_cases Distance g g1 true hOk with
      ⟨_, _, pkg, housePos, rfl⟩ | ⟨hb, _⟩ | ⟨hb, _⟩
    · refine ⟨?_, ?_, ?_⟩
      · rw [Game.completeDelivery_score, Game.timeBonus_of_late g hTime,
          Finset.sum_Icc_succ_top (Nat.le_add_left 1 d), i1, i3]
        simp
      · rw [Game.completeDelivery_deliveries, i2]
      · rw [Game.completeDelivery_level, i2, i3]
        split_ifs <;> omega
    · cases hb
    · cases hb

/-- Witness of C22: one delivery made 500 seconds after the start. -/
theorem score_after_deliveries_witness :
    (lateFirstDelivery.completeDelivery
        { parent := false, position := ⟨0, 1, -60⟩, scaling := ⟨1, 1, 1⟩, disposed := false }
        ⟨-70, 0, 30⟩).score = ∑ i in Finset.Icc 1 1, 100 * (1 + (i - 1) / 3) ∧
      (lateFirstDelivery.completeDelivery
        { parent := false, position := ⟨0, 1, -60⟩, scaling := ⟨1, 1, 1⟩, disposed := false }
        ⟨-70, 0, 30⟩).deliveries = 1 ∧
      (lateFirstDelivery.completeDelivery
        { parent := false, position := ⟨0, 1, -60⟩, scaling := ⟨1, 1, 1⟩, disposed := false }
        ⟨-70, 0, 30⟩).level = 1 + 1 / 3 :=
  score_after_deliveries axisDistance lateFirstDelivery _ 1 rfl rfl rfl
    (Game.AfterDeliveries.deliver 0 lateFirstDelivery _ (Game.AfterDeliveries.start)
      (by decide)
      (Game.deliverPackage_near axisDistance lateFirstDelivery
        { parent := false, position := ⟨0, 1, -60⟩, scaling := ⟨1, 1, 1⟩, disposed := false }
        sampleHouse (playerAt ⟨-60, 0, 30⟩) { position := some ⟨-60, 0, 30⟩ } ⟨-70, 0, 30⟩
        rfl rfl rfl rfl rfl rfl
        (by simp [GameUtils.distance, axisDistance, sampleHouse, JSNumber.lt]; norm_num)))

/-- C23 fails on the code: `togglePause` assigns `isPaused` and then calls
`this.scene.getAnimationGroups()`, a method the scene of `main.js` does not
have, so the call throws a TypeError and returns nothing. In every game
`isPaused` is negated and every other field is as before, and a second call
gives back the original game; the new `isPaused` is returned only when the
scene has the method. In the game `sampleGame`, which has the scene of
`main.js`, the call throws, and the Escape key leaves the game paused with the
listener ended by the error. -/
theorem togglePause_throws :
    (∀ g : Game, g.togglePause.1 = { g with isPaused := !g.isPaused } ∧
      g.togglePause.1.togglePause.1 = g ∧
      (g.scene.getAnimationGroups = false → g.togglePause.2 = .error JSError.typeError) ∧
      (g.scene.getAnimationGroups = true → g.togglePause.2 = .ok (!g.isPaused))) ∧
    (sampleGame ⟨0, 2 / 5, 0⟩).scene = Main.scene ∧
    (sampleGame ⟨0, 2 / 5, 0⟩).isPaused = false ∧
    (sampleGame ⟨0, 2 / 5, 0⟩).togglePause =
      ({ sampleGame ⟨0, 2 / 5, 0⟩ with isPaused := true }, .error JSError.typeError) ∧
    Main.windowKeydown axisDistance (sampleGame ⟨0, 2 / 5, 0⟩) "Escape" =
      .error ⟨JSError.typeError, { sampleGame ⟨0, 2 / 5, 0⟩ with isPaused := true }⟩ := by
  refine ⟨fun g => ⟨rfl, ?_, ?_, ?_⟩, rfl, rfl, rfl, ?_⟩
  · cases g
    simp [Game.togglePause]
  · intro h
    simp [Game.togglePause, h]
  · intro h
    simp [Game.togglePause, h]
  · simp [Main.windowKeydown, Game.handleKeyPress, Game.togglePause, sampleGame, Game.new,
      Main.scene]

/-- C24. With the guard passed and a player mesh present, when the distance
`d` to the restaurant (`pickupPackage`) or to the house (`deliverPackage`) has
`15 ≤ d < 25` the call returns `false` and the game differs from the one
before only by one warning added to the notification log, the proximity hint;
when `25 ≤ d` the call returns `false` and gives back the very same game. -/
theorem hint_band (Distance : Vector3 → Vector3 → JSNumber) (g : Game) (pkg : Package)
    (building : Building) (player : Player) (mesh : Mesh) (d : ℚ)
    (hPkg : g.currentPackage = some pkg) (hPlayer : g.player = some player)
    (hMesh : player.mesh = some mesh)
    (hDist : GameUtils.distance Distance mesh.position building.position = JSNumber.finite d)
    (hd : 15 ≤ d) :
    (g.hasPackage = false → g.currentRestaurant = some building →
      (d < 25 → g.pickupPackage Distance =
        .ok ({ g with notifications :=
          g.notifications ++ [⟨Notice.closerToRestaurant, Severity.warning⟩] }, false)) ∧
      (25 ≤ d → g.pickupPackage Distance = .ok (g, false))) ∧
    (g.hasPackage = true → g.currentHouse = some building →
      (d < 25 → g.deliverPackage Distance =
        .ok ({ g with notifications :=
          g.notifications ++ [⟨Notice.closerToHouse, Severity.warning⟩] }, false)) ∧
      (25 ≤ d → g.deliverPackage Distance = .ok (g, false))) := by
  have h15 : (GameUtils.distance Distance mesh.position building.position).lt 15 = false := by
    rw [hDist, JSNumber.lt_finite]
    exact decide_eq_false (not_lt.mpr hd)
  have hin : d < 25 →
      (GameUtils.distance Distance mesh.position building.position).lt 25 = true := by
    intro h
    rw [hDist, JSNumber.lt_finite]
    exact decide_eq_true h
  have hout : 25 ≤ d →
      (GameUtils.distance Distance mesh.position building.position).lt 25 = false := by
    intro h
    rw [hDist, JSNumber.lt_finite]
    exact decide_eq_false (not_lt.mpr h)
  refine ⟨fun hHas hB => ⟨fun h => ?_, fun h => ?_⟩, fun hHas hB => ⟨fun h => ?_, fun h => ?_⟩⟩
  · exact Game.pickupPackage_hint Distance g pkg building player mesh hHas hPkg hB hPlayer
      hMesh h15 (hin h)
  · exact Game.pickupPackage_far Distance g pkg building player mesh hHas hPkg hB hPlayer
      hMesh (hout h) h15
  · exact Game.deliverPackage_hint Distance g pkg building player mesh hHas hPkg hB hPlayer
      hMesh h15 (hin h)
  · exact Game.deliverPackage_far Distance g pkg building player mesh hHas hPkg hB hPlayer
      hMesh (hout h) h15

/-- Witness of C24: the car 20 units from the restaurant of an open order. -/
theorem hint_band_witness :
    (sampleGame ⟨20, 0, -60⟩).pickupPackage axisDistance =
      .ok ({ sampleGame ⟨20, 0, -60⟩ with notifications :=
        (sampleGame ⟨20, 0, -60⟩).notifications ++
          [⟨Notice.closerToRestaurant, Severity.warning⟩] }, false) :=
  ((hint_band axisDistance (sampleGame ⟨20, 0, -60⟩)
    { parent := false, position := ⟨0, 1, -60⟩, scaling := ⟨1, 1, 1⟩, disposed := false }
    sampleRestaurant (playerAt ⟨20, 0, -60⟩) { position := some ⟨20, 0, -60⟩ } 20
    rfl rfl rfl
    (by simp [GameUtils.distance, axisDistance, sampleRestaurant])
    (by norm_num)).1 rfl rfl).1 (by norm_num)

/-- C25 fails on the code: `handleKeyPress('r')` and `handleKeyPress('R')`
only put the car back at its starting position. In every state they leave
`isGameOver`, `score`, `deliveries`, `time` and `timeRemaining` as they are;
in the game `lostNearHouse`, lost on time, the game is still over after the
key, with score 600, four deliveries, `time = 180` and `timeRemaining = 0`,
whether the key comes through `handleKeyPress` or through the `window`
listener. -/
theorem key_r_does_not_restart :
    (∀ (Distance : Vector3 → Vector3 → JSNumber) (g : Game) (key : String),
      key = "r" ∨ key = "R" →
      ∃ g', g.handleKeyPress Distance key = .ok g' ∧ g'.isGameOver = g.isGameOver ∧
        g'.gameWon = g.gameWon ∧ g'.score = g.score ∧ g'.deliveries = g.deliveries ∧
        g'.time = g.time ∧ g'.timeRemaining = g.timeRemaining) ∧
      lostNearHouse.isGameOver = true ∧ lostNearHouse.gameWon = false ∧
      lostNearHouse.timeLimit = 180 ∧
      ∃ g', lostNearHouse.handleKeyPress axisDistance "r" = .ok g' ∧
        lostNearHouse.handleKeyPress axisDistance "R" = .ok g' ∧
        Main.windowKeydown axisDistance lostNearHouse "r" = .ok g' ∧
        g' = { lostNearHouse with player := some (playerAt ⟨0, 2 / 5, 0⟩) } ∧
        g'.isGameOver = true ∧ g'.score = 600 ∧ g'.deliveries = 4 ∧ g'.time = 180 ∧
        g'.timeRemaining = 0 := by
  refine ⟨?_, rfl, rfl, rfl, _, Game.handleKeyPress_r axisDistance lostNearHouse "r" (Or.inl rfl),
    Game.handleKeyPress_r axisDistance lostNearHouse "R" (Or.inr rfl), ?_, rfl, rfl, rfl, rfl,
    rfl, rfl⟩
  · intro Distance g key hkey
    exact ⟨_, Game.handleKeyPress_r Distance g key hkey, rfl, rfl, rfl, rfl, rfl, rfl⟩
  · unfold Main.windowKeydown
    have hp : (!lostNearHouse.isPaused) = true := rfl
    rw [if_pos hp, Game.handleKeyPress_r axisDistance lostNearHouse "r" (Or.inl rfl)]
    rfl

/-- C26. `handleSpacePress` gives back the very same game (no field changed,
nothing added to the notification log) when the game is paused, or over, or
has no player; in every other state its effect is that of `deliverPackage`
when `hasPackage` is true and that of `pickupPackage` when it is false,
exceptions included. -/
theorem handleSpacePress_gated (Distance : Vector3 → Vector3 → JSNumber) (g : Game) :
    ((g.isPaused = true ∨ g.isGameOver = true ∨ g.player = none) →
        g.handleSpacePress Distance = .ok g) ∧
      (g.isPaused = false → g.isGameOver = false → g.player ≠ none →
        (g.hasPackage = true →
          g.handleSpacePress Distance = (g.deliverPackage Distance).map Prod.fst) ∧
        (g.hasPackage = false →
          g.handleSpacePress Distance = (g.pickupPackage Distance).map Prod.fst)) := by
  refine ⟨?_, ?_⟩
  · intro h
    unfold Game.handleSpacePress
    rcases h with h | h | h
    · simp [h]
    · simp [h]
    · simp [h]
  · intro hP hO hPl
    have hsome : g.player.isNone = false := by
      cases hp : g.player with
      | none => exact absurd hp hPl
      | some p => rfl
    refine ⟨?_, ?_⟩
    · intro hH
      unfold Game.handleSpacePress
      simp [hP, hO, hsome, hH]
    · intro hH
      unfold Game.handleSpacePress
      simp [hP, hO, hsome, hH]

/-- Witness of C26: a paused game, the car 10 units from the restaurant. -/
theorem handleSpacePress_gated_witness :
    pausedNearRestaurant.handleSpacePress axisDistance = .ok pausedNearRestaurant :=
  (handleSpacePress_gated axisDistance pausedNearRestaurant).1 (Or.inl rfl)

/-- C27. One press of the space bar reaches `handleSpacePress` through the
`document` listener and then `handleKeyPress(' ')` through the `window`
listener. In the city of `city.js`, with a distance that is never less than
the distance along the z axis, for every state and position of the car:
`deliveries` grows by at most 1, at most one of the two calls changes
`hasPackage`, a package picked up by the press is not delivered by it, and a
package delivered by it is not picked up again. -/
theorem space_press_one_transition (Distance : Vector3 → Vector3 → JSNumber) (g : Game)
    (hDistance : ∀ a b, (Distance a b).lt 15 = true → |a.z - b.z| < 15)
    (hRestaurant : ∀ r, g.currentRestaurant = some r → r ∈ CityBuilder.restaurants)
    (hHouse : ∀ b, g.currentHouse = some b → b ∈ CityBuilder.houses) :
    (Main.spaceKeydown Distance g).2.deliveries ≤ g.deliveries + 1 ∧
      ((Main.spaceKeydown Distance g).1.hasPackage = g.hasPackage ∨
        (Main.spaceKeydown Distance g).2.hasPackage =
          (Main.spaceKeydown Distance g).1.hasPackage) ∧
      (g.hasPackage = false → (Main.spaceKeydown Distance g).2.deliveries = g.deliveries) ∧
      ((Main.spaceKeydown Distance g).2.deliveries = g.deliveries + 1 →
        (Main.spaceKeydown Distance g).2.hasPackage = false) :=
  Main.spaceKeydown_transitions Distance g
    (Game.not_near_both Distance g hDistance hRestaurant hHouse)

/-- Witness of C27: the space bar pressed with the car at the restaurant. -/
theorem space_press_one_transition_witness :
    (Main.spaceKeydown axisDistance (sampleGame ⟨0, 0, -60⟩)).2.deliveries ≤
        (sampleGame ⟨0, 0, -60⟩).deliveries + 1 ∧
      ((Main.spaceKeydown axisDistance (sampleGame ⟨0, 0, -60⟩)).1.hasPackage =
          (sampleGame ⟨0, 0, -60⟩).hasPackage ∨
        (Main.spaceKeydown axisDistance (sampleGame ⟨0, 0, -60⟩)).2.hasPackage =
          (Main.spaceKeydown axisDistance (sampleGame ⟨0, 0, -60⟩)).1.hasPackage) ∧
      ((sampleGame ⟨0, 0, -60⟩).hasPackage = false →
        (Main.spaceKeydown axisDistance (sampleGame ⟨0, 0, -60⟩)).2.deliveries =
          (sampleGame ⟨0, 0, -60⟩).deliveries) ∧
      ((Main.spaceKeydown axisDistance (sampleGame ⟨0, 0, -60⟩)).2.deliveries =
          (sampleGame ⟨0, 0, -60⟩).deliveries + 1 →
        (Main.spaceKeydown axisDistance (sampleGame ⟨0, 0, -60⟩)).2.hasPackage = false) :=
  space_press_one_transition axisDistance (sampleGame ⟨0, 0, -60⟩) axisDistance_z
    (fun r hr => by
      cases hr
      exact List.Mem.head _)
    (fun b hb => by
      cases hb
      exact List.Mem.head _)

/-- C28 fails on the code: the fifth delivery wins the game and schedules the
removal of the delivered package; `reset` is called before the callback runs
and creates a new order with a fresh package at the restaurant; when the
callback runs it removes that package: `currentPackage` is `null`, no other
callback is pending that would create a package, and `pickupPackage` returns
`false` wherever the car is. -/
theorem removal_callback_takes_new_package :
    lastCarryingGame.deliverPackage axisDistance = .ok (justWonGame, true) ∧
      justWonGame.timeouts = [⟨Callback.disposePackage, 1500⟩] ∧
      justWonGame.reset sampleRand 2 = some playAgainGame ∧
      playAgainGame.currentPackage =
        some { parent := false, position := ⟨0, 1, -60⟩, scaling := ⟨1, 1, 1⟩,
               disposed := false } ∧
      playAgainGame.timeouts[0]? = some ⟨Callback.disposePackage, 1500⟩ ∧
      playAgainGame.fireTimeout sampleRand 2 0 = some noPackageGame ∧
      noPackageGame.currentPackage = none ∧ noPackageGame.isGameOver = false ∧
      noPackageGame.timeouts = [⟨Callback.showDestination, 1500⟩] ∧
      ∀ (Distance : Vector3 → Vector3 → JSNumber) (pos : Vector3),
        Game.pickupPackage Distance { noPackageGame with player := some (playerAt pos) } =
          .ok ({ noPackageGame with player := some (playerAt pos) }, false) :=
  ⟨lastCarryingGame_deliver, rfl, justWonGame_reset, rfl, rfl, playAgainGame_fireTimeout, rfl,
    rfl, rfl, fun Distance _ => Game.pickupPackage_of_no_package Distance _ rfl⟩

/-- C29. In every state reached from the game `reset` returns, with a delivery
goal of 5, by `handleSpacePress` calls, rendered frames, timer ticks, pause
toggles and fired timeouts, wherever the car is at each step:
`deliveries ≤ 5`, `level ≤ 2` and `score ≤ 1050`. -/
theorem score_and_delivery_bound (Distance : Vector3 → Vector3 → JSNumber)
    (rand : Nat → Draw) (fuel : Nat) (g0 g s : Game) (inputs : List Input)
    (hGoal : g0.deliveryGoal = 5) (hReset : g0.reset rand fuel = some g)
    (hPlay : g.play Distance inputs = some s) :
    s.deliveries ≤ 5 ∧ s.level ≤ 2 ∧ s.score ≤ 1050 := by
  obtain ⟨r1, r2, r3, _, _, _, r7, _, r9, _⟩ := reset_facts rand fuel g0 g hReset
  have hb : g.Bounded := by
    refine ⟨r7.trans hGoal, ?_, ?_, ?_, ?_⟩
    · rw [r2]
      decide
    · rw [r2, r3]
    · rw [r1]
      exact Nat.zero_le _
    · intro h
      rw [r2] at h
      cases h
  obtain ⟨_, b2, b3, b4, _⟩ := Game.play_bounded Distance inputs g s hPlay hb
  exact ⟨b2, by omega, b4.trans (Game.scoreBound_le _ b2)⟩

/-- Witness of C29: the first mission played with the space bar. -/
theorem score_and_delivery_bound_witness :
    samplePlayedGame.deliveries ≤ 5 ∧ samplePlayedGame.level ≤ 2 ∧
      samplePlayedGame.score ≤ 1050 :=
  score_and_delivery_bound axisDistance sampleRand 2 (sampleGame ⟨30, 0, 30⟩) sampleResetGame
    samplePlayedGame sampleInputs rfl sampleGame_reset sampleInputs_play

/-- C30. For `0 ≤ s ≤ 5999`, `formatTime(s)` has five characters: the two
decimal digits of `s / 60`, a colon, the two decimal digits of `s % 60`, which
is less than 60; `formatTime(180)` is `03:00`; reading the string back as
`60 * MM + SS` gives `s`; so no other `t` of the range has the same string. -/
theorem formatTime_round_trip (s : Nat) (h : s ≤ 5999) :
    (GameUtils.formatTime s).data =
        [Nat.digitChar (s / 60 / 10), Nat.digitChar (s / 60 % 10), ':',
          Nat.digitChar (s % 60 / 10), Nat.digitChar (s % 60 % 10)] ∧
      (GameUtils.formatTime s).length = 5 ∧ s / 60 < 100 ∧ s % 60 < 60 ∧
      GameUtils.formatTime 180 = "03:00" ∧
      readClock (GameUtils.formatTime s) = s ∧
      ∀ t, t ≤ 5999 → GameUtils.formatTime t = GameUtils.formatTime s → t = s := by
  refine ⟨GameUtils.formatTime_data s h, ?_, by omega, Nat.mod_lt _ (by decide), rfl,
    readClock_formatTime s h, ?_⟩
  · show (GameUtils.formatTime s).data.length = 5
    rw [GameUtils.formatTime_data s h]
    rfl
  · intro t ht heq
    rw [← readClock_formatTime t ht, heq, readClock_formatTime s h]

/-- Witness of C30: the three minutes of the time limit. -/
theorem formatTime_round_trip_witness :
    (GameUtils.formatTime 180).data = ['0', '3', ':', '0', '0'] ∧
      (GameUtils.formatTime 180).length = 5 ∧ readClock (GameUtils.formatTime 180) = 180 ∧
      ∀ t, t ≤ 5999 → GameUtils.formatTime t = GameUtils.formatTime 180 → t = 180 :=
  have h := formatTime_round_trip 180 (by decide)
  ⟨h.1, h.2.1, h.2.2.2.2.2.1, h.2.2.2.2.2.2⟩

end Delivery
